import Mathlib

/-
  Formal model of the cre8rflow editing core: the timeline document model
  (backend/app/timeline.py), the command executor with snapshot history
  (backend/app/command_executor.py and backend/app/executor_handlers/), the
  reference resolver, and the rule-based command grammar for CUT together
  with the time utilities (backend/app/command_handlers/cut.py,
  backend/app/utils.py).

  Modelling conventions:
  - Python ints that hold frame positions become Int; Python floats
    (seconds, tolerances, frame rates) become Rat.
  - Python dictionaries produced by to_dict become record/inductive types
    mirroring exactly the keys the code reads and writes.
  - Functions that can raise (IndexError, TypeError, ValueError, KeyError,
    AttributeError) return Except String.
  - uuid.uuid4() draws are passed in explicitly as arguments or modelled by
    a named constant where the drawn value is irrelevant.
  - time.time() timestamps on history entries are omitted: no code path
    reads them back.
-/

/-- Python round() to an integer: round half to even, as applied by the
int(round(x)) idiom used for frame conversions throughout the code. -/
def pyRound (q : ℚ) : Int :=
  let f : Int := Int.floor q
  let r : ℚ := q - (f : ℚ)
  if r < (1 : ℚ)/2 then f
  else if (1 : ℚ)/2 < r then f + 1
  else if f % 2 = 0 then f else f + 1

/-- Python int() applied to a float: truncation toward zero. -/
def pyInt (q : ℚ) : Int :=
  if q < 0 then Int.ceil q else Int.floor q

/-- Python truthiness of an optional string: None and the empty string are
falsy. -/
def truthyS : Option String → Bool
  | none => false
  | some s => s ≠ ""

/-- A Python value stored in an operation parameter map: None, an int, a
float, or a string. Claim-relevant operations only ever carry these. -/
inductive PValue where
  | vNone : PValue
  | vInt (i : Int) : PValue
  | vFloat (q : ℚ) : PValue
  | vStr (s : String) : PValue
deriving DecidableEq, Repr

/-- Python truthiness of a parameter value. -/
def truthyV : PValue → Bool
  | .vNone => false
  | .vInt i => i != 0
  | .vFloat q => q != 0
  | .vStr s => s != ""

/-- Effect (timeline.py class Effect): effect_type tag, parameter map,
optional start/end frame range. The field stop is the source field end
(a Lean keyword). -/
structure Effect where
  effect_type : String
  params : List (String × PValue)
  start : Option Int
  stop : Option Int
deriving DecidableEq, Repr

/-- A slot of a track clip list (Python is untyped: a track clip list may
hold VideoClip and CompoundClip instances, and the Effects track holds raw
Effect objects appended by the overlay handler).
video is class VideoClip, compound is class CompoundClip, effectItem is an
Effect object stored in a clip list. stop is the source field end. -/
inductive Clip where
  | video (clip_id : String) (name : String) (start : Int) (stop : Int)
      (track_type : String) (effects : List Effect) (file_path : Option String) : Clip
  | compound (clip_id : String) (name : String) (start : Int) (stop : Int)
      (track_type : String) (effects : List Effect) (clips : List Clip) : Clip
  | effectItem (e : Effect) : Clip
deriving Repr

/-- getattr(x, "name", None). -/
def Clip.nameAttr : Clip → Option String
  | .video _ n _ _ _ _ _ => some n
  | .compound _ n _ _ _ _ _ => some n
  | .effectItem _ => none

/-- getattr(x, "clip_id", None). -/
def Clip.clipIdAttr : Clip → Option String
  | .video cid _ _ _ _ _ _ => some cid
  | .compound cid _ _ _ _ _ _ => some cid
  | .effectItem _ => none

/-- The start attribute. Effect.start is optional in the source, so the
common attribute is an optional Int. -/
def Clip.startAttr : Clip → Option Int
  | .video _ _ s _ _ _ _ => some s
  | .compound _ _ s _ _ _ _ => some s
  | .effectItem e => e.start

/-- The end attribute (source name end). -/
def Clip.stopAttr : Clip → Option Int
  | .video _ _ _ e _ _ _ => some e
  | .compound _ _ _ e _ _ _ => some e
  | .effectItem e => e.stop

/-- getattr(x, "file_path", None); on VideoClip the attribute itself may be
None, flattened here into one Option. -/
def Clip.filePathAttr : Clip → Option String
  | .video _ _ _ _ _ _ fp => fp
  | .compound _ _ _ _ _ _ _ => none
  | .effectItem _ => none

/-- Start of a clip stored as a child of a CompoundClip. Such children are
always VideoClip or CompoundClip instances (CompoundClip.add_clip raises
TypeError on anything else), so the effectItem case is unreachable there. -/
def Clip.startD : Clip → Int
  | .video _ _ s _ _ _ _ => s
  | .compound _ _ s _ _ _ _ => s
  | .effectItem e => e.start.getD 0

/-- End of a clip stored as a child of a CompoundClip (see startD). -/
def Clip.stopD : Clip → Int
  | .video _ _ _ e _ _ _ => e
  | .compound _ _ _ e _ _ _ => e
  | .effectItem e => e.stop.getD 0

/-- Python min over a nonempty list given as head and tail. -/
def listMinD (x : Int) (xs : List Int) : Int := xs.foldl min x

/-- Python max over a nonempty list given as head and tail. -/
def listMaxD (x : Int) (xs : List Int) : Int := xs.foldl max x

/-- CompoundClip.recalculate_bounds: if the child list is nonempty, start
and end become the min start and max end over the children; an empty child
list leaves the stored bounds untouched. On non compound values this is the
identity. -/
def Clip.recalculate_bounds : Clip → Clip
  | .compound cid nm s e tt fx cs =>
    match cs.map Clip.startD, cs.map Clip.stopD with
    | s0 :: ss, e0 :: es => .compound cid nm (listMinD s0 ss) (listMaxD e0 es) tt fx cs
    | _, _ => .compound cid nm s e tt fx cs
  | c => c

/-- The CompoundClip constructor called with a clips argument: each child is
added through add_clip, which recalculates bounds, so the stored bounds are
the min/max over the children when the list is nonempty and the passed
start/stop otherwise. The effects list is assigned separately by callers
(from_dict assigns the deserialized effects, trim/join leave it empty). -/
def CompoundClip.init (clip_id : String) (name : String) (start : Int) (stop : Int)
    (track_type : String) (clips : List Clip) (effects : List Effect) : Clip :=
  Clip.recalculate_bounds (.compound clip_id name start stop track_type effects clips)

/-- The VideoClip constructor: int conversion of the frame bounds is a
no-op here since the model already uses Int. -/
def VideoClip.init (clip_id : String) (name : String) (start : Int) (stop : Int)
    (track_type : String) (file_path : Option String) : Clip :=
  .video clip_id name start stop track_type [] file_path

/-- Track (timeline.py class Track). -/
structure Track where
  name : String
  track_type : String
  clips : List Clip
deriving Repr

/-- Transition (timeline.py class Transition); duration is a float in
seconds. -/
structure Transition where
  from_clip : String
  to_clip : String
  transition_type : String
  duration : ℚ
deriving DecidableEq, Repr

/-- Timeline (timeline.py class Timeline). The on_change callback is a
synchronous void hook with no observable effect on the model and is
omitted; _notify_change is therefore a no-op. -/
structure Timeline where
  tracks : List Track
  duration : ℚ
  transitions : List Transition
  frame_rate : ℚ
deriving Repr

/-- Timeline.__init__: the four default tracks. -/
def Timeline.init (frame_rate : ℚ) : Timeline :=
  { tracks := [
      { name := "Video 1", track_type := "video", clips := [] },
      { name := "Audio 1", track_type := "audio", clips := [] },
      { name := "Subtitles", track_type := "subtitle", clips := [] },
      { name := "Effects", track_type := "effect", clips := [] }],
    duration := 0,
    transitions := [],
    frame_rate := frame_rate }

/-- Timeline.frames_to_seconds. -/
def Timeline.frames_to_seconds (tl : Timeline) (frames : Int) : ℚ :=
  (frames : ℚ) / tl.frame_rate

/-- Timeline.seconds_to_frames: int(round(seconds * frame_rate)). -/
def Timeline.seconds_to_frames (tl : Timeline) (seconds : ℚ) : Int :=
  pyRound (seconds * tl.frame_rate)

/- ===================== Serialized (dict) forms ===================== -/

/-- Serialized form of an Effect: the dict written by Effect.to_dict. tag
is the _type discriminator; start/stop are written only when present. -/
structure EffectDict where
  tag : String
  effect_type : String
  params : List (String × PValue)
  start : Option Int
  stop : Option Int
deriving DecidableEq, Repr

/-- Serialized form of one slot of a clips array: either a clip dict
(written by VideoClip.to_dict / CompoundClip.to_dict) or an effect dict
(an Effect stored in a track clip list serializes via Effect.to_dict).
For clip dicts: tag is _type; file_path is the file_path key (absent for
compound clips, modelled as none); clips is the children array (absent for
video clips, modelled as empty, matching the .get default); frame_rate is
the optional frame_rate key that VideoClip.from_dict reads with default 30
and that to_dict never writes. -/
inductive ItemDict where
  | clipD (tag : String) (clip_id : String) (name : String) (start : Int) (stop : Int)
      (track_type : String) (effects : List EffectDict) (file_path : Option String)
      (clips : List ItemDict) (frame_rate : Option ℚ) : ItemDict
  | effectD (d : EffectDict) : ItemDict
deriving Repr

/-- Effect.to_dict. -/
def Effect.to_dict (e : Effect) : EffectDict :=
  { tag := "Effect", effect_type := e.effect_type, params := e.params,
    start := e.start, stop := e.stop }

/-- Effect.from_dict (the dispatch on _type can only find the class Effect
itself among the classes defined in timeline.py). -/
def Effect.from_dict (d : EffectDict) : Effect :=
  { effect_type := d.effect_type, params := d.params, start := d.start, stop := d.stop }

mutual
/-- VideoClip.to_dict / CompoundClip.to_dict / Effect.to_dict, on one slot
of a clips list. -/
def Clip.to_dict : Clip → ItemDict
  | .video cid nm s e tt fx fp =>
    .clipD "VideoClip" cid nm s e tt (fx.map Effect.to_dict) fp [] none
  | .compound cid nm s e tt fx cs =>
    .clipD "CompoundClip" cid nm s e tt (fx.map Effect.to_dict) none (clipsToDict cs) none
  | .effectItem ef => .effectD (Effect.to_dict ef)

/-- to_dict mapped over a clips list. -/
def clipsToDict : List Clip → List ItemDict
  | [] => []
  | c :: cs => Clip.to_dict c :: clipsToDict cs
end

/-- Models str(uuid.uuid4()) in the from_dict constructors; only reached
when a serialized clip carries a falsy clip_id, which to_dict never
produces. -/
def uuid4Model : String := "acd1f137-0000-4000-8000-uuid4"

/-- VideoClip.from_dict: reads frame_rate with default 30; when end is
below 1000 the bounds are treated as seconds and rescaled to frames with
int(round(v * frame_rate)). The constructor argument clip_id or uuid4()
draws a fresh id when clip_id is falsy. The children array of the dict is
ignored by this class. -/
def VideoClip.from_dict : ItemDict → Clip
  | .clipD _ cid nm s e tt fx fp _ frOpt =>
    let fr : ℚ := frOpt.getD 30
    let s2 : Int := if e < 1000 then pyRound ((s : ℚ) * fr) else s
    let e2 : Int := if e < 1000 then pyRound ((e : ℚ) * fr) else e
    let c : Clip := VideoClip.init (if cid = "" then uuid4Model else cid) nm s2 e2 tt fp
    match c with
    | .video cid2 nm2 s3 e3 tt2 _ fp2 => .video cid2 nm2 s3 e3 tt2 (fx.map Effect.from_dict) fp2
    | other => other
  | .effectD e =>
    -- unreachable through the _type dispatch (effect dicts go to
    -- Effect.from_dict); Python would raise KeyError on the name key
    .effectItem (Effect.from_dict e)

mutual
/-- CompoundClip.from_dict: children are deserialized through the _type
dispatch (globals() lookup with default VideoClip), then passed to the
CompoundClip constructor, which recalculates the stored bounds from the
children whenever the list is nonempty; the effects field is assigned
afterwards. -/
def CompoundClip.from_dict : ItemDict → Clip
  | .clipD _ cid nm s e tt fx _ cls _ =>
    CompoundClip.init (if cid = "" then uuid4Model else cid) nm s e tt
      (clipsFromDict cls) (fx.map Effect.from_dict)
  | .effectD e =>
    -- unreachable through the _type dispatch; Python would raise KeyError
    .effectItem (Effect.from_dict e)

/-- The per-slot _type dispatch used by Track.from_dict and
CompoundClip.from_dict: _type CompoundClip selects CompoundClip.from_dict,
_type Effect selects Effect.from_dict, anything else (including unknown
tags) falls back to VideoClip.from_dict. -/
def clipsFromDict : List ItemDict → List Clip
  | [] => []
  | c :: cs =>
    (match c with
     | .effectD e => .effectItem (Effect.from_dict e)
     | .clipD tag _ _ _ _ _ _ _ _ _ =>
       if tag = "CompoundClip" then CompoundClip.from_dict c else VideoClip.from_dict c)
    :: clipsFromDict cs
end

/-- The _type dispatch on a single serialized slot. -/
def clipFromDict (c : ItemDict) : Clip :=
  match c with
  | .effectD e => .effectItem (Effect.from_dict e)
  | .clipD tag _ _ _ _ _ _ _ _ _ =>
    if tag = "CompoundClip" then CompoundClip.from_dict c else VideoClip.from_dict c

/-- Serialized form of a Track. -/
structure TrackDict where
  tag : String
  name : String
  track_type : String
  clips : List ItemDict
deriving Repr

/-- Track.to_dict. -/
def Track.to_dict (t : Track) : TrackDict :=
  { tag := "Track", name := t.name, track_type := t.track_type,
    clips := clipsToDict t.clips }

/-- Track.from_dict: name and track_type are required keys; each clip slot
goes through the _type dispatch; the clips list is assigned directly
(no add_clip, so stored positions are preserved). -/
def Track.from_dict (d : TrackDict) : Track :=
  { name := d.name, track_type := d.track_type, clips := clipsFromDict d.clips }

/-- Serialized form of a Transition. -/
structure TransitionDict where
  tag : String
  from_clip : String
  to_clip : String
  transition_type : Option String
  duration : Option ℚ
deriving DecidableEq, Repr

/-- Transition.to_dict. -/
def Transition.to_dict (t : Transition) : TransitionDict :=
  { tag := "Transition", from_clip := t.from_clip, to_clip := t.to_clip,
    transition_type := some t.transition_type, duration := some t.duration }

/-- Transition.from_dict: from_clip and to_clip required, transition_type
defaults to crossfade and duration to 1.0. -/
def Transition.from_dict (d : TransitionDict) : Transition :=
  { from_clip := d.from_clip, to_clip := d.to_clip,
    transition_type := d.transition_type.getD "crossfade",
    duration := d.duration.getD 1 }

/-- Serialized form of a Timeline; frame_rate, tracks and transitions are
read back with .get defaults. -/
structure TimelineDict where
  tag : String
  version : String
  frame_rate : Option ℚ
  tracks : Option (List TrackDict)
  transitions : Option (List TransitionDict)
deriving Repr

/-- Timeline.to_dict. -/
def Timeline.to_dict (tl : Timeline) : TimelineDict :=
  { tag := "Timeline", version := "1.0", frame_rate := some tl.frame_rate,
    tracks := some (tl.tracks.map Track.to_dict),
    transitions := some (tl.transitions.map Transition.to_dict) }

/-- Timeline.from_dict: builds a fresh Timeline (duration 0) with the
deserialized tracks and transitions. The version key is stored on the
instance but never read back. -/
def Timeline.from_dict (d : TimelineDict) : Timeline :=
  { Timeline.init (d.frame_rate.getD 30) with
    tracks := (d.tracks.getD []).map Track.from_dict,
    transitions := (d.transitions.getD []).map Transition.from_dict }

/- ===================== Recursive clip locator ===================== -/

/-- One step of list surgery: replace the element at index i (Python
pop(i) followed by inserts at i). Out of range indices leave the list
unchanged (unreachable from the locator results). -/
def modIdx (f : Clip → Clip) : List Clip → Nat → List Clip
  | [], _ => []
  | x :: xs, 0 => f x :: xs
  | x :: xs, n + 1 => x :: modIdx f xs n

/-- _find_clip_recursive_by_id over a clip list, keeping the index base i
of the current tail inside the container list. Returns the path of
compound child indices leading to the owning container, the index inside
that container, the owning container list itself and the found clip,
mirroring the (parent_container, index, clip) triple of the source. -/
def findIdAux (target_id : String) (container : List Clip) :
    List Clip → Nat → Option (List Nat × Nat × List Clip × Clip)
  | [], _ => none
  | c :: rest, i =>
    if c.clipIdAttr = some target_id then some ([], i, container, c)
    else
      match c with
      | .compound _ _ _ _ _ _ children =>
        match findIdAux target_id children children 0 with
        | some (p, j, par, cl) => some (i :: p, j, par, cl)
        | none => findIdAux target_id container rest (i + 1)
      | _ => findIdAux target_id container rest (i + 1)

/-- _find_clip_recursive by name (the target_id None branch); the name
check happens before descending into a compound, and the search continues
with later siblings when a compound subtree has no match. -/
def findNameAux (target_name : Option String) (container : List Clip) :
    List Clip → Nat → Option (List Nat × Nat × List Clip × Clip)
  | [], _ => none
  | c :: rest, i =>
    if c.nameAttr = target_name then some ([], i, container, c)
    else
      match c with
      | .compound _ _ _ _ _ _ children =>
        match findNameAux target_name children children 0 with
        | some (p, j, par, cl) => some (i :: p, j, par, cl)
        | none => findNameAux target_name container rest (i + 1)
      | _ => findNameAux target_name container rest (i + 1)

/-- Timeline._find_clip_recursive: id search when target_id is not None,
name search otherwise. -/
def find_clip_recursive (cs : List Clip) (target_name : Option String)
    (target_id : Option String) : Option (List Nat × Nat × List Clip × Clip) :=
  match target_id with
  | some tid => findIdAux tid cs cs 0
  | none => findNameAux target_name cs cs 0

/-- Mutate the container list reached by following the given path of
compound child indices, recalculating the bounds of every compound along
the path bottom-up. This is the composite of the in-place list mutation
and Timeline._update_ancestor_bounds, which recalculates exactly the
compounds whose child list identity lies on the path to the mutated
container. An empty path mutates the track level list (no bounds there). -/
def updateAtPath (f : List Clip → List Clip) : List Clip → List Nat → List Clip
  | cs, [] => f cs
  | cs, i :: p =>
    modIdx (fun c =>
      match c with
      | .compound cid nm s e tt fx children =>
        Clip.recalculate_bounds (.compound cid nm s e tt fx (updateAtPath f children p))
      | other => other) cs i

/-- Replace the clip at (path, index) in place without any bounds repair
(the cut handler mutates clip.start / clip.end directly and performs no
ancestor repair in those branches). -/
def setClipAt (g : Clip → Clip) : List Clip → List Nat → Nat → List Clip
  | cs, [], j => modIdx g cs j
  | cs, i :: p, j =>
    modIdx (fun c =>
      match c with
      | .compound cid nm s e tt fx children => .compound cid nm s e tt fx (setClipAt g children p j)
      | other => other) cs i

/- ===================== Track access ===================== -/

/-- Timeline.get_track: the index-th track of the given type; raises
IndexError when missing. A negative index hits the Python negative
indexing of the filtered list (the guard only rejects index >= len). -/
def Timeline.get_track (tl : Timeline) (track_type : String) (index : Int) :
    Except String Track :=
  let matching := tl.tracks.filter (fun t => t.track_type = track_type)
  if matching.isEmpty || (matching.length : Int) ≤ index then
    .error "IndexError: no track of the requested type at the given index"
  else
    let j : Int := if index < 0 then (matching.length : Int) + index else index
    match matching[j.toNat]? with
    | some t => .ok t
    | none => .error "IndexError: no track of the requested type at the given index"

/-- Write back a new clips list into the index-th track of the given type,
modelling the in-place mutation of the track object that get_track
returned. -/
def setTrackClipsAux (track_type : String) (newClips : List Clip) :
    List Track → Nat → List Track
  | [], _ => []
  | t :: ts, k =>
    if t.track_type = track_type then
      if k = 0 then { t with clips := newClips } :: ts
      else t :: setTrackClipsAux track_type newClips ts (k - 1)
    else t :: setTrackClipsAux track_type newClips ts k

/-- See setTrackClipsAux; index is resolved the same way get_track
resolves it. -/
def Timeline.setTrackClips (tl : Timeline) (track_type : String) (index : Int)
    (newClips : List Clip) : Timeline :=
  let m := (tl.tracks.filter (fun t => t.track_type = track_type)).length
  let k : Nat := (if index < 0 then (m : Int) + index else index).toNat
  { tl with tracks := setTrackClipsAux track_type newClips tl.tracks k }

/- ===================== Structural operations ===================== -/

/-- Timeline.trim_clip. u1 u2 are the two str(uuid.uuid4()) draws for the
part clips. Returns the updated timeline and the boolean result; raises
(IndexError) when the requested track does not exist, and models the
dynamic type errors that Python would raise if the locator matched a raw
Effect object. -/
def Timeline.trim_clip (tl : Timeline) (clip_name : Option String) (timestamp : PValue)
    (track_type : String) (track_index : Int) (clip_id : Option String)
    (u1 u2 : String) : Except String (Timeline × Bool) := do
  let track ← tl.get_track track_type track_index
  match find_clip_recursive track.clips clip_name clip_id, timestamp with
  | some (p, idx, _parent, clip), ts =>
    if ts == PValue.vNone then .ok (tl, false) else do
    let tsq : ℚ ← (match ts with
      | .vInt i => .ok ((i : ℚ))
      | .vFloat q => .ok q
      | _ => .error "TypeError: unsupported operand types for *")
    let tf := tl.seconds_to_frames tsq
    match clip with
    | .video _ nm s e _ _ _ =>
      if s < tf ∧ tf < e then
        let duration1 := tf - s
        let duration2 := e - tf
        let first := VideoClip.init u1 (nm ++ "_part1") s (s + duration1) "video" none
        let second := VideoClip.init u2 (nm ++ "_part2") tf (tf + duration2) "video" none
        let newClips := updateAtPath
          (fun l => l.take idx ++ [first, second] ++ l.drop (idx + 1)) track.clips p
        .ok (tl.setTrackClips track_type track_index newClips, true)
      else .ok (tl, false)
    | .compound _ nm s e _ _ _ =>
      if s < tf ∧ tf < e then
        let duration1 := tf - s
        let duration2 := e - tf
        let first := CompoundClip.init u1 (nm ++ "_part1") s (s + duration1) "video" [] []
        let second := CompoundClip.init u2 (nm ++ "_part2") tf (tf + duration2) "video" [] []
        let newClips := updateAtPath
          (fun l => l.take idx ++ [first, second] ++ l.drop (idx + 1)) track.clips p
        .ok (tl.setTrackClips track_type track_index newClips, true)
      else .ok (tl, false)
    | .effectItem ef =>
      -- a raw Effect can only be located when clip_name and clip_id are
      -- both None; Python then either fails the bound comparison with a
      -- TypeError (None bound) or raises AttributeError on .name
      match ef.start, ef.stop with
      | some s, some e =>
        if s < tf ∧ tf < e then .error "AttributeError: Effect object has no attribute name"
        else .ok (tl, false)
      | _, _ => .error "TypeError: comparison of None and int"
  | _, _ => .ok (tl, false)

/-- Timeline.join_clips. u is the str(uuid.uuid4()) draw for the joined
clip. -/
def Timeline.join_clips (tl : Timeline) (first_clip_name : Option String)
    (second_clip_name : Option String) (track_type : String) (track_index : Int)
    (first_clip_id : Option String) (second_clip_id : Option String)
    (u : String) : Except String (Timeline × Bool) := do
  let track ← tl.get_track track_type track_index
  match find_clip_recursive track.clips first_clip_name first_clip_id with
  | none => .ok (tl, false)
  | some (p, idx, parent, first) =>
    match parent[idx + 1]? with
    | none => .ok (tl, false)
    | some second =>
      if (if truthyS second_clip_id then second.clipIdAttr = second_clip_id
          else second.nameAttr = second_clip_name) then
        match first.stopAttr, second.startAttr with
        | some e1, some s2 =>
          if |(e1 : ℚ) - (s2 : ℚ)| < (1 : ℚ)/1000000 then
            match first.nameAttr, second.nameAttr, first.startAttr, second.stopAttr with
            | some n1, some n2, some s1, some e2 =>
              match first with
              | .effectItem _ => .error "TypeError: Effect is not a clip constructor"
              | .compound _ _ _ _ _ _ _ =>
                let joined := CompoundClip.init u (n1 ++ "_joined_" ++ n2) s1 e2 "video" [] []
                let newClips := updateAtPath
                  (fun l => l.take idx ++ [joined] ++ l.drop (idx + 2)) track.clips p
                .ok (tl.setTrackClips track_type track_index newClips, true)
              | .video _ _ _ _ _ _ _ =>
                let joined := VideoClip.init u (n1 ++ "_joined_" ++ n2) s1 e2 "video" none
                let newClips := updateAtPath
                  (fun l => l.take idx ++ [joined] ++ l.drop (idx + 2)) track.clips p
                .ok (tl.setTrackClips track_type track_index newClips, true)
            | _, _, _, _ => .error "AttributeError: Effect object has no attribute name"
          else .ok (tl, false)
        | _, _ => .error "TypeError: comparison of None and int"
      else .ok (tl, false)

/-- Timeline.remove_clip. -/
def Timeline.remove_clip (tl : Timeline) (clip_name : Option String) (track_type : String)
    (track_index : Int) (clip_id : Option String) : Except String (Timeline × Bool) := do
  let track ← tl.get_track track_type track_index
  match find_clip_recursive track.clips clip_name clip_id with
  | some (p, idx, _parent, _clip) =>
    let newClips := updateAtPath (fun l => l.take idx ++ l.drop (idx + 1)) track.clips p
    .ok (tl.setTrackClips track_type track_index newClips, true)
  | none => .ok (tl, false)

/-- The depth-first pre-order flattening used by remove_clip_by_index:
every clip paired with the path of its owning container and its index
there; a compound is listed before its children. -/
def flattenPathsAux : List Clip → List Nat → Nat → List (List Nat × Nat)
  | [], _, _ => []
  | c :: rest, pref, i =>
    (pref, i) ::
      ((match c with
        | .compound _ _ _ _ _ _ children => flattenPathsAux children (pref ++ [i]) 0
        | _ => []) ++ flattenPathsAux rest pref (i + 1))

/-- Timeline.remove_clip_by_index. -/
def Timeline.remove_clip_by_index (tl : Timeline) (clip_index : Int) (track_type : String)
    (track_index : Int) : Except String (Timeline × Bool) := do
  let track ← tl.get_track track_type track_index
  let flat := flattenPathsAux track.clips [] 0
  if 0 ≤ clip_index ∧ clip_index < (flat.length : Int) then
    match flat[clip_index.toNat]? with
    | some (p, idx) =>
      let newClips := updateAtPath (fun l => l.take idx ++ l.drop (idx + 1)) track.clips p
      .ok (tl.setTrackClips track_type track_index newClips, true)
    | none => .ok (tl, false)
  else .ok (tl, false)

/-- Overwrite the start and end attributes of a slot (Track.add_clip does
this on whatever object it is given). -/
def Clip.setBounds : Clip → Int → Int → Clip
  | .video cid nm _ _ tt fx fp, s, e => .video cid nm s e tt fx fp
  | .compound cid nm _ _ tt fx cs, s, e => .compound cid nm s e tt fx cs
  | .effectItem ef, s, e => .effectItem { ef with start := some s, stop := some e }

/-- Overwrite the track_type attribute (move_clip re-tags the moved clip).
On a raw Effect the assignment would create a new attribute that nothing
reads; modelled as the identity. -/
def Clip.setTrackType : Clip → String → Clip
  | .video cid nm s e _ fx fp, tt => .video cid nm s e tt fx fp
  | .compound cid nm s e _ fx cs, tt => .compound cid nm s e tt fx cs
  | .effectItem ef, _ => .effectItem ef

/-- Track.add_clip: sequential append. The clip keeps its duration; its
start is forced to the end of the last clip (or 0 / the requested
position on an empty track); an explicit position that does not match the
last end within 1e-6 raises ValueError. Python stores the raw position
float into the start field; the model truncates it to Int, which agrees
with every integral call site. -/
def Track.add_clip (t : Track) (clip : Clip) (position : Option ℚ) :
    Except String Track := do
  match clip.startAttr, clip.stopAttr with
  | some cs, some ce =>
    let duration := ce - cs
    match t.clips.getLast? with
    | some last =>
      match last.stopAttr with
      | some lastEnd =>
        match position with
        | some pos =>
          if |pos - (lastEnd : ℚ)| > (1 : ℚ)/1000000 then
            .error "ValueError: Clips must be sequential"
          else
            let s := pyInt pos
            .ok { t with clips := t.clips ++ [clip.setBounds s (s + duration)] }
        | none => .ok { t with clips := t.clips ++ [clip.setBounds lastEnd (lastEnd + duration)] }
      | none => .error "TypeError: comparison of None and float"
    | none =>
      let s : Int := match position with | none => 0 | some p => pyInt p
      .ok { t with clips := t.clips ++ [clip.setBounds s (s + duration)] }
  | _, _ => .error "TypeError: arithmetic on None"

/-- Timeline.move_clip: pop from the source container (with ancestor
bounds repair), re-tag the track type, then sequential-append into the
destination track. -/
def Timeline.move_clip (tl : Timeline) (clip_name : Option String)
    (source_track_type : String) (source_track_index : Int)
    (dest_track_type : String) (dest_track_index : Int)
    (dest_position : Option ℚ) (clip_id : Option String) :
    Except String (Timeline × Bool) := do
  let strack ← tl.get_track source_track_type source_track_index
  match find_clip_recursive strack.clips clip_name clip_id with
  | none => .ok (tl, false)
  | some (p, idx, _parent, clip) =>
    let tl1 := tl.setTrackClips source_track_type source_track_index
      (updateAtPath (fun l => l.take idx ++ l.drop (idx + 1)) strack.clips p)
    let moved := clip.setTrackType dest_track_type
    let dtrack ← tl1.get_track dest_track_type dest_track_index
    let dtrack2 ← dtrack.add_clip moved dest_position
    .ok (tl1.setTrackClips dest_track_type dest_track_index dtrack2.clips, true)

/-- CompoundClip.add_clip: append a child and recalculate bounds; raises
TypeError when the value is not a clip. On a non compound clip the method
does not exist. -/
def CompoundClip.add_clip (c : Clip) (child : Clip) : Except String Clip :=
  match child with
  | .effectItem _ => .error "TypeError: CompoundClip can only contain BaseClip instances"
  | _ =>
    match c with
    | .compound cid nm s e tt fx cs =>
      .ok (Clip.recalculate_bounds (.compound cid nm s e tt fx (cs ++ [child])))
    | _ => .error "AttributeError: add_clip"

/-- CompoundClip.remove_clip: list.remove removes the first child equal to
the given object (object identity for these classes), here captured by the
child index; out of range models a ValueError. The bounds are then
recalculated. -/
def CompoundClip.remove_clip_at (c : Clip) (i : Nat) : Except String Clip :=
  match c with
  | .compound cid nm s e tt fx cs =>
    if i < cs.length then
      .ok (Clip.recalculate_bounds (.compound cid nm s e tt fx (cs.take i ++ cs.drop (i + 1))))
    else .error "ValueError: list.remove(x): x not in list"
  | _ => .error "AttributeError: remove_clip"

/- ===================== Flattening and export ===================== -/

/-- CompoundClip.flatten_clips over a child list: compounds expand
recursively, everything else is kept. -/
def flattenList : List Clip → List Clip
  | [] => []
  | c :: cs =>
    (match c with
     | .compound _ _ _ _ _ _ children => flattenList children
     | other => [other]) ++ flattenList cs

/-- Timeline.get_all_clips: concatenate the (recursively flattened) clips
of every track of the given type, sort by the start attribute, then raise
AttributeError if any clip lacks a truthy file_path. For a raw Effect with
start None Python would raise during sorting; the sort key defaults that
case to 0, which never arises on claim inputs. -/
def Timeline.get_all_clips (tl : Timeline) (track_type : String) :
    Except String (List Clip) :=
  let collected := (tl.tracks.filter (fun t => t.track_type = track_type)).flatMap
    (fun t => t.clips.flatMap (fun c =>
      match c with
      | .compound _ _ _ _ _ _ children => flattenList children
      | other => [other]))
  let sorted := collected.mergeSort (fun a b => a.startAttr.getD 0 ≤ b.startAttr.getD 0)
  if sorted.all (fun c => match c.filePathAttr with | some s => s ≠ "" | none => false) then
    .ok sorted
  else
    .error "AttributeError: clip is missing required file_path attribute for export"

/- ===================== Compound bounds invariant ===================== -/

mutual
/-- The compound bounds invariant: every CompoundClip with at least one
child has start equal to the min child start and end equal to the max
child end, recursively. -/
def Clip.boundsOk : Clip → Bool
  | .video _ _ _ _ _ _ _ => true
  | .effectItem _ => true
  | .compound _ _ s e _ _ cs =>
    (match cs.map Clip.startD, cs.map Clip.stopD with
     | s0 :: ss, e0 :: es => s == listMinD s0 ss && e == listMaxD e0 es
     | _, _ => true) && clipsBoundsOk cs

/-- boundsOk over a clip list. -/
def clipsBoundsOk : List Clip → Bool
  | [] => true
  | c :: cs => c.boundsOk && clipsBoundsOk cs
end

/-- The bounds invariant over a whole timeline. -/
def Timeline.boundsOkAll (tl : Timeline) : Bool :=
  tl.tracks.all (fun t => clipsBoundsOk t.clips)

/- ===================== Operation and parameter values ===================== -/

/-- A parameter dictionary (insertion ordered, unique keys). -/
abbrev Params := List (String × PValue)

/-- dict.get(k, default). A stored None is returned as such (it is only
the absent key that yields the default). -/
def Params.getD (ps : Params) (k : String) (d : PValue) : PValue :=
  match ps.find? (fun kv => kv.1 == k) with
  | some kv => kv.2
  | none => d

/-- dict.get(k): absent keys give None. -/
def Params.get (ps : Params) (k : String) : PValue :=
  ps.getD k .vNone

/-- dict[k] = v assignment. -/
def Params.set (ps : Params) (k : String) (v : PValue) : Params :=
  if (ps.find? (fun kv => kv.1 == k)).isSome then
    ps.map (fun kv => if kv.1 == k then (k, v) else kv)
  else ps ++ [(k, v)]

/-- The comprehension that drops the resolver-only keys when re-stamping
an operation. -/
def Params.dropKeys (ps : Params) (ks : List String) : Params :=
  ps.filter (fun kv => !(ks.contains kv.1))

/-- Read a parameter that downstream code uses as a str-or-None: non-str
non-None values would simply fail every string comparison in Python; the
claims only involve str or None here. -/
def PValue.asOptStr : PValue → Option String
  | .vStr s => some s
  | _ => none

/-- Python float(v): ints and floats convert, None raises TypeError. A
numeric string parses as sign, digits, optional fractional part. -/
def parseFloatChars (l : List Char) : Option ℚ :=
  let core : List Char → Option ℚ := fun l2 =>
    let intPart := l2.takeWhile Char.isDigit
    let rest := l2.dropWhile Char.isDigit
    match rest with
    | [] => if intPart.isEmpty then none else
        some ((intPart.foldl (fun a c => a * 10 + (c.toNat - 48)) 0 : Nat) : ℚ)
    | p :: frac =>
      if p = Char.ofNat 46 ∧ frac.all Char.isDigit ∧ (!intPart.isEmpty ∨ !frac.isEmpty) then
        let ip : Nat := intPart.foldl (fun a c => a * 10 + (c.toNat - 48)) 0
        let fp : Nat := frac.foldl (fun a c => a * 10 + (c.toNat - 48)) 0
        some ((ip : ℚ) + (fp : ℚ) / ((10 : ℚ) ^ frac.length))
      else none
  match l with
  | c :: rest =>
    if c = Char.ofNat 45 then (core rest).map (fun q => -q)
    else if c = Char.ofNat 43 then core rest
    else core l
  | [] => none

/-- Python float() on a parameter value. -/
def PValue.asFloat : PValue → Except String ℚ
  | .vInt i => .ok (i : ℚ)
  | .vFloat q => .ok q
  | .vStr s =>
    match parseFloatChars s.data with
    | some q => .ok q
    | none => .error "ValueError: could not convert string to float"
  | .vNone => .error "TypeError: float() argument must not be None"

/-- Python int() on a parameter value (int(float) truncates toward zero;
an integer string parses with optional sign). -/
def PValue.asInt : PValue → Except String Int
  | .vInt i => .ok i
  | .vFloat q => .ok (pyInt q)
  | .vStr s =>
    let core : List Char → Option Int := fun l =>
      if l.isEmpty || !l.all Char.isDigit then none
      else some ((l.foldl (fun a c => a * 10 + (c.toNat - 48)) 0 : Nat) : Int)
    (match s.data with
     | c :: rest =>
       if c = Char.ofNat 45 then
         match core rest with
         | some n => .ok (-n)
         | none => .error "ValueError: invalid literal for int"
       else
         match core s.data with
         | some n => .ok n
         | none => .error "ValueError: invalid literal for int"
     | [] => .error "ValueError: invalid literal for int")
  | .vNone => .error "TypeError: int() argument must not be None"

/-- EditOperation (command_types.py): type tag, optional target reference,
parameter map. -/
structure EditOperation where
  type : String
  target : Option String
  parameters : Params
deriving DecidableEq, Repr

/-- ExecutionResult (executor_types.py). The optional data payload is not
set by any registered handler and is omitted. Messages are modelled
without the interpolated values. -/
structure ExecutionResult where
  success : Bool
  message : String
deriving DecidableEq, Repr

/- ===================== find_track_index_for_clip ===================== -/

/-- The inner clip scan of CommandExecutor.find_track_index_for_clip:
clip.name is a direct attribute access, which raises AttributeError on a
raw Effect object reached before a match. -/
def clipListHasName : List Clip → Option String → Except String Bool
  | [], _ => .ok false
  | c :: cs, nm =>
    match c with
    | .effectItem _ => .error "AttributeError: Effect object has no attribute name"
    | _ => if c.nameAttr = nm then .ok true else clipListHasName cs nm

/-- Walk the tracks in timeline order; rel is the relative index among the
tracks of the requested type. -/
def findTrackIdxAux (clip_name : Option String) (track_type : String) :
    List Track → Int → Except String (Option Int)
  | [], _ => .ok none
  | t :: ts, rel =>
    if t.track_type == track_type then
      match clipListHasName t.clips clip_name with
      | .error e => .error e
      | .ok true => .ok (some rel)
      | .ok false => findTrackIdxAux clip_name track_type ts (rel + 1)
    else findTrackIdxAux clip_name track_type ts rel

/-- CommandExecutor.find_track_index_for_clip: the relative index of the
first track of the given type whose top-level clips contain the name, or
None. -/
def find_track_index_for_clip (tl : Timeline) (clip_name : Option String)
    (track_type : String) : Except String (Option Int) :=
  findTrackIdxAux clip_name track_type tl.tracks 0

/- ===================== CutOperationHandler ===================== -/

/-- CutOperationHandler.execute (executor_handlers/cut.py). u1 u2 are the
uuid draws used by the middle-split branch. The handler reads the target,
optional clip_id, start/end seconds, track_type (default video) and
optional track_index; resolves the track; locates the clip recursively;
clamps the requested range to the clip bounds; then either trims the start
in place, trims the end in place, splits into two clips around the excised
span (with ancestor bounds repair), or fails with an invalid-range result.
The in-place trims perform no ancestor bounds repair. A compound target in
the split branch raises AttributeError on clip.file_path. -/
def CutOperationHandler.execute (op : EditOperation) (tl : Timeline)
    (u1 u2 : String) : Except String (ExecutionResult × Timeline) := do
  let clip_name := op.target
  let clip_id := (op.parameters.get "clip_id").asOptStr
  let start_sec := op.parameters.get "start"
  let end_sec := op.parameters.get "end"
  match (op.parameters.getD "track_type" (.vStr "video")).asOptStr with
  | none =>
    -- a non-string track_type matches no track: with no explicit
    -- track_index the scan finds nothing and the handler reports failure;
    -- with one, validation runs first and get_track then raises
    (match op.parameters.get "track_index" with
     | .vNone => .ok ({ success := false, message := "Clip not found in any track." }, tl)
     | v => do
       let _ ← v.asInt
       if (!truthyS clip_name && !truthyS clip_id) ||
           start_sec == PValue.vNone || end_sec == PValue.vNone then
         .ok ({ success := false, message := "Missing clip name/id or start/end for CUT operation." }, tl)
       else
         .error "IndexError: no track of the requested type at the given index")
  | some track_type => do
    let track_index ← (match op.parameters.get "track_index" with
      | .vNone => do
        match ← find_track_index_for_clip tl clip_name track_type with
        | none => .ok (Sum.inl ({ success := false, message := "Clip not found in any track." } : ExecutionResult))
        | some found => .ok (Sum.inr found)
      | v => do
        let i ← v.asInt
        .ok (Sum.inr i))
    match track_index with
    | .inl res => .ok (res, tl)
    | .inr track_index => do
      let frame_rate := tl.frame_rate
      if (!truthyS clip_name && !truthyS clip_id) ||
          start_sec == PValue.vNone || end_sec == PValue.vNone then
        .ok ({ success := false, message := "Missing clip name/id or start/end for CUT operation." }, tl)
      else do
        let track ← tl.get_track track_type track_index
        match find_clip_recursive track.clips clip_name clip_id with
        | none => .ok ({ success := false, message := "Clip not found." }, tl)
        | some (p, idx, _parent, clip) =>
          match clip.startAttr, clip.stopAttr with
          | some cs, some ce =>
            let clip_start_sec : ℚ := (cs : ℚ) / frame_rate
            let clip_end_sec : ℚ := (ce : ℚ) / frame_rate
            let s ← start_sec.asFloat
            let e ← end_sec.asFloat
            let cut_start := max s clip_start_sec
            let cut_end := min e clip_end_sec
            if |cut_start - clip_start_sec| < (1 : ℚ)/1000 ∧ cut_end < clip_end_sec then
              let new_start_frame := pyRound (cut_end * frame_rate)
              let newClips := setClipAt (fun c => c.setBounds new_start_frame (c.stopD)) track.clips p idx
              .ok ({ success := true, message := "Trimmed start of clip." },
                   tl.setTrackClips track_type track_index newClips)
            else if cut_start > clip_start_sec ∧ |cut_end - clip_end_sec| < (1 : ℚ)/1000 then
              let new_end_frame := pyRound (cut_start * frame_rate)
              let newClips := setClipAt (fun c => c.setBounds (c.startD) new_end_frame) track.clips p idx
              .ok ({ success := true, message := "Trimmed end of clip." },
                   tl.setTrackClips track_type track_index newClips)
            else if cut_start > clip_start_sec ∧ cut_end < clip_end_sec then
              match clip with
              | .video _ nm s0 e0 tt _ fp =>
                let first := VideoClip.init u1 (nm ++ "_part1") s0 (pyRound (cut_start * frame_rate)) tt fp
                let second := VideoClip.init u2 (nm ++ "_part2") (pyRound (cut_end * frame_rate)) e0 tt fp
                let newClips := updateAtPath
                  (fun l => l.take idx ++ [first, second] ++ l.drop (idx + 1)) track.clips p
                .ok ({ success := true, message := "Cut out segment from clip, leaving a gap." },
                     tl.setTrackClips track_type track_index newClips)
              | .compound _ _ _ _ _ _ _ =>
                .error "AttributeError: CompoundClip object has no attribute file_path"
              | .effectItem _ =>
                .error "AttributeError: Effect object has no attribute name"
            else
              .ok ({ success := false, message := "Invalid cut/trim range for clip." }, tl)
          | _, _ => .error "TypeError: unsupported operand involving None"

/- ===================== Character level string helpers ===================== -/

/-- str.lower() (the code only lowercases ASCII command text). -/
def lowerStr (s : String) : String := String.mk (s.data.map Char.toLower)

/-- Whitespace for str.strip() and the regex class backslash-s. -/
def isWs (c : Char) : Bool := c = ' ' || c = Char.ofNat 9 || c = Char.ofNat 10 || c = Char.ofNat 13

/-- str.strip(). -/
def stripChars (l : List Char) : List Char :=
  ((l.dropWhile isWs).reverse.dropWhile isWs).reverse

/-- Prefix test on character lists. -/
def startsWithChars : List Char → List Char → Bool
  | [], _ => true
  | _ :: _, [] => false
  | p :: ps, c :: cs => p == c && startsWithChars ps cs

/-- Python substring containment (the in operator on str). -/
def containsSub (pat : List Char) : List Char → Bool
  | [] => pat.isEmpty
  | c :: cs => startsWithChars pat (c :: cs) || containsSub pat cs

/-- str.split() with no separator: split on whitespace runs, no empty
words. -/
def splitWs (l : List Char) : List (List Char) :=
  let p := l.foldr (fun c acc =>
    if isWs c then
      match acc with
      | ([], ws) => ([], ws)
      | (w, ws) => ([], w :: ws)
    else (c :: acc.1, acc.2)) (([] : List Char), ([] : List (List Char)))
  match p with
  | ([], ws) => ws
  | (w, ws) => w :: ws

/-- str.split(sep) for a one character separator; empty pieces are kept. -/
def splitOnChar (sep : Char) : List Char → List (List Char)
  | [] => [[]]
  | c :: rest =>
    let r := splitOnChar sep rest
    if c = sep then [] :: r
    else
      match r with
      | [] => [[c]]
      | h :: t => (c :: h) :: t

/-- Digits of a nonempty all-digit word as a natural number. -/
def digitsToNat (l : List Char) : Nat :=
  l.foldl (fun a c => a * 10 + (c.toNat - 48)) 0

/-- Python int(str): optional sign, then digits; surrounding whitespace is
ignored; anything else raises ValueError. -/
def parseIntChars (l0 : List Char) : Option Int :=
  let l := stripChars l0
  match l with
  | c :: rest =>
    if c = Char.ofNat 45 then
      if !rest.isEmpty && rest.all Char.isDigit then some (-(digitsToNat rest : Int)) else none
    else if c = Char.ofNat 43 then
      if !rest.isEmpty && rest.all Char.isDigit then some ((digitsToNat rest : Int)) else none
    else if l.all Char.isDigit then some ((digitsToNat l : Int))
    else none
  | [] => none

/- ===================== Reference resolver ===================== -/

/-- The word ordinals recognised by the resolver and the grammar. -/
def ORDINALS : List String :=
  ["first", "second", "third", "fourth", "fifth", "sixth", "seventh",
   "eighth", "ninth", "tenth"]

/-- re.match of the numeric ordinal pattern digits followed by st, nd, rd
or th (a prefix match: trailing text is allowed). -/
def matchNumericOrdinal (s : String) : Option Nat :=
  let ds := s.data.takeWhile Char.isDigit
  let rest := s.data.dropWhile Char.isDigit
  if ds.isEmpty then none
  else if ["st", "nd", "rd", "th"].any (fun suf => startsWithChars suf.data rest) then
    some (digitsToNat ds)
  else none

/-- The clip name attribute as a direct access (raises AttributeError on a
raw Effect object). -/
def clipNameOrErr (c : Clip) : Except String String :=
  match c.nameAttr with
  | some n => .ok n
  | none => .error "AttributeError: Effect object has no attribute name"

/-- The named-reference scan: return the stored name of the first clip
whose lowercased name equals the lowercased query. -/
def findNamedClip (lname : String) : List Clip → Except String (Option String)
  | [] => .ok none
  | c :: cs => do
    let n ← clipNameOrErr c
    if lowerStr n = lname then .ok (some n) else findNamedClip lname cs

/-- CommandExecutor.resolve_clip_reference: resolve a positional, named or
ordinal reference against the top-level clips of the tracks matching the
track-type filter, in timeline order; ordinal references use
ref_track_type when truthy. Returns the resolved clip name or None. -/
def resolve_clip_reference (tl : Timeline) (reference : String) (reference_type : String)
    (track_type : String) (ordinal : Option String) (ref_track_type : Option String) :
    Except String (Option String) :=
  if reference_type = "ordinal" then
    let ttype := match ref_track_type with
      | some r => if r ≠ "" then r else track_type
      | none => track_type
    let tracks := tl.tracks.filter (fun t => t.track_type = ttype)
    if tracks.isEmpty then .ok none
    else
      let all_clips := tracks.flatMap (fun t => t.clips)
      if all_clips.isEmpty then .ok none
      else
        let idx : Option Int := match ordinal with
          | none => none
          | some o =>
            if o = "" then none
            else
              let ol := lowerStr o
              match ORDINALS.indexOf? ol with
              | some i => some (i : Int)
              | none =>
                match matchNumericOrdinal ol with
                | some n => some ((n : Int) - 1)
                | none => none
        match idx with
        | some i =>
          if 0 ≤ i ∧ i < (all_clips.length : Int) then
            match all_clips[i.toNat]? with
            | some c => do
              let n ← clipNameOrErr c
              .ok (some n)
            | none => .ok none
          else .ok none
        | none => .ok none
  else
    let tracks := tl.tracks.filter (fun t => t.track_type = track_type)
    if tracks.isEmpty then .ok none
    else
      let all_clips := tracks.flatMap (fun t => t.clips)
      if all_clips.isEmpty then .ok none
      else
        if reference_type = "positional" then
          if lowerStr reference = "last clip" then
            match all_clips.getLast? with
            | some c => do
              let n ← clipNameOrErr c
              .ok (some n)
            | none => .ok none
          else if lowerStr reference = "first clip" then
            match all_clips.head? with
            | some c => do
              let n ← clipNameOrErr c
              .ok (some n)
            | none => .ok none
          else .ok none
        else if reference_type = "named" then
          let name := String.mk (stripChars ((reference.data.drop "clip named ".length)))
          findNamedClip (lowerStr name) all_clips
        else .ok none

/- ===================== Time utilities (utils.py) ===================== -/

/-- The number-word table NUM_WORDS. -/
def NUM_WORDS : List (String × Nat) :=
  [("zero", 0), ("one", 1), ("two", 2), ("three", 3), ("four", 4), ("five", 5),
   ("six", 6), ("seven", 7), ("eight", 8), ("nine", 9), ("ten", 10),
   ("eleven", 11), ("twelve", 12), ("thirteen", 13), ("fourteen", 14),
   ("fifteen", 15), ("sixteen", 16), ("seventeen", 17), ("eighteen", 18),
   ("nineteen", 19), ("twenty", 20), ("thirty", 30), ("forty", 40),
   ("fifty", 50), ("sixty", 60), ("seventy", 70), ("eighty", 80), ("ninety", 90)]

/-- words_to_number: lowercase, turn hyphens into spaces, split on
whitespace, accumulate number words (hundred and thousand multiply the
accumulator; unknown words are skipped); None unless positive. -/
def words_to_number (text : String) : Option ℚ :=
  let l := (text.data.map Char.toLower).map (fun c => if c = Char.ofNat 45 then ' ' else c)
  let ws := (splitWs l).map String.mk
  let current := ws.foldl (fun acc w =>
    match NUM_WORDS.find? (fun kv => kv.1 == w) with
    | some kv => acc + kv.2
    | none =>
      if w = "hundred" then acc * 100
      else if w = "thousand" then acc * 1000
      else acc) 0
  if 0 < current then some ((current : Nat) : ℚ) else none

/-- Greedy capture of the regex idiom CLASS+ followed by backslash-s* and
a literal: the longest nonempty class prefix whose remainder, after
optional whitespace, starts with the literal (re.match semantics: trailing
text after the literal is allowed; the s? suffix of the literal never
affects matchability). -/
def greedyAux (cls : Char → Bool) (lit : List Char) (l : List Char) : Nat → Option (List Char)
  | 0 => none
  | Nat.succ k =>
    let cap := l.take (Nat.succ k)
    let rest := l.drop (Nat.succ k)
    if cap.all cls && startsWithChars lit (rest.dropWhile isWs) then some cap
    else greedyAux cls lit l k

/-- See greedyAux. -/
def greedyClassThen (cls : Char → Bool) (lit : List Char) (l : List Char) : Option (List Char) :=
  greedyAux cls lit l (l.takeWhile cls).length

/-- The character class of the last-N capture: lowercase letters, hyphen,
digits and space. -/
def lastNClass (c : Char) : Bool :=
  (Char.ofNat 97 ≤ c && c ≤ Char.ofNat 122) || c = Char.ofNat 45 || c.isDigit || c = ' '

/-- The character class of the number-words capture: lowercase letters,
hyphen and space. -/
def wordClass (c : Char) : Bool :=
  (Char.ofNat 97 ≤ c && c ≤ Char.ofNat 122) || c = Char.ofNat 45 || c = ' '

/-- The digits capture followed by a unit with its short alternative, for
the patterns digits+ backslash-s* (seconds?|s) and the minute/hour
variants. -/
def matchDigitsUnit (longUnit : String) (short : String) (l : List Char) : Option ℚ :=
  let ds := l.takeWhile Char.isDigit
  let rest := (l.dropWhile Char.isDigit).dropWhile isWs
  if ds.isEmpty then none
  else if startsWithChars longUnit.data rest || startsWithChars short.data rest then
    some ((digitsToNat ds : Nat) : ℚ)
  else none

/-- The FRACTIONS table (longer phrases first). -/
def FRACTIONS : List (List Char × ℚ) :=
  [("three quarters".data, (3 : ℚ)/4), ("half".data, (1 : ℚ)/2),
   ("quarter".data, (1 : ℚ)/4), ("third".data, (1 : ℚ)/3)]

/-- parse_natural_time_expression: recognise the last N seconds/minutes
(relative to the duration), explicit second/minute/hour amounts in digits
or number words, fractional phrases relative to the duration, halfway, and
the literals start, beginning and end. None when unrecognised. -/
def parse_natural_time_expression (text : String) (duration : Option ℚ) : Option ℚ :=
  let t := String.mk (stripChars text.data |>.map Char.toLower)
  let l := t.data
  -- the last X seconds
  let lastSec : Option ℚ :=
    match duration with
    | some dur =>
      match (if startsWithChars "the last ".data l then
               greedyClassThen lastNClass "second".data (l.drop 9) else none) with
      | some cap =>
        (match words_to_number (String.mk cap) with
         | some num => some (dur - num)
         | none =>
           match parseFloatChars (stripChars cap) with
           | some num => some (dur - num)
           | none => none)
      | none => none
    | none => none
  match lastSec with
  | some r => some r
  | none =>
  -- the last X minutes
  let lastMin : Option ℚ :=
    match duration with
    | some dur =>
      match (if startsWithChars "the last ".data l then
               greedyClassThen lastNClass "minute".data (l.drop 9) else none) with
      | some cap =>
        (match words_to_number (String.mk cap) with
         | some num => some (dur - num * 60)
         | none =>
           match parseFloatChars (stripChars cap) with
           | some num => some (dur - num * 60)
           | none => none)
      | none => none
    | none => none
  match lastMin with
  | some r => some r
  | none =>
  match matchDigitsUnit "second" "s" l with
  | some q => some q
  | none =>
  match matchDigitsUnit "minute" "m" l with
  | some q => some (q * 60)
  | none =>
  match matchDigitsUnit "hour" "h" l with
  | some q => some (q * 3600)
  | none =>
  -- number words with units
  let wordUnit : String → Option ℚ := fun unit =>
    match greedyClassThen wordClass unit.data l with
    | some cap => words_to_number (String.mk cap)
    | none => none
  match wordUnit "second" with
  | some q => some q
  | none =>
  match wordUnit "minute" with
  | some q => some (q * 60)
  | none =>
  match wordUnit "hour" with
  | some q => some (q * 3600)
  | none =>
  -- fractions relative to the duration
  let fracHit : Option ℚ :=
    match duration with
    | some dur => (FRACTIONS.find? (fun fw => containsSub fw.1 l)).map (fun fw => dur * fw.2)
    | none => none
  match fracHit with
  | some r => some r
  | none =>
  match duration with
  | some dur =>
    if containsSub "halfway".data l then some (dur * (1 : ℚ)/2)
    else if t = "start" || t = "beginning" then some 0
    else if t = "end" then some dur
    else none
  | none =>
    if t = "start" || t = "beginning" then some 0
    else none

/-- timestamp_to_frames (utils.py): numeric values scale by the frame rate
with int() truncation; H:MM:SS and MM:SS strings convert exactly; a
trailing s is stripped; other strings must parse as float. -/
def timestamp_to_frames (timestamp : PValue) (frame_rate : Int) : Except String Int :=
  match timestamp with
  | .vInt i => .ok (pyInt ((i : ℚ) * (frame_rate : ℚ)))
  | .vFloat q => .ok (pyInt (q * (frame_rate : ℚ)))
  | .vStr s =>
    let l := s.data
    if l.contains (Char.ofNat 58) then
      let parts := splitOnChar (Char.ofNat 58) l
      match parts.mapM parseIntChars with
      | none => .error "ValueError: invalid literal for int"
      | some ns =>
        match ns with
        | [a, b] => .ok (a * 60 * frame_rate + b * frame_rate)
        | [a, b, c] => .ok (a * 3600 * frame_rate + b * 60 * frame_rate + c * frame_rate)
        | _ =>
          -- falls through to the float conversion, which fails on a colon
          .error "ValueError: could not convert string to float"
    else if (!l.isEmpty) && l.getLast? = some (Char.ofNat 115) then
      match parseFloatChars (l.take (l.length - 1)) with
      | some q => .ok (pyInt (q * (frame_rate : ℚ)))
      | none => .error "ValueError: could not convert string to float"
    else
      match parseFloatChars l with
      | some q => .ok (pyInt (q * (frame_rate : ℚ)))
      | none => .error "ValueError: could not convert string to float"
  | .vNone => .error "TypeError: int() argument must not be None"

/- ===================== Cut command grammar ===================== -/

/-- Case insensitive literal prefix match (the whole grammar is compiled
with re.I). lit is lowercase; returns the matched original slice and the
remainder. -/
def ciLit (lit : List Char) (l : List Char) : Option (List Char × List Char) :=
  if (l.take lit.length).map Char.toLower = lit then
    some (l.take lit.length, l.drop lit.length)
  else none

/-- The regex word class: letters, digits and underscore. -/
def isWordChar (c : Char) : Bool := c.isAlphanum || c = Char.ofNat 95

/-- The capture groups of the shared target sub-grammar
(full_target_pattern in command_handlers/cut.py): the whole matched target
text plus the optional named groups. -/
structure TargetMatch where
  target : String
  target_pronoun : Option String
  ordinal : Option String
  ref_track_type : Option String
  start_time : Option String
deriving DecidableEq, Repr

/-- A TargetMatch with only the target group set. -/
def mkTM (cap : List Char) : TargetMatch :=
  { target := String.mk cap, target_pronoun := none, ordinal := none,
    ref_track_type := none, start_time := none }

/-- The literal-prefix-then-word-characters alternatives clip/audio/
subtitle/effect followed by one or more word characters. -/
def matchPrefixedWord (pre : String) (l : List Char) : Option (TargetMatch × List Char) :=
  match ciLit pre.data l with
  | none => none
  | some (cap0, r1) =>
    let w := r1.takeWhile isWordChar
    if w.isEmpty then none
    else some (mkTM (cap0 ++ w), r1.drop w.length)

/-- The alternative clip named followed by word characters or hyphens. -/
def matchClipNamed (l : List Char) : Option (TargetMatch × List Char) :=
  match ciLit "clip named ".data l with
  | none => none
  | some (cap0, r1) =>
    let w := r1.takeWhile (fun c => isWordChar c || c = Char.ofNat 45)
    if w.isEmpty then none
    else some (mkTM (cap0 ++ w), r1.drop w.length)

/-- First case insensitive literal hit among a list of lowercase words. -/
def firstCiLit : List String → List Char → Option (List Char × List Char)
  | [], _ => none
  | w :: ws, l =>
    match ciLit w.data l with
    | some r => some r
    | none => firstCiLit ws l

/-- The ordinal atom: a word ordinal or digits followed by st, nd, rd or
th. -/
def matchOrdinalAtom (l : List Char) : Option (List Char × List Char) :=
  match firstCiLit ORDINALS l with
  | some r => some r
  | none =>
    let ds := l.takeWhile Char.isDigit
    if ds.isEmpty then none
    else
      match firstCiLit ["st", "nd", "rd", "th"] (l.drop ds.length) with
      | some (suf, rest) => some (ds ++ suf, rest)
      | none => none

/-- The ordinal target alternative: ordinal atom, an optional single space
plus track type qualifier (captured as ref_track_type), then a space and
the word clip. -/
def matchOrdinalTarget (l : List Char) : Option (TargetMatch × List Char) :=
  match matchOrdinalAtom l with
  | none => none
  | some (ordCap, r1) =>
    let withRef : Option (TargetMatch × List Char) :=
      match ciLit " ".data r1 with
      | none => none
      | some (sp, r2) =>
        match firstCiLit ["video", "audio", "subtitle", "effect"] r2 with
        | none => none
        | some (ttCap, r3) =>
          match ciLit " clip".data r3 with
          | none => none
          | some (tail, r4) =>
            some ({ mkTM (ordCap ++ sp ++ ttCap ++ tail) with
                    ordinal := some (String.mk ordCap),
                    ref_track_type := some (String.mk ttCap) }, r4)
    match withRef with
    | some r => some r
    | none =>
      match ciLit " clip".data r1 with
      | none => none
      | some (tail, r2) =>
        some ({ mkTM (ordCap ++ tail) with ordinal := some (String.mk ordCap) }, r2)

/-- The by-start-time capture: one or two digits, a colon and two digits,
or else a plain digit run. -/
def matchStartTimeAtom (l : List Char) : Option (List Char × List Char) :=
  let ds := l.takeWhile Char.isDigit
  let alt1 : Option (List Char × List Char) :=
    if 1 ≤ ds.length ∧ ds.length ≤ 2 then
      match l.drop ds.length with
      | c :: rest2 =>
        if c = Char.ofNat 58 ∧ (rest2.take 2).all Char.isDigit ∧ (rest2.take 2).length = 2 then
          some (ds ++ [c] ++ rest2.take 2, rest2.drop 2)
        else none
      | [] => none
    else none
  match alt1 with
  | some r => some r
  | none => if ds.isEmpty then none else some (ds, l.drop ds.length)

/-- The natural reference the clip that starts at T. -/
def matchByStartTime (l : List Char) : Option (TargetMatch × List Char) :=
  match ciLit "the clip that starts at ".data l with
  | none => none
  | some (cap0, r1) =>
    match matchStartTimeAtom r1 with
    | none => none
    | some (st, r2) =>
      some ({ mkTM (cap0 ++ st) with start_time := some (String.mk st) }, r2)

/-- The bare pronoun alternatives. -/
def matchPronoun (l : List Char) : Option (TargetMatch × List Char) :=
  match firstCiLit ["it", "that", "this"] l with
  | none => none
  | some (cap, r) =>
    some ({ mkTM cap with target_pronoun := some (String.mk cap) }, r)

/-- The target alternation in source order; literal alternatives produce
only the target group. -/
def matchTargetCore (l : List Char) : Option (TargetMatch × List Char) :=
  match ciLit "last clip".data l with
  | some (cap, r) => some (mkTM cap, r)
  | none =>
  match ciLit "first clip".data l with
  | some (cap, r) => some (mkTM cap, r)
  | none =>
  match matchClipNamed l with
  | some r => some r
  | none =>
  match matchPrefixedWord "clip" l with
  | some r => some r
  | none =>
  match matchPrefixedWord "audio" l with
  | some r => some r
  | none =>
  match matchPrefixedWord "subtitle" l with
  | some r => some r
  | none =>
  match matchPrefixedWord "effect" l with
  | some r => some r
  | none =>
  match matchOrdinalTarget l with
  | some r => some r
  | none =>
  match ciLit "this clip".data l with
  | some (cap, r) => some (mkTM cap, r)
  | none =>
  match ciLit "the clip before that one".data l with
  | some (cap, r) => some (mkTM cap, r)
  | none =>
  match ciLit "the clip after that one".data l with
  | some (cap, r) => some (mkTM cap, r)
  | none =>
  match matchByStartTime l with
  | some r => some r
  | none => matchPronoun l

/-- The full target group with its optional leading the (outside the
capture); the option is tried greedily first, with fallback, matching the
backtracking of the regex engine. -/
def matchTarget (l : List Char) : Option (TargetMatch × List Char) :=
  match ciLit "the ".data l with
  | some (_, rest) =>
    (match matchTargetCore rest with
     | some r => some r
     | none => matchTargetCore l)
  | none => matchTargetCore l

/-- The optional at-timestamp tail: either end of input, or whitespace,
the word at, whitespace and a nonempty timestamp of word characters,
whitespace, colons and hyphens running to the end of the text. -/
def matchAtTimestamp (l : List Char) : Option (Option (List Char)) :=
  match l with
  | [] => some none
  | c :: _ =>
    if !isWs c then none
    else
      let r1 := l.dropWhile isWs
      match ciLit "at".data r1 with
      | none => none
      | some (_, r2) =>
        match r2 with
        | [] => none
        | d :: _ =>
          if !isWs d then none
          else
            let ts := r2.dropWhile isWs
            if !ts.isEmpty &&
                ts.all (fun ch => isWordChar ch || isWs ch || ch = Char.ofNat 58 || ch = Char.ofNat 45) then
              some (some ts)
            else none

/-- The verb alternation cut, split, divide, slice. -/
def cutVerbOf (l : List Char) : Option (List Char × List Char) :=
  firstCiLit ["cut", "split", "divide", "slice"] l

/-- CutCommandHandler.parse (command_handlers/cut.py): match the verb, the
optional target (classified into a reference_type with its auxiliary
parameters) and the optional at-timestamp; a timestamp first tries the
natural time expressions and otherwise timestamp_to_frames, always landing
as an integer frame count. A failed match yields the UNKNOWN operation
carrying the raw text. -/
def CutCommandHandler.parse (command_text : String) (frame_rate : Int) :
    Except String EditOperation :=
  let unknown : EditOperation :=
    { type := "UNKNOWN", target := none, parameters := [("raw", .vStr command_text)] }
  match cutVerbOf command_text.data with
  | none => .ok unknown
  | some (_, rest) =>
    let parsed : Option (Option TargetMatch × Option (List Char)) :=
      match rest with
      | [] => some (none, none)
      | c :: _ =>
        if !isWs c then none
        else
          let r1 := rest.dropWhile isWs
          match
            (match matchTarget r1 with
             | some (tm, rem) =>
               (match matchAtTimestamp rem with
                | some tsOpt => some (some tm, tsOpt)
                | none => none)
             | none => none) with
          | some r => some r
          | none =>
            -- target group skipped: the remainder must be the at-group
            match ciLit "at".data r1 with
            | some (_, r2) =>
              (match r2 with
               | [] => none
               | d :: _ =>
                 if !isWs d then none
                 else
                   let ts := r2.dropWhile isWs
                   if !ts.isEmpty &&
                       ts.all (fun ch => isWordChar ch || isWs ch || ch = Char.ofNat 58 || ch = Char.ofNat 45) then
                     some (none, some ts)
                   else none)
            | none => none
    match parsed with
    | none => .ok unknown
    | some (tmOpt, tsOpt) => do
      let targetAndPronoun : String × Option String :=
        match tmOpt with
        | some tm =>
          (match tm.target_pronoun with
           | some p => (p, some (lowerStr p))
           | none =>
             if tm.target ≠ "" ∧ lowerStr tm.target ≠ "at" then (tm.target, none)
             else ("current", none))
        | none => ("current", none)
      let target := targetAndPronoun.1
      let reference_pronoun := targetAndPronoun.2
      let t := lowerStr target
      let ps1 : Params := match reference_pronoun with
        | some rp => Params.set [] "reference_pronoun" (.vStr rp)
        | none => []
      let rtAndPs : Option String × Params :=
        if reference_pronoun.isSome then (some "contextual", ps1)
        else if t = "last clip" ∨ t = "first clip" then (some "positional", ps1)
        else if startsWithChars "clip named".data t.data then (some "named", ps1)
        else
          match tmOpt with
          | some tm =>
            (match tm.ordinal with
             | some o =>
               let psA := ps1.set "ordinal" (.vStr o)
               (match tm.ref_track_type with
                | some rt =>
                  (some "ordinal", (psA.set "ref_track_type" (.vStr rt)).set "track_type" (.vStr rt))
                | none => (some "ordinal", psA))
             | none =>
               if t = "this clip" then (some "contextual", ps1)
               else if t = "the clip before that one" then
                 (some "relative", ps1.set "relative_position" (.vStr "before"))
               else if t = "the clip after that one" then
                 (some "relative", ps1.set "relative_position" (.vStr "after"))
               else if startsWithChars "the clip that starts at".data t.data then
                 (some "by_start_time",
                  ps1.set "start_time" (match tm.start_time with
                    | some st => .vStr st
                    | none => .vNone))
               else (none, ps1))
          | none => (none, ps1)
      let reference_type := rtAndPs.1
      let ps2 := rtAndPs.2
      let ps3 ← (match tsOpt with
        | some tsChars => do
          let tsStr := String.mk tsChars
          match parse_natural_time_expression tsStr none with
          | some q => pure (ps2.set "timestamp" (.vInt (pyInt (q * (frame_rate : ℚ)))))
          | none => do
            let fr ← timestamp_to_frames (.vStr tsStr) frame_rate
            pure (ps2.set "timestamp" (.vInt fr))
        | none => pure ps2)
      let ps4 :=
        if target ≠ "" ∧ reference_pronoun = none then
          if startsWithChars "audio".data t.data then ps3.set "track_type" (.vStr "audio")
          else if startsWithChars "subtitle".data t.data then ps3.set "track_type" (.vStr "subtitle")
          else if startsWithChars "effect".data t.data then ps3.set "track_type" (.vStr "effect")
          else ps3
        else ps3
      let ps5 := match reference_type with
        | some rt => ps4.set "reference_type" (.vStr rt)
        | none => ps4
      .ok { type := "CUT", target := some target, parameters := ps5 }

/- ===================== Executor handlers ===================== -/

/-- TrimOperationHandler.execute: validate the required fields, resolve
the track index (via find_track_index_for_clip when absent), then call
Timeline.trim_clip, passing the timestamp parameter through unchanged
(the handler documents it as frames, trim_clip scales it as seconds). -/
def TrimOperationHandler.execute (op : EditOperation) (tl : Timeline)
    (u1 u2 : String) : Except String (ExecutionResult × Timeline) := do
  let clip_name := op.target
  let clip_id := (op.parameters.get "clip_id").asOptStr
  let timestamp_frames := op.parameters.get "timestamp"
  if (!truthyS clip_name && !truthyS clip_id) || timestamp_frames == PValue.vNone then
    .ok ({ success := false, message := "Missing clip name/id or timestamp for TRIM operation." }, tl)
  else
    match (op.parameters.getD "track_type" (.vStr "video")).asOptStr with
    | none =>
      -- a non-string track_type matches no track
      (match op.parameters.get "track_index" with
       | .vNone => .ok ({ success := false, message := "Clip not found in any track." }, tl)
       | v => do
         let _ ← v.asInt
         .error "IndexError: no track of the requested type at the given index")
    | some track_type => do
      let track_index ← (match op.parameters.get "track_index" with
        | .vNone => do
          match ← find_track_index_for_clip tl clip_name track_type with
          | none => .ok (Sum.inl ({ success := false, message := "Clip not found in any track." } : ExecutionResult))
          | some found => .ok (Sum.inr found)
        | v => do
          let i ← v.asInt
          .ok (Sum.inr i))
      match track_index with
      | .inl res => .ok (res, tl)
      | .inr track_index => do
        let (tl2, result) ← tl.trim_clip clip_name timestamp_frames track_type track_index clip_id u1 u2
        .ok ({ success := result, message := "Trimmed clip at the given frame." }, tl2)

/-- JoinOperationHandler.execute. -/
def JoinOperationHandler.execute (op : EditOperation) (tl : Timeline)
    (u : String) : Except String (ExecutionResult × Timeline) := do
  let first_clip := op.target
  let second_clip := (op.parameters.get "second").asOptStr
  let first_clip_id := (op.parameters.get "clip_id").asOptStr
  let second_clip_id := (op.parameters.get "second_clip_id").asOptStr
  if (!truthyS first_clip && !truthyS first_clip_id) ||
      (!truthyS second_clip && !truthyS second_clip_id) then
    .ok ({ success := false, message := "Missing one or both clip names/ids for JOIN operation." }, tl)
  else
    match (op.parameters.getD "track_type" (.vStr "video")).asOptStr with
    | none =>
      (match op.parameters.get "track_index" with
       | .vNone => .ok ({ success := false, message := "Neither clip found in any track." }, tl)
       | v => do
         let _ ← v.asInt
         .error "IndexError: no track of the requested type at the given index")
    | some track_type => do
      let track_index ← (match op.parameters.get "track_index" with
        | .vNone => do
          match ← find_track_index_for_clip tl first_clip track_type with
          | some found => .ok (Sum.inr found)
          | none => do
            match ← find_track_index_for_clip tl second_clip track_type with
            | some found => .ok (Sum.inr found)
            | none => .ok (Sum.inl ({ success := false, message := "Neither clip found in any track." } : ExecutionResult))
        | v => do
          let i ← v.asInt
          .ok (Sum.inr i))
      match track_index with
      | .inl res => .ok (res, tl)
      | .inr track_index => do
        let (tl2, result) ← tl.join_clips first_clip second_clip track_type track_index
          first_clip_id second_clip_id u
        .ok ({ success := result, message := "Joined the two clips." }, tl2)

/-- RemoveOperationHandler.execute: track_index defaults to 0 and is used
without int() conversion (the claims only carry ints here). -/
def RemoveOperationHandler.execute (op : EditOperation) (tl : Timeline) :
    Except String (ExecutionResult × Timeline) := do
  let clip_name := op.target
  let clip_id := (op.parameters.get "clip_id").asOptStr
  match (op.parameters.getD "track_type" (.vStr "video")).asOptStr with
  | none =>
    (match op.parameters.getD "track_index" (.vInt 0) with
     | .vInt _ => .error "IndexError: no track of the requested type at the given index"
     | _ => .error "TypeError: list indices must be integers")
  | some track_type =>
    match op.parameters.getD "track_index" (.vInt 0) with
    | .vInt track_index => do
      let (tl2, result) ← tl.remove_clip clip_name track_type track_index clip_id
      if result then
        .ok ({ success := true, message := "Removed clip from track." }, tl2)
      else
        .ok ({ success := false, message := "Clip not found in track." }, tl2)
    | _ => .error "TypeError: list indices must be integers"

/-- AddTextOperationHandler.execute: a demo stub that only logs, always
succeeding without touching the timeline and without validating any
field. -/
def AddTextOperationHandler.execute (_op : EditOperation) (tl : Timeline) :
    Except String (ExecutionResult × Timeline) :=
  .ok ({ success := true, message := "Add text with params." }, tl)

/-- OverlayOperationHandler.execute: build an overlay Effect from the
parameters (start/end converted to frames when possible, falling back to
int()) and append it to the clip list of the Effects track. -/
def OverlayOperationHandler.execute (op : EditOperation) (tl : Timeline) :
    Except String (ExecutionResult × Timeline) := do
  let asset := op.parameters.get "asset"
  let position := op.parameters.get "position"
  let start := op.parameters.get "start"
  let stop := op.parameters.get "end"
  let frame_rate := tl.frame_rate
  let to_frame : PValue → Except String (Option Int) := fun v =>
    match v with
    | .vNone => .ok none
    | .vInt i => .ok (some (pyInt ((i : ℚ) * frame_rate)))
    | .vFloat q => .ok (some (pyInt (q * frame_rate)))
    | .vStr s =>
      match parseFloatChars s.data with
      | some q => .ok (some (pyInt (q * frame_rate)))
      | none =>
        match parseIntChars s.data with
        | some i => .ok (some i)
        | none => .error "ValueError: invalid literal for int"
  let start_frame ← to_frame start
  let end_frame ← to_frame stop
  let effect : Effect :=
    { effect_type := "overlay",
      params := [("asset", asset), ("position", position)],
      start := start_frame, stop := end_frame }
  let etrack ← tl.get_track "effect" 0
  .ok ({ success := true, message := "Overlay asset added." },
       tl.setTrackClips "effect" 0 (etrack.clips ++ [.effectItem effect]))

/-- FadeOperationHandler.execute, modelled from src/executor_handlers/
fade.py (the module the backend executor imports under the same name):
always succeeds with a descriptive message and no timeline change. -/
def FadeOperationHandler.execute (_op : EditOperation) (tl : Timeline) :
    Except String (ExecutionResult × Timeline) :=
  .ok ({ success := true, message := "Fade." }, tl)

/- ===================== Command history ===================== -/

/-- CommandHistoryEntry (command_executor.py); the wall-clock timestamp is
omitted. -/
structure CommandHistoryEntry where
  command_text : Option String
  operation : EditOperation
  result : ExecutionResult
  before_snapshot : Timeline
  after_snapshot : Timeline
deriving Repr

/-- CommandHistory: the entry log and the redo buffer (undo_stack). -/
structure CommandHistory where
  entries : List CommandHistoryEntry
  undo_stack : List CommandHistoryEntry
deriving Repr

/-- CommandHistory.add_entry: append and clear the redo buffer. -/
def CommandHistory.add_entry (h : CommandHistory) (e : CommandHistoryEntry) : CommandHistory :=
  { entries := h.entries ++ [e], undo_stack := [] }

/-- CommandHistory.undo: pop the most recent entry onto the redo buffer
and return its before snapshot. -/
def CommandHistory.undo (h : CommandHistory) : Option Timeline × CommandHistory :=
  match h.entries.getLast? with
  | none => (none, h)
  | some e =>
    (some e.before_snapshot,
     { entries := h.entries.dropLast, undo_stack := h.undo_stack ++ [e] })

/-- CommandHistory.redo: pop the most recent redo entry back onto the log
and return its after snapshot. -/
def CommandHistory.redo (h : CommandHistory) : Option Timeline × CommandHistory :=
  match h.undo_stack.getLast? with
  | none => (none, h)
  | some e =>
    (some e.after_snapshot,
     { entries := h.entries ++ [e], undo_stack := h.undo_stack.dropLast })

/-- CommandExecutor state: the live timeline and the history. The handler
registry is fixed (GroupCut, Cut, Trim, Join, AddText, Overlay, Fade,
Remove, dispatched on the operation type in that order). -/
structure CommandExecutor where
  timeline : Timeline
  command_history : CommandHistory
deriving Repr

/-- CommandExecutor.undo: restore the popped before snapshot. -/
def CommandExecutor.undo (ex : CommandExecutor) : CommandExecutor × Bool :=
  match ex.command_history.undo with
  | (some snap, h2) => ({ timeline := snap, command_history := h2 }, true)
  | (none, h2) => ({ ex with command_history := h2 }, false)

/-- CommandExecutor.redo: restore the popped after snapshot. -/
def CommandExecutor.redo (ex : CommandExecutor) : CommandExecutor × Bool :=
  match ex.command_history.redo with
  | (some snap, h2) => ({ timeline := snap, command_history := h2 }, true)
  | (none, h2) => ({ ex with command_history := h2 }, false)

/- ===================== CommandExecutor.execute ===================== -/

/-- The resolver call inside execute, shared with the failure-class
predicates below. -/
def preludeResolve (ex : CommandExecutor) (op : EditOperation) : Except String (Option String) :=
  match op.target, (op.parameters.getD "track_type" (.vStr "video")).asOptStr with
  | some tgt, some tt =>
    resolve_clip_reference ex.timeline tgt
      (((op.parameters.get "reference_type").asOptStr).getD "") tt
      ((op.parameters.get "ordinal").asOptStr)
      ((op.parameters.get "ref_track_type").asOptStr)
  | _, _ =>
    -- a non-string track_type filter matches no track
    .ok none

/-- The clip_id / second_clip_id parameter injection that execute performs
on the (possibly re-stamped) operation before dispatch. -/
def injectIds (op : EditOperation) (clip_id second_clip_id : PValue) : EditOperation :=
  let op2 : EditOperation := { op with parameters := op.parameters.set "clip_id" clip_id }
  if truthyV second_clip_id then
    { op2 with parameters := op2.parameters.set "second_clip_id" second_clip_id }
  else op2

/-- The failure entry appended when a reference cannot be resolved. -/
def unresolvedResult : ExecutionResult :=
  { success := false, message := "Could not resolve reference." }

/-- The head of execute: take the before snapshot, resolve a textual
reference when the operation carries a truthy reference_type and target
(a falsy resolution produces the failed result with its history entry
immediately), re-stamp the operation with the resolved target (dropping
the resolver-only keys), and inject the clip_id / second_clip_id
parameters. -/
def executePrelude (ex : CommandExecutor) (op : EditOperation) (command_text : Option String) :
    Except String (Sum (ExecutionResult × CommandExecutor) (EditOperation × Timeline)) :=
  let before := ex.timeline
  let reference_type := op.parameters.get "reference_type"
  let clip_id := op.parameters.get "clip_id"
  let second_clip_id := op.parameters.get "second_clip_id"
  if truthyV reference_type && truthyS op.target then
    match preludeResolve ex op with
    | .error e => .error e
    | .ok resolvedOpt =>
      if truthyS resolvedOpt then
        match resolvedOpt with
        | some nm =>
          .ok (.inr (injectIds
            { type := op.type, target := some nm,
              parameters := op.parameters.dropKeys ["reference_type", "ordinal", "ref_track_type"] }
            clip_id second_clip_id, before))
        | none => .error "unreachable: a truthy resolution is some name"
      else
        let entry : CommandHistoryEntry :=
          { command_text := command_text, operation := op, result := unresolvedResult,
            before_snapshot := before, after_snapshot := ex.timeline }
        .ok (.inl (unresolvedResult,
          { ex with command_history := ex.command_history.add_entry entry }))
  else .ok (.inr (injectIds op clip_id second_clip_id, before))

/-- The non-group handler chain in registration order (Cut, Trim, Join,
AddText, Overlay, Fade, Remove), with the unknown-operation fallback. Only
reached for operations the group handler does not handle. -/
def dispatchNonGroup (op : EditOperation) (tl : Timeline) (us : Nat → String) :
    Except String (ExecutionResult × Timeline) :=
  if op.type = "CUT" then CutOperationHandler.execute op tl (us 0) (us 1)
  else if op.type = "TRIM" then TrimOperationHandler.execute op tl (us 0) (us 1)
  else if op.type = "JOIN" then JoinOperationHandler.execute op tl (us 0)
  else if op.type = "ADD_TEXT" then AddTextOperationHandler.execute op tl
  else if op.type = "OVERLAY" then OverlayOperationHandler.execute op tl
  else if op.type = "FADE" then FadeOperationHandler.execute op tl
  else if op.type = "REMOVE" then RemoveOperationHandler.execute op tl
  else .ok ({ success := false, message := "Unknown operation." }, tl)

/-- The tail of execute: take the after snapshot, append the entry
(clearing the redo buffer) and return the result. -/
def executeFinish (command_text : Option String) (op : EditOperation)
    (result : ExecutionResult) (before : Timeline) (hist : CommandHistory)
    (newTl : Timeline) : ExecutionResult × CommandExecutor :=
  let entry : CommandHistoryEntry :=
    { command_text := command_text, operation := op, result := result,
      before_snapshot := before, after_snapshot := newTl }
  (result, { timeline := newTl, command_history := hist.add_entry entry })

/-- CommandExecutor.execute restricted to operations outside the group
handler (every operation whose type is not CUT_GROUP takes exactly this
path). -/
def CommandExecutor.executeNonGroup (ex : CommandExecutor) (op : EditOperation)
    (command_text : Option String) (us : Nat → String) :
    Except String (ExecutionResult × CommandExecutor) := do
  match ← executePrelude ex op command_text with
  | .inl early => .ok early
  | .inr (op2, before) => do
    let (result, tl2) ← dispatchNonGroup op2 ex.timeline us
    .ok (executeFinish command_text op2 result before ex.command_history tl2)

/-- The clip scan of the group cut handler: top-level clips of one track
strictly containing the timestamp; the chained comparison evaluates
left to right and raises on a None bound, and clip.name is only read once
the condition holds. -/
def groupCollectClips (tf : ℚ) : List Clip → Int → Except String (List (String × Int))
  | [], _ => .ok []
  | c :: cs, rel => do
    match c.startAttr with
    | none => .error "TypeError: comparison of None and float"
    | some s =>
      if (s : ℚ) < tf then
        match c.stopAttr with
        | none => .error "TypeError: comparison of None and float"
        | some e =>
          if tf < (e : ℚ) then do
            let nm ← clipNameOrErr c
            let restL ← groupCollectClips tf cs rel
            .ok ((nm, rel) :: restL)
          else groupCollectClips tf cs rel
      else groupCollectClips tf cs rel

/-- The track walk of the group cut handler, tracking the relative index
of each track of the requested type. -/
def groupCollectTracks (tf : ℚ) (track_type : String) :
    List Track → Int → Except String (List (String × Int))
  | [], _ => .ok []
  | t :: ts, rel =>
    if t.track_type == track_type then do
      let here ← groupCollectClips tf t.clips rel
      let restL ← groupCollectTracks tf track_type ts (rel + 1)
      .ok (here ++ restL)
    else groupCollectTracks tf track_type ts rel

/-- CommandExecutor._timestamp_to_frames: like timestamp_to_frames but the
colon forms return the un-truncated product with the float frame rate. -/
def executor_timestamp_to_frames (timestamp : PValue) (frame_rate : ℚ) : Except String ℚ :=
  match timestamp with
  | .vInt i => .ok ((pyInt ((i : ℚ) * frame_rate) : Int) : ℚ)
  | .vFloat q => .ok ((pyInt (q * frame_rate) : Int) : ℚ)
  | .vStr s =>
    let l := s.data
    if l.contains (Char.ofNat 58) then
      let parts := splitOnChar (Char.ofNat 58) l
      match parts.mapM parseIntChars with
      | none => .error "ValueError: invalid literal for int"
      | some ns =>
        match ns with
        | [a, b] => .ok ((a : ℚ) * 60 * frame_rate + (b : ℚ) * frame_rate)
        | [a, b, c] => .ok ((a : ℚ) * 3600 * frame_rate + (b : ℚ) * 60 * frame_rate + (c : ℚ) * frame_rate)
        | _ => .error "ValueError: could not convert string to float"
    else if (!l.isEmpty) && l.getLast? = some (Char.ofNat 115) then
      match parseFloatChars (l.take (l.length - 1)) with
      | some q => .ok ((pyInt (q * frame_rate) : Int) : ℚ)
      | none => .error "ValueError: could not convert string to float"
    else
      match parseFloatChars l with
      | some q => .ok ((pyInt (q * frame_rate) : Int) : ℚ)
      | none => .error "ValueError: could not convert string to float"
  | .vNone => .error "TypeError: int() argument must not be None"

/-- The per-clip sub-executions of the group cut handler: one CUT
operation per matching clip, executed through the executor itself (the
sub-operations have type CUT, for which execute coincides with
executeNonGroup); each sub-execution appends its own history entry. The
uuid streams of the sub-calls are disjoint shifts of the callers. -/
def runSubCuts (us : Nat → String) (timestamp : PValue) (track_type : String) :
    List (String × Int) → Nat → CommandExecutor →
    Except String (CommandExecutor × List (String × Bool × String))
  | [], _, ex => .ok (ex, [])
  | (nm, ti) :: rest, i, ex => do
    let cut_op : EditOperation :=
      { type := "CUT", target := some nm,
        parameters := [("timestamp", timestamp), ("track_type", .vStr track_type),
                       ("track_index", .vInt ti)] }
    let (r, ex2) ← ex.executeNonGroup cut_op none (fun k => us (2 * i + k + 2))
    let (ex3, results) ← runSubCuts us timestamp track_type rest (i + 1) ex2
    .ok (ex3, (nm, r.success, r.message) :: results)

/-- GroupCutOperationHandler.execute, modelled from src/executor_handlers/
group_cut.py (the module the backend executor imports under the same
name): find every top-level clip of the track type strictly containing the
timestamp and fan out one CUT per clip, succeeding only when every
sub-execution succeeded. -/
def GroupCutOperationHandler.execute (op : EditOperation) (ex : CommandExecutor)
    (us : Nat → String) : Except String (ExecutionResult × CommandExecutor) := do
  let track_type := (op.parameters.getD "track_type" (.vStr "video")).asOptStr
  let timestamp := op.parameters.get "timestamp"
  if !truthyV timestamp then
    .ok ({ success := false, message := "Missing timestamp for group cut operation." }, ex)
  else do
    let frame_rate := ex.timeline.frame_rate
    let tf : ℚ ← (match timestamp with
      | .vInt i => .ok ((pyInt (i : ℚ) : Int) : ℚ)
      | .vFloat q => .ok ((pyInt q : Int) : ℚ)
      | .vStr _ => executor_timestamp_to_frames timestamp frame_rate
      | .vNone => .error "unreachable: falsy timestamp handled above")
    let names ← (match track_type with
      | some tt => groupCollectTracks tf tt ex.timeline.tracks 0
      | none => .ok [])
    match track_type, names with
    | some tt, (n0 :: nrest) => do
      let (ex2, results) ← runSubCuts us timestamp tt (n0 :: nrest) 0 ex
      let success_count := (results.filter (fun r => r.2.1)).length
      .ok ({ success := success_count == results.length,
             message := "Group CUT summary." }, ex2)
    | _, _ =>
      .ok ({ success := false, message := "No clips found for track type containing timestamp." }, ex)

/-- CommandExecutor.execute: the prelude, then the handler chain headed by
the group cut handler, then the history entry and result. -/
def CommandExecutor.execute (ex : CommandExecutor) (op : EditOperation)
    (command_text : Option String) (us : Nat → String) :
    Except String (ExecutionResult × CommandExecutor) := do
  match ← executePrelude ex op command_text with
  | .inl early => .ok early
  | .inr (op2, before) =>
    if op2.type = "CUT_GROUP" then do
      let (result, ex2) ← GroupCutOperationHandler.execute op2 ex us
      .ok (executeFinish command_text op2 result before ex2.command_history ex2.timeline)
    else do
      let (result, tl2) ← dispatchNonGroup op2 ex.timeline us
      .ok (executeFinish command_text op2 result before ex.command_history tl2)

mutual
/-- The serialized forms that deserialize back to themselves: a video clip
needs a truthy clip_id and an end of at least 1000 frames (below that the
legacy seconds heuristic rescales the bounds); a compound clip needs a
truthy clip_id, stored bounds matching the min/max over its children
(the constructor recalculates them on deserialization) and clip-only
children (a raw Effect child would make the constructor raise). -/
def Clip.roundTripSafe : Clip → Bool
  | .video cid _ _ e _ _ _ => (cid != "") && decide (1000 ≤ e)
  | .compound cid _ s e _ _ cs =>
    (cid != "") &&
    (match cs.map Clip.startD, cs.map Clip.stopD with
     | s0 :: ss, e0 :: es => (s == listMinD s0 ss) && (e == listMaxD e0 es)
     | _, _ => true) &&
    cs.all (fun c => match c with | .effectItem _ => false | _ => true) &&
    clipsRoundTripSafe cs
  | .effectItem _ => true

/-- roundTripSafe over a clip list. -/
def clipsRoundTripSafe : List Clip → Bool
  | [] => true
  | c :: cs => c.roundTripSafe && clipsRoundTripSafe cs
end

/-- roundTripSafe over every track of a timeline. -/
def Timeline.roundTripSafe (tl : Timeline) : Bool :=
  tl.tracks.all (fun t => clipsRoundTripSafe t.clips)

/- ===================== Theorems ===================== -/

/-- Bind on a successful Except computation reduces to the continuation. -/
@[simp] theorem exceptBind_ok {α β : Type} (a : α) (f : α → Except String β) :
    (Except.ok a : Except String α) >>= f = f a := rfl

/-- Bind on a failed Except computation propagates the error. -/
@[simp] theorem exceptBind_error {α β : Type} (e : String) (f : α → Except String β) :
    (Except.error e : Except String α) >>= f = Except.error e := rfl

/-- pure in the Except monad is ok. -/
@[simp] theorem exceptPure_eq_ok {α : Type} (a : α) :
    (pure a : Except String α) = Except.ok a := rfl

/-- A nonempty list is not isEmpty. -/
theorem isEmpty_false_of_ne_nil {α : Type} {l : List α} (h : l ≠ []) :
    l.isEmpty = false := by
  cases l
  · exact absurd rfl h
  · rfl

/-- C8: parsing the command text Cut clip1 at 00:30 at frame rate 30
produces a CUT operation targeting clip1 whose only parameter is the
timestamp, normalized to the integer frame value 900. -/
theorem c8_parse_cut_clip1_at_0030 :
    CutCommandHandler.parse "Cut clip1 at 00:30" 30 =
      .ok { type := "CUT", target := some "clip1",
            parameters := [("timestamp", PValue.vInt 900)] } := by
  rfl

/-- C9: reference resolution over the top-level clips of the tracks
matching the track-type filter: first clip / last clip resolve to the
clip at index 0 / the last index of the filtered, timeline-ordered list;
a word ordinal at position k of the ordinal table or a numeric-suffix
ordinal m resolves to zero-based index k (respectively m - 1); an
out-of-range ordinal or an empty filtered list resolves to no match. -/
theorem c9_reference_resolution (tl : Timeline) (tt : String) :
    (∀ c n, ((tl.tracks.filter (fun t => t.track_type = tt)).flatMap (fun t => t.clips)).head? = some c →
       c.nameAttr = some n →
       resolve_clip_reference tl "first clip" "positional" tt none none = .ok (some n)) ∧
    (∀ c n, ((tl.tracks.filter (fun t => t.track_type = tt)).flatMap (fun t => t.clips)).getLast? = some c →
       c.nameAttr = some n →
       resolve_clip_reference tl "last clip" "positional" tt none none = .ok (some n)) ∧
    (∀ r o k c n, ORDINALS.indexOf? (lowerStr o) = some k → o ≠ "" →
       ((tl.tracks.filter (fun t => t.track_type = tt)).flatMap (fun t => t.clips))[k]? = some c →
       c.nameAttr = some n →
       resolve_clip_reference tl r "ordinal" tt (some o) none = .ok (some n)) ∧
    (∀ r o m c n, ORDINALS.indexOf? (lowerStr o) = none →
       matchNumericOrdinal (lowerStr o) = some m → o ≠ "" → 1 ≤ m →
       ((tl.tracks.filter (fun t => t.track_type = tt)).flatMap (fun t => t.clips))[m - 1]? = some c →
       c.nameAttr = some n →
       resolve_clip_reference tl r "ordinal" tt (some o) none = .ok (some n)) ∧
    (∀ r o k, ORDINALS.indexOf? (lowerStr o) = some k → o ≠ "" →
       ((tl.tracks.filter (fun t => t.track_type = tt)).flatMap (fun t => t.clips)).length ≤ k →
       resolve_clip_reference tl r "ordinal" tt (some o) none = .ok none) ∧
    (∀ r o m, ORDINALS.indexOf? (lowerStr o) = none →
       matchNumericOrdinal (lowerStr o) = some m → o ≠ "" →
       ¬ (0 ≤ (m : Int) - 1 ∧ (m : Int) - 1 <
          (((tl.tracks.filter (fun t => t.track_type = tt)).flatMap (fun t => t.clips)).length : Int)) →
       resolve_clip_reference tl r "ordinal" tt (some o) none = .ok none) ∧
    (((tl.tracks.filter (fun t => t.track_type = tt)).flatMap (fun t => t.clips)) = [] →
       ∀ r o, resolve_clip_reference tl "first clip" "positional" tt none none = .ok none ∧
         resolve_clip_reference tl r "ordinal" tt (some o) none = .ok none) := by
  have hfc : lowerStr "first clip" = "first clip" := by decide
  have hlc : lowerStr "last clip" = "last clip" := by decide
  have hfl : ("first clip" : String) ≠ "last clip" := by decide
  have hll : ("last clip" : String) ≠ "first clip" := by decide
  have hpo : ("positional" : String) ≠ "ordinal" := by decide
  refine ⟨?_, ?_, ?_, ?_, ?_, ?_, ?_⟩
  · intro c n hhead hname
    have hne : ((tl.tracks.filter (fun t => t.track_type = tt)).flatMap (fun t => t.clips)) ≠ [] := by
      intro he
      rw [he] at hhead
      exact Option.noConfusion hhead
    have htr : (tl.tracks.filter (fun t => t.track_type = tt)).isEmpty = false :=
      isEmpty_false_of_ne_nil (fun he => hne (by simp [he]))
    have hce := isEmpty_false_of_ne_nil hne
    simp [resolve_clip_reference, htr, hce, hhead, clipNameOrErr, hname, hfc, hlc, hfl, hll, hpo]
  · intro c n hlast hname
    have hne : ((tl.tracks.filter (fun t => t.track_type = tt)).flatMap (fun t => t.clips)) ≠ [] := by
      intro he
      rw [he] at hlast
      exact Option.noConfusion hlast
    have htr : (tl.tracks.filter (fun t => t.track_type = tt)).isEmpty = false :=
      isEmpty_false_of_ne_nil (fun he => hne (by simp [he]))
    have hce := isEmpty_false_of_ne_nil hne
    simp [resolve_clip_reference, htr, hce, hlast, clipNameOrErr, hname, hfc, hlc, hfl, hll, hpo]
  · intro r o k c n hidx ho hk hname
    have hne : ((tl.tracks.filter (fun t => t.track_type = tt)).flatMap (fun t => t.clips)) ≠ [] := by
      intro he
      rw [he] at hk
      exact Option.noConfusion hk
    have htr : (tl.tracks.filter (fun t => t.track_type = tt)).isEmpty = false :=
      isEmpty_false_of_ne_nil (fun he => hne (by simp [he]))
    have hce := isEmpty_false_of_ne_nil hne
    have hklt : k < ((tl.tracks.filter (fun t => t.track_type = tt)).flatMap (fun t => t.clips)).length := by
      by_contra hge
      rw [List.getElem?_eq_none (Nat.le_of_not_lt hge)] at hk
      exact Option.noConfusion hk
    have h0 : (0 : Int) ≤ (k : Int) := Int.ofNat_nonneg k
    have h1 : (k : Int) < (((tl.tracks.filter (fun t => t.track_type = tt)).flatMap (fun t => t.clips)).length : Int) := by
      exact_mod_cast hklt
    simp [resolve_clip_reference, htr, hce, hidx, ho, hk, clipNameOrErr, hname, h0]
    simpa using h1
  · intro r o m c n hnidx hnum ho hm hk hname
    have hne : ((tl.tracks.filter (fun t => t.track_type = tt)).flatMap (fun t => t.clips)) ≠ [] := by
      intro he
      rw [he] at hk
      exact Option.noConfusion hk
    have htr : (tl.tracks.filter (fun t => t.track_type = tt)).isEmpty = false :=
      isEmpty_false_of_ne_nil (fun he => hne (by simp [he]))
    have hce := isEmpty_false_of_ne_nil hne
    have hklt : m - 1 < ((tl.tracks.filter (fun t => t.track_type = tt)).flatMap (fun t => t.clips)).length := by
      by_contra hge
      rw [List.getElem?_eq_none (Nat.le_of_not_lt hge)] at hk
      exact Option.noConfusion hk
    have e1 : ((m : Int) - 1) = ((m - 1 : Nat) : Int) := by omega
    have h0 : (0 : Int) ≤ (m : Int) - 1 := by omega
    have h1 : (m : Int) - 1 < (((tl.tracks.filter (fun t => t.track_type = tt)).flatMap (fun t => t.clips)).length : Int) := by
      omega
    have h2 : ((m : Int) - 1).toNat = m - 1 := by omega
    simp [resolve_clip_reference, htr, hce, hnidx, hnum, ho, clipNameOrErr, h0, h2, hk, hname]
    simpa using h1
  · intro r o k hidx ho hlen
    by_cases htr : (tl.tracks.filter (fun t => t.track_type = tt)).isEmpty
    · simp [resolve_clip_reference, htr]
    · by_cases hce : ((tl.tracks.filter (fun t => t.track_type = tt)).flatMap (fun t => t.clips)).isEmpty
      · simp [resolve_clip_reference, htr, hce]
      · have hknone : ((tl.tracks.filter (fun t => t.track_type = tt)).flatMap (fun t => t.clips))[k]? = none :=
          List.getElem?_eq_none hlen
        simp [resolve_clip_reference, htr, hce, hidx, ho, hknone]
  · intro r o m hnidx hnum ho hrange
    by_cases htr : (tl.tracks.filter (fun t => t.track_type = tt)).isEmpty
    · simp [resolve_clip_reference, htr]
    · by_cases hce : ((tl.tracks.filter (fun t => t.track_type = tt)).flatMap (fun t => t.clips)).isEmpty
      · simp [resolve_clip_reference, htr, hce]
      · simp [resolve_clip_reference, htr, hce, hnidx, hnum, ho]
        intro h0 h1
        exact absurd ⟨by omega, by simpa using h1⟩ hrange
  · intro hnil r o
    by_cases htr : (tl.tracks.filter (fun t => t.track_type = tt)).isEmpty
    · constructor <;> simp [resolve_clip_reference, htr]
    · have hce : ((tl.tracks.filter (fun t => t.track_type = tt)).flatMap (fun t => t.clips)).isEmpty := by
        simp [hnil]
      constructor <;> simp [resolve_clip_reference, htr, hce]

/-- A two-clip timeline used by concrete instantiations. -/
def c9Tl : Timeline :=
  { tracks := [
      { name := "Video 1", track_type := "video",
        clips := [Clip.video "idA" "A" 0 60 "video" [] (some "/a.mp4"),
                  Clip.video "idB" "B" 60 100 "video" [] (some "/b.mp4")] }],
    duration := 0, transitions := [], frame_rate := 30 }

/-- Witness for C9 at a concrete two-clip timeline: first clip resolves to
the clip at index 0, and the out-of-range ordinal 4th resolves to none. -/
theorem c9_reference_resolution_witness :
    resolve_clip_reference c9Tl "first clip" "positional" "video" none none = .ok (some "A") ∧
    resolve_clip_reference c9Tl "x" "ordinal" "video" (some "4th") none = .ok none := by
  constructor
  · exact (c9_reference_resolution c9Tl "video").1
      (Clip.video "idA" "A" 0 60 "video" [] (some "/a.mp4")) "A" rfl rfl
  · exact (c9_reference_resolution c9Tl "video").2.2.2.2.2.1 "x" "4th" 4
      (by decide) (by decide) (by decide) (by decide)

/-- An Effect survives serialization exactly. -/
theorem effect_roundtrip (e : Effect) : Effect.from_dict (Effect.to_dict e) = e := rfl

/-- A Transition survives serialization exactly. -/
theorem transition_roundtrip (t : Transition) :
    Transition.from_dict (Transition.to_dict t) = t := rfl

/-- The per-slot dispatch agrees with the inlined dispatch of
clipsFromDict. -/
theorem clipsFromDict_cons (d : ItemDict) (ds : List ItemDict) :
    clipsFromDict (d :: ds) = clipFromDict d :: clipsFromDict ds := by
  cases d <;> rfl

mutual
/-- A serialization-safe clip survives to_dict then the dispatch. -/
theorem clip_roundtrip (c : Clip) (h : c.roundTripSafe = true) :
    clipFromDict (Clip.to_dict c) = c := by
  have hcomp : Effect.from_dict ∘ Effect.to_dict = id := funext effect_roundtrip
  cases c with
  | video cid nm s e tt fx fp =>
    simp [Clip.roundTripSafe, Bool.and_eq_true, bne_iff_ne] at h
    simp [Clip.to_dict, clipFromDict, VideoClip.from_dict, VideoClip.init,
      Int.not_lt.mpr h.2, h.1, hcomp]
  | compound cid nm s e tt fx cs =>
    simp [Clip.roundTripSafe, Bool.and_eq_true, bne_iff_ne] at h
    obtain ⟨⟨⟨hcid, hb⟩, _hnoeff⟩, hsafe⟩ := h
    have hcs := clips_roundtrip cs (by
      cases hx : clipsRoundTripSafe cs
      · exact absurd hx (by simp [hsafe])
      · rfl)
    cases cs with
    | nil =>
      simp [Clip.to_dict, clipFromDict, CompoundClip.from_dict, CompoundClip.init,
        Clip.recalculate_bounds, clipsToDict, clipsFromDict, hcid, hcomp]
    | cons c0 cs' =>
      simp at hb
      simp [Clip.to_dict, clipFromDict, CompoundClip.from_dict, CompoundClip.init,
        Clip.recalculate_bounds, hcid, hcomp, hcs, hb.1.symm, hb.2.symm]
  | effectItem ef => rfl

/-- A serialization-safe clip list survives to_dict then deserialization. -/
theorem clips_roundtrip (cs : List Clip) (h : clipsRoundTripSafe cs = true) :
    clipsFromDict (clipsToDict cs) = cs := by
  cases cs with
  | nil => rfl
  | cons c cs' =>
    simp only [clipsRoundTripSafe, Bool.and_eq_true] at h
    rw [clipsToDict, clipsFromDict_cons, clip_roundtrip c h.1, clips_roundtrip cs' h.2]
end

/-- A serialization-safe track survives to_dict / from_dict. -/
theorem track_roundtrip (t : Track) (h : clipsRoundTripSafe t.clips = true) :
    Track.from_dict (Track.to_dict t) = t := by
  simp [Track.from_dict, Track.to_dict, clips_roundtrip t.clips h]

/-- C1 (amended): for timelines whose clips are serialization safe (every
leaf clip has a truthy id and an end of at least 1000 frames, every
compound clip has bounds matching its children), deserializing the
serialized form reproduces the tracks (hence all clips and effects), the
transitions and the frame rate exactly, with no rescaling. -/
theorem c1_roundtrip_amended (tl : Timeline) (h : tl.roundTripSafe = true) :
    (Timeline.from_dict (Timeline.to_dict tl)).tracks = tl.tracks ∧
    (Timeline.from_dict (Timeline.to_dict tl)).transitions = tl.transitions ∧
    (Timeline.from_dict (Timeline.to_dict tl)).frame_rate = tl.frame_rate := by
  have hcomp : Transition.from_dict ∘ Transition.to_dict = id := funext transition_roundtrip
  refine ⟨?_, ?_, ?_⟩
  · simp only [Timeline.from_dict, Timeline.to_dict, Timeline.init, Option.getD_some]
    simp only [Timeline.roundTripSafe, List.all_eq_true] at h
    rw [List.map_map]
    have : ∀ t ∈ tl.tracks, (Track.from_dict ∘ Track.to_dict) t = id t := by
      intro t ht
      have hsafe : clipsRoundTripSafe t.clips = true := by
        have := h t ht
        cases hx : clipsRoundTripSafe t.clips
        · exact absurd hx (by simp [this])
        · rfl
      simp [Function.comp_apply, track_roundtrip t hsafe]
    rw [List.map_congr_left this, List.map_id]
  · simp [Timeline.from_dict, Timeline.to_dict, Timeline.init, hcomp]
  · simp [Timeline.from_dict, Timeline.to_dict, Timeline.init]

/-- A one-clip timeline whose clip ends before frame 1000, triggering the
legacy seconds heuristic on deserialization. -/
def c1SmallTl : Timeline :=
  { tracks := [
      { name := "Video 1", track_type := "video",
        clips := [Clip.video "id1" "c1" 0 500 "video" [] none] }],
    duration := 0, transitions := [], frame_rate := 30 }

/-- Helper evaluation: the heuristic rescales 500 frames to 15000. -/
theorem c1_rescale_eval : pyRound ((500 : ℚ) * 30) = 15000 := by
  norm_num [pyRound]

/-- Helper evaluation: the start bound 0 rescales to 0. -/
theorem c1_rescale_zero : pyRound ((0 : ℚ) * 30) = 0 := by
  norm_num [pyRound]

/-- Counterexample to C1 as stated: deserializing the serialized form of a
timeline with a clip spanning frames 0 to 500 does not reproduce the clip
bounds; the end < 1000 heuristic rescales the clip to 0 to 15000, so the
tracks are not identical. -/
theorem c1_roundtrip_counterexample :
    (Timeline.from_dict (Timeline.to_dict c1SmallTl)).tracks.map
        (fun t => t.clips.map Clip.stopAttr) ≠
      c1SmallTl.tracks.map (fun t => t.clips.map Clip.stopAttr) := by
  have : (Timeline.from_dict (Timeline.to_dict c1SmallTl)).tracks.map
      (fun t => t.clips.map Clip.stopAttr) = [[some 15000]] := by
    simp [c1SmallTl, Timeline.from_dict, Timeline.to_dict, Timeline.init,
      Track.from_dict, Track.to_dict, clipsToDict, clipsFromDict, Clip.to_dict,
      VideoClip.from_dict, VideoClip.init, c1_rescale_eval, c1_rescale_zero,
      Clip.stopAttr]
  rw [this]
  decide

/-- A serialization-safe concrete timeline: a leaf clip and a compound
with two children, plus a transition. -/
def c1SafeTl : Timeline :=
  { tracks := [
      { name := "Video 1", track_type := "video",
        clips := [Clip.video "idA" "A" 1000 2200 "video" [] (some "/a.mp4"),
                  Clip.compound "idG" "G" 2200 3000 "video" []
                    [Clip.video "idB" "B" 2200 2600 "video" [] none,
                     Clip.video "idC" "C" 2600 3000 "video" [] none]] }],
    duration := 0,
    transitions := [{ from_clip := "A", to_clip := "G",
                      transition_type := "crossfade", duration := 1 }],
    frame_rate := 30 }

/-- Witness for the amended C1 at a concrete safe timeline. -/
theorem c1_roundtrip_amended_witness :
    (Timeline.from_dict (Timeline.to_dict c1SafeTl)).tracks = c1SafeTl.tracks ∧
    (Timeline.from_dict (Timeline.to_dict c1SafeTl)).transitions = c1SafeTl.transitions ∧
    (Timeline.from_dict (Timeline.to_dict c1SafeTl)).frame_rate = c1SafeTl.frame_rate :=
  c1_roundtrip_amended c1SafeTl (by decide)

/-- C5: trim_clip on a found clip splits exactly when start < T < end
strictly (T the frame conversion of the timestamp): the clip is replaced
in its owning container by name_part1 spanning [start, T) and name_part2
spanning [T, end), each with a fresh id, and the call returns true; with
the clip not found, the timestamp missing, or T outside the open
interval, the timeline is unchanged and the call returns false. -/
theorem c5_trim_clip (tl : Timeline) (nm : String) (ts : ℚ) (tt : String) (ti : Int)
    (u1 u2 : String) (track : Track) (hget : tl.get_track tt ti = .ok track) :
    (∀ p idx parent cid nm0 s0 e0 tt0 fx0 fp0,
      find_clip_recursive track.clips (some nm) none =
        some (p, idx, parent, .video cid nm0 s0 e0 tt0 fx0 fp0) →
      s0 < tl.seconds_to_frames ts → tl.seconds_to_frames ts < e0 →
      tl.trim_clip (some nm) (.vFloat ts) tt ti none u1 u2 =
        .ok (tl.setTrackClips tt ti (updateAtPath
          (fun l => l.take idx ++
            [VideoClip.init u1 (nm0 ++ "_part1") s0 (tl.seconds_to_frames ts) "video" none,
             VideoClip.init u2 (nm0 ++ "_part2") (tl.seconds_to_frames ts) e0 "video" none] ++
            l.drop (idx + 1)) track.clips p), true)) ∧
    (∀ p idx parent cid nm0 s0 e0 tt0 fx0 ch0,
      find_clip_recursive track.clips (some nm) none =
        some (p, idx, parent, .compound cid nm0 s0 e0 tt0 fx0 ch0) →
      s0 < tl.seconds_to_frames ts → tl.seconds_to_frames ts < e0 →
      tl.trim_clip (some nm) (.vFloat ts) tt ti none u1 u2 =
        .ok (tl.setTrackClips tt ti (updateAtPath
          (fun l => l.take idx ++
            [CompoundClip.init u1 (nm0 ++ "_part1") s0 (tl.seconds_to_frames ts) "video" [] [],
             CompoundClip.init u2 (nm0 ++ "_part2") (tl.seconds_to_frames ts) e0 "video" [] []] ++
            l.drop (idx + 1)) track.clips p), true)) ∧
    (∀ p idx parent c s0 e0,
      find_clip_recursive track.clips (some nm) none = some (p, idx, parent, c) →
      (∀ ef, c ≠ .effectItem ef) →
      c.startAttr = some s0 → c.stopAttr = some e0 →
      ¬ (s0 < tl.seconds_to_frames ts ∧ tl.seconds_to_frames ts < e0) →
      tl.trim_clip (some nm) (.vFloat ts) tt ti none u1 u2 = .ok (tl, false)) ∧
    (tl.trim_clip (some nm) PValue.vNone tt ti none u1 u2 = .ok (tl, false)) ∧
    (find_clip_recursive track.clips (some nm) none = none →
      tl.trim_clip (some nm) (.vFloat ts) tt ti none u1 u2 = .ok (tl, false)) := by
  refine ⟨?_, ?_, ?_, ?_, ?_⟩
  · intro p idx parent cid nm0 s0 e0 tt0 fx0 fp0 hfind h1 h2
    have e1 : s0 + (tl.seconds_to_frames ts - s0) = tl.seconds_to_frames ts := by ring
    have e2 : tl.seconds_to_frames ts + (e0 - tl.seconds_to_frames ts) = e0 := by ring
    simp only [Timeline.trim_clip, hget, exceptBind_ok, hfind]
    simp [Timeline.seconds_to_frames] at h1 h2 ⊢
    simp [h1, h2, e1, e2]
  · intro p idx parent cid nm0 s0 e0 tt0 fx0 ch0 hfind h1 h2
    have e1 : s0 + (tl.seconds_to_frames ts - s0) = tl.seconds_to_frames ts := by ring
    have e2 : tl.seconds_to_frames ts + (e0 - tl.seconds_to_frames ts) = e0 := by ring
    simp only [Timeline.trim_clip, hget, exceptBind_ok, hfind]
    simp [Timeline.seconds_to_frames] at h1 h2 ⊢
    simp [h1, h2, e1, e2]
  · intro p idx parent c s0 e0 hfind hnoeff hs he hout
    simp only [Timeline.trim_clip, hget, exceptBind_ok, hfind]
    cases c with
    | video cid nm0 s1 e1 tt1 fx1 fp1 =>
      simp only [Clip.startAttr, Option.some.injEq] at hs
      simp only [Clip.stopAttr, Option.some.injEq] at he
      subst hs he
      simp [hout]
    | compound cid nm0 s1 e1 tt1 fx1 ch1 =>
      simp only [Clip.startAttr, Option.some.injEq] at hs
      simp only [Clip.stopAttr, Option.some.injEq] at he
      subst hs he
      simp [hout]
    | effectItem ef => exact absurd rfl (hnoeff ef)
  · simp only [Timeline.trim_clip, hget, exceptBind_ok]
    cases hf : find_clip_recursive track.clips (some nm) none with
    | none => simp
    | some q =>
      obtain ⟨p, idx, parent, c⟩ := q
      simp
  · intro hfind
    simp only [Timeline.trim_clip, hget, exceptBind_ok, hfind]

/-- The single video track of the two-clip timeline. -/
def c9Track : Track :=
  { name := "Video 1", track_type := "video",
    clips := [Clip.video "idA" "A" 0 60 "video" [] (some "/a.mp4"),
              Clip.video "idB" "B" 60 100 "video" [] (some "/b.mp4")] }

/-- One second is 30 frames on the two-clip timeline. -/
theorem c9Tl_sec_frames : Timeline.seconds_to_frames c9Tl 1 = 30 := by
  norm_num [Timeline.seconds_to_frames, pyRound, c9Tl]

/-- The expected timeline after trimming clip A at frame 30. -/
def c5ExpectedTl : Timeline :=
  { tracks := [
      { name := "Video 1", track_type := "video",
        clips := [Clip.video "u1" "A_part1" 0 30 "video" [] none,
                  Clip.video "u2" "A_part2" 30 60 "video" [] none,
                  Clip.video "idB" "B" 60 100 "video" [] (some "/b.mp4")] }],
    duration := 0, transitions := [], frame_rate := 30 }

/-- Witness for C5: trimming clip A of the two-clip timeline at one second
(frame 30) replaces it by A_part1 [0,30) and A_part2 [30,60) with the
fresh ids. -/
theorem c5_trim_clip_witness :
    Timeline.trim_clip c9Tl (some "A") (.vFloat 1) "video" 0 none "u1" "u2" =
      .ok (c5ExpectedTl, true) := by
  have hfind : find_clip_recursive c9Track.clips (some "A") none =
      some ([], 0, c9Track.clips, Clip.video "idA" "A" 0 60 "video" [] (some "/a.mp4")) := by
    simp [find_clip_recursive, findNameAux, c9Track, Clip.nameAttr]
  have h := (c5_trim_clip c9Tl "A" 1 "video" 0 "u1" "u2" c9Track rfl).1
    [] 0 c9Track.clips "idA" "A" 0 60 "video" [] (some "/a.mp4") hfind
    (by rw [c9Tl_sec_frames]; decide) (by rw [c9Tl_sec_frames]; decide)
  rw [h, c9Tl_sec_frames]
  rfl

/-- Accessor reduction on a literal video clip. -/
@[simp] theorem nameAttr_video (cid nm : String) (s e : Int) (tt : String)
    (fx : List Effect) (fp : Option String) :
    (Clip.video cid nm s e tt fx fp).nameAttr = some nm := rfl

/-- Accessor reduction on a literal compound clip. -/
@[simp] theorem nameAttr_compound (cid nm : String) (s e : Int) (tt : String)
    (fx : List Effect) (cs : List Clip) :
    (Clip.compound cid nm s e tt fx cs).nameAttr = some nm := rfl

/-- Accessor reduction on a literal video clip. -/
@[simp] theorem startAttr_video (cid nm : String) (s e : Int) (tt : String)
    (fx : List Effect) (fp : Option String) :
    (Clip.video cid nm s e tt fx fp).startAttr = some s := rfl

/-- Accessor reduction on a literal compound clip. -/
@[simp] theorem startAttr_compound (cid nm : String) (s e : Int) (tt : String)
    (fx : List Effect) (cs : List Clip) :
    (Clip.compound cid nm s e tt fx cs).startAttr = some s := rfl

/-- Accessor reduction on a literal video clip. -/
@[simp] theorem stopAttr_video (cid nm : String) (s e : Int) (tt : String)
    (fx : List Effect) (fp : Option String) :
    (Clip.video cid nm s e tt fx fp).stopAttr = some e := rfl

/-- Accessor reduction on a literal compound clip. -/
@[simp] theorem stopAttr_compound (cid nm : String) (s e : Int) (tt : String)
    (fx : List Effect) (cs : List Clip) :
    (Clip.compound cid nm s e tt fx cs).stopAttr = some e := rfl

/-- The float tolerance on integer frame bounds is exact equality: two
integers are within 1e-6 exactly when they are equal. -/
theorem int_tol_iff (a b : Int) : |(a : ℚ) - (b : ℚ)| < (1 : ℚ)/1000000 ↔ a = b := by
  constructor
  · intro h
    by_contra hne
    have h0 : a - b ≠ 0 := sub_ne_zero.mpr hne
    have h1 : (1 : Int) ≤ |a - b| := by
      have := abs_pos.mpr h0
      omega
    have h2 : ((1 : Int) : ℚ) ≤ ((|a - b| : Int) : ℚ) := Int.cast_le.mpr h1
    push_cast at h2
    linarith
  · intro h
    subst h
    norm_num

/-- C6: join_clips succeeds exactly when the second clip immediately
follows the first in the same container and the first ends where the
second starts (within the 1e-6 tolerance, which on integer frames is
equality); on success both clips are replaced by one fresh-id clip named
a_joined_b spanning [a.start, b.end]; otherwise the timeline is unchanged
and the call returns false. -/
theorem c6_join_clips (tl : Timeline) (nA nB : String) (tt : String) (ti : Int)
    (u : String) (track : Track) (hget : tl.get_track tt ti = .ok track) :
    (∀ p idx parent cid n1 s1 e1 tt1 fx1 fp1 second n2 s2 e2,
      find_clip_recursive track.clips (some nA) none =
        some (p, idx, parent, .video cid n1 s1 e1 tt1 fx1 fp1) →
      parent[idx + 1]? = some second →
      second.nameAttr = some nB → second.nameAttr = some n2 →
      second.startAttr = some s2 → second.stopAttr = some e2 →
      e1 = s2 →
      tl.join_clips (some nA) (some nB) tt ti none none u =
        .ok (tl.setTrackClips tt ti (updateAtPath
          (fun l => l.take idx ++
            [VideoClip.init u (n1 ++ "_joined_" ++ n2) s1 e2 "video" none] ++
            l.drop (idx + 2)) track.clips p), true)) ∧
    (∀ p idx parent cid n1 s1 e1 tt1 fx1 fp1 second s2,
      find_clip_recursive track.clips (some nA) none =
        some (p, idx, parent, .video cid n1 s1 e1 tt1 fx1 fp1) →
      parent[idx + 1]? = some second →
      second.nameAttr = some nB →
      second.startAttr = some s2 →
      e1 ≠ s2 →
      tl.join_clips (some nA) (some nB) tt ti none none u = .ok (tl, false)) ∧
    (∀ p idx parent c,
      find_clip_recursive track.clips (some nA) none = some (p, idx, parent, c) →
      parent[idx + 1]? = none →
      tl.join_clips (some nA) (some nB) tt ti none none u = .ok (tl, false)) ∧
    (∀ p idx parent c second,
      find_clip_recursive track.clips (some nA) none = some (p, idx, parent, c) →
      parent[idx + 1]? = some second →
      second.nameAttr ≠ some nB →
      tl.join_clips (some nA) (some nB) tt ti none none u = .ok (tl, false)) ∧
    (find_clip_recursive track.clips (some nA) none = none →
      tl.join_clips (some nA) (some nB) tt ti none none u = .ok (tl, false)) := by
  refine ⟨?_, ?_, ?_, ?_, ?_⟩
  · intro p idx parent cid n1 s1 e1 tt1 fx1 fp1 second n2 s2 e2
      hfind hsecond hname hname2 hstart hstop heq
    have htol : |(e1 : ℚ) - (s2 : ℚ)| < (1 : ℚ)/1000000 := (int_tol_iff e1 s2).mpr heq
    have hn2 : nB = n2 := by
      rw [hname] at hname2
      exact Option.some.inj hname2
    subst hn2
    simp only [Timeline.join_clips, hget, exceptBind_ok, hfind, hsecond]
    simp [truthyS, hname, hstart, hstop]
    simpa using htol
  · intro p idx parent cid n1 s1 e1 tt1 fx1 fp1 second s2 hfind hsecond hname hstart hne
    have htol : ¬ (|(e1 : ℚ) - (s2 : ℚ)| < (1 : ℚ)/1000000) := fun h => hne ((int_tol_iff e1 s2).mp h)
    simp only [Timeline.join_clips, hget, exceptBind_ok, hfind, hsecond]
    simp [truthyS, hname, hstart]
    intro h
    exact absurd (by simpa using h) htol
  · intro p idx parent c hfind hsecond
    simp only [Timeline.join_clips, hget, exceptBind_ok, hfind, hsecond]
  · intro p idx parent c second hfind hsecond hname
    simp only [Timeline.join_clips, hget, exceptBind_ok, hfind, hsecond]
    simp [truthyS, hname]
  · intro hfind
    simp only [Timeline.join_clips, hget, exceptBind_ok, hfind]

/-- The expected timeline after joining A and B. -/
def c6ExpectedTl : Timeline :=
  { tracks := [
      { name := "Video 1", track_type := "video",
        clips := [Clip.video "u" "A_joined_B" 0 100 "video" [] none] }],
    duration := 0, transitions := [], frame_rate := 30 }

/-- Witness for C6: joining the adjacent clips A [0,60) and B [60,100) of
the two-clip timeline yields the single fresh clip A_joined_B [0,100]. -/
theorem c6_join_clips_witness :
    Timeline.join_clips c9Tl (some "A") (some "B") "video" 0 none none "u" =
      .ok (c6ExpectedTl, true) := by
  have hfind : find_clip_recursive c9Track.clips (some "A") none =
      some ([], 0, c9Track.clips, Clip.video "idA" "A" 0 60 "video" [] (some "/a.mp4")) := by
    simp [find_clip_recursive, findNameAux, c9Track, Clip.nameAttr]
  have h := (c6_join_clips c9Tl "A" "B" "video" 0 "u" c9Track rfl).1
    [] 0 c9Track.clips "idA" "A" 0 60 "video" [] (some "/a.mp4")
    (Clip.video "idB" "B" 60 100 "video" [] (some "/b.mp4")) "B" 60 100
    hfind rfl rfl rfl rfl rfl rfl
  rw [h]
  rfl

/-- A range CUT operation as the executor hands it to the handler: target
name, start/end seconds, explicit track index. -/
def mkCutOp (nm : String) (S E : ℚ) (ti : Int) : EditOperation :=
  { type := "CUT", target := some nm,
    parameters := [("start", .vFloat S), ("end", .vFloat E), ("track_index", .vInt ti)] }

/-- C7 (amended): the range-aware CUT with range [S,E], after clamping to
the target clip bounds (cs = max S start, ce = min E end, in seconds):
(a) cs within 1e-3 of the clip start and ce strictly before the clip end
drops the prefix, advancing the clip start to frame round(ce * fps) in
place with no gap object; (b) otherwise, cs strictly after the start and
ce within 1e-3 of the end drops the suffix, pulling the clip end to
round(cs * fps); (c) otherwise, cs strictly after the start and ce
strictly before the end replaces the clip by the two survivors
[start, round(cs * fps)) and [round(ce * fps), end) with an implicit gap
and no gap object — the branch never compares cs with ce, so degenerate
and reversed in-clip ranges split too rather than failing as the claim
states (see the counterexample); (d) only the remaining configurations
give the invalid-range failure that leaves the timeline unchanged. -/
theorem c7_cut_range (tl : Timeline) (nm : String) (S E : ℚ) (ti : Int)
    (u1 u2 : String) (track : Track) (p : List Nat) (idx : Nat) (parent : List Clip)
    (cid nm0 : String) (s0 e0 : Int) (tt0 : String) (fx0 : List Effect) (fp0 : Option String)
    (hnm : nm ≠ "")
    (hget : tl.get_track "video" ti = .ok track)
    (hfind : find_clip_recursive track.clips (some nm) none =
      some (p, idx, parent, .video cid nm0 s0 e0 tt0 fx0 fp0)) :
    ((|max S ((s0 : ℚ) / tl.frame_rate) - (s0 : ℚ) / tl.frame_rate| < (1 : ℚ)/1000 ∧
      min E ((e0 : ℚ) / tl.frame_rate) < (e0 : ℚ) / tl.frame_rate) →
      CutOperationHandler.execute (mkCutOp nm S E ti) tl u1 u2 =
        .ok ({ success := true, message := "Trimmed start of clip." },
          tl.setTrackClips "video" ti (setClipAt
            (fun c => c.setBounds (pyRound (min E ((e0 : ℚ) / tl.frame_rate) * tl.frame_rate)) c.stopD)
            track.clips p idx))) ∧
    (¬ (|max S ((s0 : ℚ) / tl.frame_rate) - (s0 : ℚ) / tl.frame_rate| < (1 : ℚ)/1000 ∧
        min E ((e0 : ℚ) / tl.frame_rate) < (e0 : ℚ) / tl.frame_rate) →
     (max S ((s0 : ℚ) / tl.frame_rate) > (s0 : ℚ) / tl.frame_rate ∧
      |min E ((e0 : ℚ) / tl.frame_rate) - (e0 : ℚ) / tl.frame_rate| < (1 : ℚ)/1000) →
      CutOperationHandler.execute (mkCutOp nm S E ti) tl u1 u2 =
        .ok ({ success := true, message := "Trimmed end of clip." },
          tl.setTrackClips "video" ti (setClipAt
            (fun c => c.setBounds c.startD (pyRound (max S ((s0 : ℚ) / tl.frame_rate) * tl.frame_rate)))
            track.clips p idx))) ∧
    (¬ (|max S ((s0 : ℚ) / tl.frame_rate) - (s0 : ℚ) / tl.frame_rate| < (1 : ℚ)/1000 ∧
        min E ((e0 : ℚ) / tl.frame_rate) < (e0 : ℚ) / tl.frame_rate) →
     ¬ (max S ((s0 : ℚ) / tl.frame_rate) > (s0 : ℚ) / tl.frame_rate ∧
        |min E ((e0 : ℚ) / tl.frame_rate) - (e0 : ℚ) / tl.frame_rate| < (1 : ℚ)/1000) →
     (max S ((s0 : ℚ) / tl.frame_rate) > (s0 : ℚ) / tl.frame_rate ∧
      min E ((e0 : ℚ) / tl.frame_rate) < (e0 : ℚ) / tl.frame_rate) →
      CutOperationHandler.execute (mkCutOp nm S E ti) tl u1 u2 =
        .ok ({ success := true, message := "Cut out segment from clip, leaving a gap." },
          tl.setTrackClips "video" ti (updateAtPath
            (fun l => l.take idx ++
              [VideoClip.init u1 (nm0 ++ "_part1") s0
                 (pyRound (max S ((s0 : ℚ) / tl.frame_rate) * tl.frame_rate)) tt0 fp0,
               VideoClip.init u2 (nm0 ++ "_part2")
                 (pyRound (min E ((e0 : ℚ) / tl.frame_rate) * tl.frame_rate)) e0 tt0 fp0] ++
              l.drop (idx + 1)) track.clips p))) ∧
    (¬ (|max S ((s0 : ℚ) / tl.frame_rate) - (s0 : ℚ) / tl.frame_rate| < (1 : ℚ)/1000 ∧
        min E ((e0 : ℚ) / tl.frame_rate) < (e0 : ℚ) / tl.frame_rate) →
     ¬ (max S ((s0 : ℚ) / tl.frame_rate) > (s0 : ℚ) / tl.frame_rate ∧
        |min E ((e0 : ℚ) / tl.frame_rate) - (e0 : ℚ) / tl.frame_rate| < (1 : ℚ)/1000) →
     ¬ (max S ((s0 : ℚ) / tl.frame_rate) > (s0 : ℚ) / tl.frame_rate ∧
        min E ((e0 : ℚ) / tl.frame_rate) < (e0 : ℚ) / tl.frame_rate) →
      CutOperationHandler.execute (mkCutOp nm S E ti) tl u1 u2 =
        .ok ({ success := false, message := "Invalid cut/trim range for clip." }, tl)) := by
  have hp1 : (mkCutOp nm S E ti).parameters.get "clip_id" = PValue.vNone := rfl
  have hp2 : (mkCutOp nm S E ti).parameters.get "start" = PValue.vFloat S := rfl
  have hp3 : (mkCutOp nm S E ti).parameters.get "end" = PValue.vFloat E := rfl
  have hp4 : (mkCutOp nm S E ti).parameters.getD "track_type" (.vStr "video") = PValue.vStr "video" := rfl
  have hp5 : (mkCutOp nm S E ti).parameters.get "track_index" = PValue.vInt ti := rfl
  have htgt : (mkCutOp nm S E ti).target = some nm := rfl
  refine ⟨?_, ?_, ?_, ?_⟩
  · intro hc
    simp only [CutOperationHandler.execute, hp1, hp2, hp3, hp4, hp5, htgt,
      PValue.asOptStr, PValue.asInt, PValue.asFloat, exceptBind_ok, hget, hfind,
      startAttr_video, stopAttr_video]
    rw [if_pos hc]
    simp [truthyS, hnm]
  · intro hna hc
    simp only [CutOperationHandler.execute, hp1, hp2, hp3, hp4, hp5, htgt,
      PValue.asOptStr, PValue.asInt, PValue.asFloat, exceptBind_ok, hget, hfind,
      startAttr_video, stopAttr_video]
    rw [if_neg hna, if_pos hc]
    simp [truthyS, hnm]
  · intro hna hnb hc
    simp only [CutOperationHandler.execute, hp1, hp2, hp3, hp4, hp5, htgt,
      PValue.asOptStr, PValue.asInt, PValue.asFloat, exceptBind_ok, hget, hfind,
      startAttr_video, stopAttr_video]
    rw [if_neg hna, if_neg hnb, if_pos hc]
    simp [truthyS, hnm, VideoClip.init]
  · intro hna hnb hnc
    simp only [CutOperationHandler.execute, hp1, hp2, hp3, hp4, hp5, htgt,
      PValue.asOptStr, PValue.asInt, PValue.asFloat, exceptBind_ok, hget, hfind,
      startAttr_video, stopAttr_video]
    rw [if_neg hna, if_neg hnb, if_neg hnc]
    simp [truthyS, hnm]

/-- The expected timeline after range-cutting [0.5s, 1s] out of clip A:
two survivors A_part1 [0,15) and A_part2 [30,60) with file_path kept. -/
def c7ExpectedTl : Timeline :=
  { tracks := [
      { name := "Video 1", track_type := "video",
        clips := [Clip.video "u1" "A_part1" 0 15 "video" [] (some "/a.mp4"),
                  Clip.video "u2" "A_part2" 30 60 "video" [] (some "/a.mp4"),
                  Clip.video "idB" "B" 60 100 "video" [] (some "/b.mp4")] }],
    duration := 0, transitions := [], frame_rate := 30 }

/-- Witness for C7 in the interior-split case: cutting [0.5, 1] seconds out
of clip A [0,60) at 30 fps leaves [0,15) and [30,60). -/
theorem c7_cut_range_witness :
    CutOperationHandler.execute (mkCutOp "A" (1/2) 1 0) c9Tl "u1" "u2" =
      .ok ({ success := true, message := "Cut out segment from clip, leaving a gap." },
        c7ExpectedTl) := by
  have hfind : find_clip_recursive c9Track.clips (some "A") none =
      some ([], 0, c9Track.clips, Clip.video "idA" "A" 0 60 "video" [] (some "/a.mp4")) := by
    simp [find_clip_recursive, findNameAux, c9Track, Clip.nameAttr]
  have h := (c7_cut_range c9Tl "A" (1/2) 1 0 "u1" "u2" c9Track [] 0 c9Track.clips
      "idA" "A" 0 60 "video" [] (some "/a.mp4") (by decide) rfl hfind).2.2.1
      (by norm_num [c9Tl, max_def, min_def, abs_of_nonneg])
      (by norm_num [c9Tl, max_def, min_def, abs_of_nonneg])
      (by norm_num [c9Tl, max_def, min_def])
  rw [h]
  norm_num [Timeline.setTrackClips, setTrackClipsAux, updateAtPath, VideoClip.init,
    c9Tl, c9Track, c7ExpectedTl, pyRound, max_def, min_def, Int.floor_intCast]
  exact ⟨rfl, rfl⟩

/-- boundsOk distributes over list append. -/
theorem clipsBoundsOk_append (a b : List Clip) :
    clipsBoundsOk (a ++ b) = (clipsBoundsOk a && clipsBoundsOk b) := by
  induction a with
  | nil => simp [clipsBoundsOk]
  | cons c cs ih => simp [clipsBoundsOk, ih, Bool.and_assoc]

/-- A prefix of a bounds-correct list is bounds-correct. -/
theorem clipsBoundsOk_take (l : List Clip) (n : Nat) (h : clipsBoundsOk l = true) :
    clipsBoundsOk (l.take n) = true := by
  induction l generalizing n with
  | nil => simp [clipsBoundsOk]
  | cons c cs ih =>
    cases n with
    | zero => simp [clipsBoundsOk]
    | succ m =>
      simp only [clipsBoundsOk, Bool.and_eq_true] at h
      simp only [List.take_succ_cons, clipsBoundsOk, Bool.and_eq_true]
      exact ⟨h.1, ih m h.2⟩

/-- A suffix of a bounds-correct list is bounds-correct. -/
theorem clipsBoundsOk_drop (l : List Clip) (n : Nat) (h : clipsBoundsOk l = true) :
    clipsBoundsOk (l.drop n) = true := by
  induction l generalizing n with
  | nil => simp [clipsBoundsOk]
  | cons c cs ih =>
    cases n with
    | zero => exact h
    | succ m =>
      simp only [clipsBoundsOk, Bool.and_eq_true] at h
      simpa using ih m h.2

/-- recalculate_bounds establishes the invariant at the rebuilt node. -/
theorem recalc_boundsOk (cid nm : String) (s e : Int) (tt : String)
    (fx : List Effect) (cs : List Clip) (h : clipsBoundsOk cs = true) :
    (Clip.recalculate_bounds (.compound cid nm s e tt fx cs)).boundsOk = true := by
  cases cs with
  | nil => simp [Clip.recalculate_bounds, Clip.boundsOk, clipsBoundsOk]
  | cons c cs =>
    simp only [Clip.recalculate_bounds, List.map_cons]
    simp [Clip.boundsOk, h]

/-- Children of a bounds-correct compound are bounds-correct. -/
theorem boundsOk_compound_children (cid nm : String) (s e : Int) (tt : String)
    (fx : List Effect) (cs : List Clip)
    (h : (Clip.compound cid nm s e tt fx cs).boundsOk = true) :
    clipsBoundsOk cs = true := by
  simp only [Clip.boundsOk, Bool.and_eq_true] at h
  exact h.2

/-- modIdx preserves the invariant when the update does. -/
theorem modIdx_boundsOk (g : Clip → Clip)
    (hg : ∀ c, c.boundsOk = true → (g c).boundsOk = true)
    (l : List Clip) (i : Nat) (h : clipsBoundsOk l = true) :
    clipsBoundsOk (modIdx g l i) = true := by
  induction l generalizing i with
  | nil => simpa [modIdx] using h
  | cons c cs ih =>
    cases i with
    | zero =>
      simp only [clipsBoundsOk, Bool.and_eq_true] at h
      simp only [modIdx, clipsBoundsOk, Bool.and_eq_true]
      exact ⟨hg c h.1, h.2⟩
    | succ m =>
      simp only [clipsBoundsOk, Bool.and_eq_true] at h
      simp only [modIdx, clipsBoundsOk, Bool.and_eq_true]
      exact ⟨h.1, ih m h.2⟩

/-- updateAtPath preserves the invariant when the list surgery does: every
compound along the path is rebuilt through recalculate_bounds. -/
theorem updateAtPath_boundsOk (f : List Clip → List Clip)
    (hf : ∀ cs, clipsBoundsOk cs = true → clipsBoundsOk (f cs) = true) :
    ∀ (p : List Nat) (l : List Clip), clipsBoundsOk l = true →
      clipsBoundsOk (updateAtPath f l p) = true := by
  intro p
  induction p with
  | nil => intro l h; simpa [updateAtPath] using hf l h
  | cons i p ih =>
    intro l h
    simp only [updateAtPath]
    apply modIdx_boundsOk _ _ l i h
    intro c hc
    cases c with
    | video cid nm s e tt fx fp => simpa using hc
    | effectItem ef => simpa using hc
    | compound cid nm s e tt fx children =>
      exact recalc_boundsOk _ _ _ _ _ _ _
        (ih children (boundsOk_compound_children _ _ _ _ _ _ _ hc))

/-- Writing a bounds-correct clip list into a track keeps every track of
the timeline bounds-correct. -/
theorem setTrackClipsAux_boundsOk (tt : String) (newClips : List Clip)
    (hnew : clipsBoundsOk newClips = true) :
    ∀ (ts : List Track) (k : Nat), (∀ t ∈ ts, clipsBoundsOk t.clips = true) →
      ∀ t ∈ setTrackClipsAux tt newClips ts k, clipsBoundsOk t.clips = true := by
  intro ts
  induction ts with
  | nil => intro k h t ht; simp [setTrackClipsAux] at ht
  | cons t0 ts ih =>
    intro k h t ht
    simp only [setTrackClipsAux] at ht
    split at ht
    · split at ht
      · rcases List.mem_cons.mp ht with rfl | hmem
        · exact hnew
        · exact h t (List.mem_cons_of_mem _ hmem)
      · rcases List.mem_cons.mp ht with rfl | hmem
        · exact h t (List.mem_cons_self _ _)
        · exact ih _ (fun u hu => h u (List.mem_cons_of_mem _ hu)) t hmem
    · rcases List.mem_cons.mp ht with rfl | hmem
      · exact h t (List.mem_cons_self _ _)
      · exact ih _ (fun u hu => h u (List.mem_cons_of_mem _ hu)) t hmem

/-- setTrackClips with a bounds-correct clip list preserves the timeline
invariant. -/
theorem setTrackClips_boundsOkAll (tl : Timeline) (tt : String) (i : Int)
    (newClips : List Clip) (h : tl.boundsOkAll = true)
    (hnew : clipsBoundsOk newClips = true) :
    (tl.setTrackClips tt i newClips).boundsOkAll = true := by
  have hall : ∀ t ∈ tl.tracks, clipsBoundsOk t.clips = true := by
    simpa [Timeline.boundsOkAll, List.all_eq_true] using h
  simp only [Timeline.setTrackClips, Timeline.boundsOkAll, List.all_eq_true]
  intro t ht
  exact setTrackClipsAux_boundsOk tt newClips hnew tl.tracks _ hall t ht

/-- A track handed out by get_track is one of the timeline tracks. -/
theorem get_track_mem (tl : Timeline) (tt : String) (i : Int) (track : Track)
    (h : tl.get_track tt i = .ok track) : track ∈ tl.tracks := by
  rw [Timeline.get_track] at h
  split at h
  · exact absurd h (by simp)
  · split at h <;>
    · simp only [] at h
      split at h
      · rename_i t heq
        cases h
        exact List.mem_of_mem_filter (List.getElem?_mem heq)
      · exact absurd h (by simp)

/-- The clips of a track handed out by get_track are bounds-correct on a
bounds-correct timeline. -/
theorem get_track_clipsOk (tl : Timeline) (tt : String) (i : Int) (track : Track)
    (h : tl.boundsOkAll = true) (hg : tl.get_track tt i = .ok track) :
    clipsBoundsOk track.clips = true := by
  have hall : ∀ t ∈ tl.tracks, clipsBoundsOk t.clips = true := by
    simpa [Timeline.boundsOkAll, List.all_eq_true] using h
  exact hall track (get_track_mem tl tt i track hg)

/-- Splicing two bounds-correct clips over one slot keeps the list
bounds-correct. -/
theorem splice2_boundsOk (idx : Nat) (c1 c2 : Clip)
    (h1 : c1.boundsOk = true) (h2 : c2.boundsOk = true) :
    ∀ cs, clipsBoundsOk cs = true →
      clipsBoundsOk (cs.take idx ++ [c1, c2] ++ cs.drop (idx + 1)) = true := by
  intro cs hcs
  simp only [clipsBoundsOk_append, Bool.and_eq_true]
  exact ⟨⟨clipsBoundsOk_take _ _ hcs, by simp [clipsBoundsOk, h1, h2]⟩,
    clipsBoundsOk_drop _ _ hcs⟩

/-- Splicing one bounds-correct clip over a slot span keeps the list
bounds-correct. -/
theorem splice1_boundsOk (idx d : Nat) (c1 : Clip) (h1 : c1.boundsOk = true) :
    ∀ cs, clipsBoundsOk cs = true →
      clipsBoundsOk (cs.take idx ++ [c1] ++ cs.drop (idx + d)) = true := by
  intro cs hcs
  simp only [clipsBoundsOk_append, Bool.and_eq_true]
  exact ⟨⟨clipsBoundsOk_take _ _ hcs, by simp [clipsBoundsOk, h1]⟩,
    clipsBoundsOk_drop _ _ hcs⟩

/-- Deleting a slot keeps the list bounds-correct. -/
theorem delete1_boundsOk (idx : Nat) :
    ∀ cs, clipsBoundsOk cs = true →
      clipsBoundsOk (cs.take idx ++ cs.drop (idx + 1)) = true := by
  intro cs hcs
  simp only [clipsBoundsOk_append, Bool.and_eq_true]
  exact ⟨clipsBoundsOk_take _ _ hcs, clipsBoundsOk_drop _ _ hcs⟩

/-- A fresh leaf part clip satisfies the invariant. -/
theorem videoInit_boundsOk (u nm : String) (s e : Int) (tt : String)
    (fp : Option String) : (VideoClip.init u nm s e tt fp).boundsOk = true := by
  simp [VideoClip.init, Clip.boundsOk]

/-- A fresh empty compound part clip satisfies the invariant. -/
theorem compoundInit_boundsOk (u nm : String) (s e : Int) (tt : String) :
    (CompoundClip.init u nm s e tt [] []).boundsOk = true := by
  simp [CompoundClip.init, Clip.recalculate_bounds, Clip.boundsOk, clipsBoundsOk]

/-- trim_clip preserves the compound bounds invariant. -/
theorem trim_preservesBounds (tl : Timeline) (h : tl.boundsOkAll = true)
    (cn : Option String) (ts : PValue) (tt : String) (ti : Int) (cid : Option String)
    (u1 u2 : String) (tl2 : Timeline) (b : Bool)
    (heq : tl.trim_clip cn ts tt ti cid u1 u2 = .ok (tl2, b)) :
    tl2.boundsOkAll = true := by
  rcases hgt : tl.get_track tt ti with msg | track
  · rw [Timeline.trim_clip, hgt] at heq
    simp at heq
  · have htr := get_track_clipsOk tl tt ti track h hgt
    rw [Timeline.trim_clip, hgt] at heq
    simp only [exceptBind_ok] at heq
    split at heq
    · split at heq
      · cases heq; exact h
      · split at heq
        · simp only [exceptBind_ok] at heq
          split at heq
          · split at heq
            · cases heq
              exact setTrackClips_boundsOkAll _ _ _ _ h
                (updateAtPath_boundsOk _
                  (splice2_boundsOk _ _ _ (videoInit_boundsOk _ _ _ _ _ _)
                    (videoInit_boundsOk _ _ _ _ _ _)) _ _ htr)
            · cases heq; exact h
          · split at heq
            · cases heq
              exact setTrackClips_boundsOkAll _ _ _ _ h
                (updateAtPath_boundsOk _
                  (splice2_boundsOk _ _ _ (compoundInit_boundsOk _ _ _ _ _)
                    (compoundInit_boundsOk _ _ _ _ _)) _ _ htr)
            · cases heq; exact h
          · split at heq
            · split at heq
              · simp at heq
              · cases heq; exact h
            · simp at heq
        · simp only [exceptBind_ok] at heq
          split at heq
          · split at heq
            · cases heq
              exact setTrackClips_boundsOkAll _ _ _ _ h
                (updateAtPath_boundsOk _
                  (splice2_boundsOk _ _ _ (videoInit_boundsOk _ _ _ _ _ _)
                    (videoInit_boundsOk _ _ _ _ _ _)) _ _ htr)
            · cases heq; exact h
          · split at heq
            · cases heq
              exact setTrackClips_boundsOkAll _ _ _ _ h
                (updateAtPath_boundsOk _
                  (splice2_boundsOk _ _ _ (compoundInit_boundsOk _ _ _ _ _)
                    (compoundInit_boundsOk _ _ _ _ _)) _ _ htr)
            · cases heq; exact h
          · split at heq
            · split at heq
              · simp at heq
              · cases heq; exact h
            · simp at heq
        · simp at heq
    · cases heq; exact h

/-- join_clips preserves the compound bounds invariant. -/
theorem join_preservesBounds (tl : Timeline) (h : tl.boundsOkAll = true)
    (n1 n2 : Option String) (tt : String) (ti : Int) (id1 id2 : Option String)
    (u : String) (tl2 : Timeline) (b : Bool)
    (heq : tl.join_clips n1 n2 tt ti id1 id2 u = .ok (tl2, b)) :
    tl2.boundsOkAll = true := by
  rcases hgt : tl.get_track tt ti with msg | track
  · rw [Timeline.join_clips, hgt] at heq
    simp at heq
  · have htr := get_track_clipsOk tl tt ti track h hgt
    rw [Timeline.join_clips, hgt] at heq
    simp only [exceptBind_ok] at heq
    repeat' split at heq
    all_goals first
      | (cases heq
         exact setTrackClips_boundsOkAll _ _ _ _ h
           (updateAtPath_boundsOk _
             (splice1_boundsOk _ _ _ (compoundInit_boundsOk _ _ _ _ _)) _ _ htr))
      | (cases heq
         exact setTrackClips_boundsOkAll _ _ _ _ h
           (updateAtPath_boundsOk _
             (splice1_boundsOk _ _ _ (videoInit_boundsOk _ _ _ _ _ _)) _ _ htr))
      | (cases heq; exact h)
      | simp at heq

/-- remove_clip preserves the compound bounds invariant. -/
theorem remove_preservesBounds (tl : Timeline) (h : tl.boundsOkAll = true)
    (cn : Option String) (tt : String) (ti : Int) (cid : Option String)
    (tl2 : Timeline) (b : Bool)
    (heq : tl.remove_clip cn tt ti cid = .ok (tl2, b)) :
    tl2.boundsOkAll = true := by
  rcases hgt : tl.get_track tt ti with msg | track
  · rw [Timeline.remove_clip, hgt] at heq
    simp at heq
  · have htr := get_track_clipsOk tl tt ti track h hgt
    rw [Timeline.remove_clip, hgt] at heq
    simp only [exceptBind_ok] at heq
    repeat' split at heq
    all_goals first
      | (cases heq
         exact setTrackClips_boundsOkAll _ _ _ _ h
           (updateAtPath_boundsOk _ (delete1_boundsOk _) _ _ htr))
      | (cases heq; exact h)

/-- remove_clip_by_index preserves the compound bounds invariant. -/
theorem removeIdx_preservesBounds (tl : Timeline) (h : tl.boundsOkAll = true)
    (ci : Int) (tt : String) (ti : Int) (tl2 : Timeline) (b : Bool)
    (heq : tl.remove_clip_by_index ci tt ti = .ok (tl2, b)) :
    tl2.boundsOkAll = true := by
  rcases hgt : tl.get_track tt ti with msg | track
  · rw [Timeline.remove_clip_by_index, hgt] at heq
    simp at heq
  · have htr := get_track_clipsOk tl tt ti track h hgt
    rw [Timeline.remove_clip_by_index, hgt] at heq
    simp only [exceptBind_ok] at heq
    repeat' split at heq
    all_goals first
      | (cases heq
         exact setTrackClips_boundsOkAll _ _ _ _ h
           (updateAtPath_boundsOk _ (delete1_boundsOk _) _ _ htr))
      | (cases heq; exact h)

/-- CompoundClip.add_clip preserves the invariant at the node. -/
theorem addClip_preservesBounds (c child c2 : Clip)
    (hc : c.boundsOk = true) (hch : child.boundsOk = true)
    (heq : CompoundClip.add_clip c child = .ok c2) : c2.boundsOk = true := by
  have key : ∀ cid nm s e tt fx cs, c = .compound cid nm s e tt fx cs →
      c2 = Clip.recalculate_bounds (.compound cid nm s e tt fx (cs ++ [child])) →
      c2.boundsOk = true := by
    intro cid nm s e tt fx cs hcc hc2
    subst hcc hc2
    refine recalc_boundsOk _ _ _ _ _ _ _ ?_
    rw [clipsBoundsOk_append]
    simp [clipsBoundsOk, hch, boundsOk_compound_children _ _ _ _ _ _ _ hc]
  cases child with
  | effectItem e0 => simp [CompoundClip.add_clip] at heq
  | video cid0 nm0 s0 e0 tt0 fx0 fp0 =>
    cases c with
    | video cid1 nm1 s1 e1 tt1 fx1 fp1 => simp [CompoundClip.add_clip] at heq
    | effectItem e1 => simp [CompoundClip.add_clip] at heq
    | compound cid nm s e tt fx cs =>
      simp only [CompoundClip.add_clip, Except.ok.injEq] at heq
      exact key cid nm s e tt fx cs rfl heq.symm
  | compound cid0 nm0 s0 e0 tt0 fx0 cs0 =>
    cases c with
    | video cid1 nm1 s1 e1 tt1 fx1 fp1 => simp [CompoundClip.add_clip] at heq
    | effectItem e1 => simp [CompoundClip.add_clip] at heq
    | compound cid nm s e tt fx cs =>
      simp only [CompoundClip.add_clip, Except.ok.injEq] at heq
      exact key cid nm s e tt fx cs rfl heq.symm

/-- CompoundClip.remove_clip preserves the invariant at the node. -/
theorem removeAt_preservesBounds (c c2 : Clip) (i : Nat)
    (hc : c.boundsOk = true)
    (heq : CompoundClip.remove_clip_at c i = .ok c2) : c2.boundsOk = true := by
  cases c with
  | video cid nm s e tt fx fp => simp [CompoundClip.remove_clip_at] at heq
  | effectItem e0 => simp [CompoundClip.remove_clip_at] at heq
  | compound cid nm s e tt fx cs =>
    simp only [CompoundClip.remove_clip_at] at heq
    split at heq
    · simp only [Except.ok.injEq] at heq
      subst heq
      refine recalc_boundsOk _ _ _ _ _ _ _ ?_
      exact delete1_boundsOk _ _ (boundsOk_compound_children _ _ _ _ _ _ _ hc)
    · simp at heq

/-- C2 (amended): the compound bounds invariant (every compound with
children spans exactly the min child start to the max child end,
recursively) is preserved by trim_clip, join_clips, remove_clip,
remove_clip_by_index, CompoundClip.add_clip and CompoundClip.remove_clip.
The range-aware cut prefix and suffix branches are excluded: they mutate
the clip in place with no ancestor repair (see the counterexample). -/
theorem c2_bounds_amended (tl : Timeline) (h : tl.boundsOkAll = true) :
    (∀ cn ts tt ti cid u1 u2 tl2 b,
      tl.trim_clip cn ts tt ti cid u1 u2 = .ok (tl2, b) → tl2.boundsOkAll = true) ∧
    (∀ n1 n2 tt ti id1 id2 u tl2 b,
      tl.join_clips n1 n2 tt ti id1 id2 u = .ok (tl2, b) → tl2.boundsOkAll = true) ∧
    (∀ cn tt ti cid tl2 b,
      tl.remove_clip cn tt ti cid = .ok (tl2, b) → tl2.boundsOkAll = true) ∧
    (∀ ci tt ti tl2 b,
      tl.remove_clip_by_index ci tt ti = .ok (tl2, b) → tl2.boundsOkAll = true) ∧
    (∀ c child c2, c.boundsOk = true → child.boundsOk = true →
      CompoundClip.add_clip c child = .ok c2 → c2.boundsOk = true) ∧
    (∀ c i c2, c.boundsOk = true →
      CompoundClip.remove_clip_at c i = .ok c2 → c2.boundsOk = true) :=
  ⟨fun cn ts tt ti cid u1 u2 tl2 b => trim_preservesBounds tl h cn ts tt ti cid u1 u2 tl2 b,
   fun n1 n2 tt ti id1 id2 u tl2 b => join_preservesBounds tl h n1 n2 tt ti id1 id2 u tl2 b,
   fun cn tt ti cid tl2 b => remove_preservesBounds tl h cn tt ti cid tl2 b,
   fun ci tt ti tl2 b => removeIdx_preservesBounds tl h ci tt ti tl2 b,
   fun c child c2 hc hch => addClip_preservesBounds c child c2 hc hch,
   fun c i c2 hc => removeAt_preservesBounds c c2 i hc⟩

/-- Timeline after removing clip A from the two-clip timeline. -/
def c2RemTl : Timeline :=
  { tracks := [
      { name := "Video 1", track_type := "video",
        clips := [Clip.video "idB" "B" 60 100 "video" [] (some "/b.mp4")] }],
    duration := 0, transitions := [], frame_rate := 30 }

/-- Witness for the amended C2 theorem: removing clip A from the two-clip
timeline keeps the invariant. -/
theorem c2_bounds_amended_witness : Timeline.boundsOkAll c2RemTl = true := by
  have hget : c9Tl.get_track "video" 0 = .ok c9Track := rfl
  have hfind : find_clip_recursive c9Track.clips (some "A") none =
      some ([], 0, c9Track.clips, Clip.video "idA" "A" 0 60 "video" [] (some "/a.mp4")) := by
    simp [find_clip_recursive, findNameAux, c9Track, Clip.nameAttr]
  have hrem : c9Tl.remove_clip (some "A") "video" 0 none = .ok (c2RemTl, true) := by
    rw [Timeline.remove_clip, hget]
    simp only [exceptBind_ok, hfind]
    rfl
  exact (c2_bounds_amended c9Tl (by decide)).2.2.1 (some "A") "video" 0 none c2RemTl true hrem

/-- A timeline whose single track holds one compound clip C spanning
[0,100] over children A [0,60] and B [60,100]. -/
def c2Tl : Timeline :=
  { tracks := [
      { name := "Video 1", track_type := "video",
        clips := [Clip.compound "idC" "C" 0 100 "video" []
          [Clip.video "idA" "A" 0 60 "video" [] (some "/a.mp4"),
           Clip.video "idB" "B" 60 100 "video" [] (some "/b.mp4")]] }],
    duration := 0, transitions := [], frame_rate := 30 }

/-- The single track of c2Tl. -/
def c2Track : Track :=
  { name := "Video 1", track_type := "video",
    clips := [Clip.compound "idC" "C" 0 100 "video" []
      [Clip.video "idA" "A" 0 60 "video" [] (some "/a.mp4"),
       Clip.video "idB" "B" 60 100 "video" [] (some "/b.mp4")]] }

/-- c2Tl after the prefix-drop cut [0,1]s on child A: A becomes [30,60] in
place, but the compound still stores [0,100] with min child start 30. -/
def c2BrokenTl : Timeline :=
  { tracks := [
      { name := "Video 1", track_type := "video",
        clips := [Clip.compound "idC" "C" 0 100 "video" []
          [Clip.video "idA" "A" 30 60 "video" [] (some "/a.mp4"),
           Clip.video "idB" "B" 60 100 "video" [] (some "/b.mp4")]] }],
    duration := 0, transitions := [], frame_rate := 30 }

/-- The prefix-drop branch of the range cut in general form: the clip
start is overwritten in place through setClipAt, with no ancestor bounds
repair. -/
theorem cutCaseA (tl : Timeline) (nm : String) (S E : ℚ) (ti : Int)
    (u1 u2 : String) (track : Track) (p : List Nat) (idx : Nat) (parent : List Clip)
    (cid nm0 : String) (s0 e0 : Int) (tt0 : String) (fx0 : List Effect) (fp0 : Option String)
    (hnm : nm ≠ "")
    (hget : tl.get_track "video" ti = .ok track)
    (hfind : find_clip_recursive track.clips (some nm) none =
      some (p, idx, parent, .video cid nm0 s0 e0 tt0 fx0 fp0))
    (hc : |max S ((s0 : ℚ) / tl.frame_rate) - (s0 : ℚ) / tl.frame_rate| < (1 : ℚ)/1000 ∧
      min E ((e0 : ℚ) / tl.frame_rate) < (e0 : ℚ) / tl.frame_rate) :
    CutOperationHandler.execute (mkCutOp nm S E ti) tl u1 u2 =
      .ok ({ success := true, message := "Trimmed start of clip." },
        tl.setTrackClips "video" ti (setClipAt
          (fun c => c.setBounds (pyRound (min E ((e0 : ℚ) / tl.frame_rate) * tl.frame_rate)) c.stopD)
          track.clips p idx)) := by
  have hp1 : (mkCutOp nm S E ti).parameters.get "clip_id" = PValue.vNone := rfl
  have hp2 : (mkCutOp nm S E ti).parameters.get "start" = PValue.vFloat S := rfl
  have hp3 : (mkCutOp nm S E ti).parameters.get "end" = PValue.vFloat E := rfl
  have hp4 : (mkCutOp nm S E ti).parameters.getD "track_type" (.vStr "video") = PValue.vStr "video" := rfl
  have hp5 : (mkCutOp nm S E ti).parameters.get "track_index" = PValue.vInt ti := rfl
  have htgt : (mkCutOp nm S E ti).target = some nm := rfl
  simp only [CutOperationHandler.execute, hp1, hp2, hp3, hp4, hp5, htgt,
    PValue.asOptStr, PValue.asInt, PValue.asFloat, exceptBind_ok, hget, hfind,
    startAttr_video, stopAttr_video]
  rw [if_pos hc]
  simp [truthyS, hnm]

/-- C2 counterexample: a successful range cut [0,1]s on a clip nested in a
compound takes the prefix-drop branch, which mutates the child start in
place without repairing the ancestor bounds, breaking the invariant the
claim asserts for every structural edit. -/
theorem c2_bounds_counterexample :
    c2Tl.boundsOkAll = true ∧
    CutOperationHandler.execute (mkCutOp "A" 0 1 0) c2Tl "u1" "u2" =
      .ok ({ success := true, message := "Trimmed start of clip." }, c2BrokenTl) ∧
    c2BrokenTl.boundsOkAll = false := by
  refine ⟨by decide, ?_, by decide⟩
  have hfind : find_clip_recursive c2Track.clips (some "A") none =
      some ([0], 0,
        [Clip.video "idA" "A" 0 60 "video" [] (some "/a.mp4"),
         Clip.video "idB" "B" 60 100 "video" [] (some "/b.mp4")],
        Clip.video "idA" "A" 0 60 "video" [] (some "/a.mp4")) := by
    simp [find_clip_recursive, findNameAux, c2Track, Clip.nameAttr]
  have hc : |max (0:ℚ) (((0:Int):ℚ) / c2Tl.frame_rate) - ((0:Int):ℚ) / c2Tl.frame_rate| <
      (1:ℚ)/1000 ∧ min (1:ℚ) (((60:Int):ℚ) / c2Tl.frame_rate) < ((60:Int):ℚ) / c2Tl.frame_rate := by
    norm_num [c2Tl, max_def, min_def]
  have h := cutCaseA c2Tl "A" 0 1 0 "u1" "u2" c2Track [0] 0
    [Clip.video "idA" "A" 0 60 "video" [] (some "/a.mp4"),
     Clip.video "idB" "B" 60 100 "video" [] (some "/b.mp4")]
    "idA" "A" 0 60 "video" [] (some "/a.mp4") (by decide) rfl hfind hc
  rw [h]
  norm_num [Timeline.setTrackClips, setTrackClipsAux, setClipAt, modIdx,
    Clip.setBounds, Clip.stopD, c2Tl, c2Track, c2BrokenTl, pyRound, min_def,
    Int.floor_intCast]

/-- A successful non-negative get_track index is within the filtered track
list. -/
theorem get_track_lt (tl : Timeline) (tt : String) (ti : Int) (track : Track)
    (hti : 0 ≤ ti) (h : tl.get_track tt ti = .ok track) :
    ti.toNat < (tl.tracks.filter (fun t => t.track_type = tt)).length := by
  rw [Timeline.get_track] at h
  split at h
  · exact absurd h (by simp)
  · rename_i hcond
    have : ¬ ((tl.tracks.filter (fun t => t.track_type = tt)).length : Int) ≤ ti := by
      intro hle
      exact hcond (by simp [hle])
    omega

/-- setTrackClipsAux at a valid index produces a track of the requested
type holding the new clip list. -/
theorem setTrackClipsAux_hits (tt : String) (newClips : List Clip) :
    ∀ (ts : List Track) (k : Nat),
      k < (ts.filter (fun t => t.track_type = tt)).length →
      ∃ t, t ∈ setTrackClipsAux tt newClips ts k ∧ t.track_type = tt ∧ t.clips = newClips := by
  intro ts
  induction ts with
  | nil => intro k hk; simp at hk
  | cons t0 ts ih =>
    intro k hk
    by_cases h0 : t0.track_type = tt
    · cases k with
      | zero =>
        refine ⟨{ t0 with clips := newClips }, ?_, h0, rfl⟩
        have hrw : setTrackClipsAux tt newClips (t0 :: ts) 0 =
            { t0 with clips := newClips } :: ts := by
          simp [setTrackClipsAux, h0]
        rw [hrw]
        exact List.mem_cons_self _ _
      | succ m =>
        have hk' : m < (ts.filter (fun t => t.track_type = tt)).length := by
          rw [List.filter_cons_of_pos (by simp [h0])] at hk
          simpa using hk
        obtain ⟨t, htmem, htt2, htc⟩ := ih m hk'
        refine ⟨t, ?_, htt2, htc⟩
        have hrw : setTrackClipsAux tt newClips (t0 :: ts) (m + 1) =
            t0 :: setTrackClipsAux tt newClips ts m := by
          simp [setTrackClipsAux, h0]
        rw [hrw]
        exact List.mem_cons_of_mem _ htmem
    · have hk' : k < (ts.filter (fun t => t.track_type = tt)).length := by
        rw [List.filter_cons_of_neg (by simp [h0])] at hk
        exact hk
      obtain ⟨t, htmem, htt2, htc⟩ := ih k hk'
      refine ⟨t, ?_, htt2, htc⟩
      have hrw : setTrackClipsAux tt newClips (t0 :: ts) k =
          t0 :: setTrackClipsAux tt newClips ts k := by
        simp [setTrackClipsAux, h0]
      rw [hrw]
      exact List.mem_cons_of_mem _ htmem

/-- Whenever a leaf clip with file_path None lands in a video track,
get_all_clips raises the export AttributeError. -/
theorem get_all_clips_err (tl : Timeline) (ti : Int) (newClips : List Clip)
    (a b : String) (s e : Int) (tt : String) (fx : List Effect)
    (hti : 0 ≤ ti)
    (hk : ti.toNat < (tl.tracks.filter (fun t => t.track_type = "video")).length)
    (hmem : (Clip.video a b s e tt fx none) ∈ newClips) :
    (tl.setTrackClips "video" ti newClips).get_all_clips "video" =
      .error "AttributeError: clip is missing required file_path attribute for export" := by
  have hnneg : ¬ ti < 0 := not_lt.mpr hti
  obtain ⟨t, htmem, htt, htc⟩ := setTrackClipsAux_hits "video" newClips tl.tracks ti.toNat hk
  have htracks : (tl.setTrackClips "video" ti newClips).tracks =
      setTrackClipsAux "video" newClips tl.tracks ti.toNat := by
    simp [Timeline.setTrackClips, hnneg]
  have hcol : (Clip.video a b s e tt fx none) ∈
      ((tl.setTrackClips "video" ti newClips).tracks.filter
        (fun t => t.track_type = "video")).flatMap
        (fun t => t.clips.flatMap (fun c =>
          match c with
          | .compound _ _ _ _ _ _ children => flattenList children
          | other => [other])) := by
    refine List.mem_flatMap.mpr ⟨t, ?_, ?_⟩
    · rw [htracks]
      exact List.mem_filter.mpr ⟨htmem, by simp [htt]⟩
    · refine List.mem_flatMap.mpr ⟨Clip.video a b s e tt fx none, ?_, ?_⟩
      · rw [htc]; exact hmem
      · simp
  rw [Timeline.get_all_clips]
  split
  · rename_i hcond
    have hfp := List.all_eq_true.mp hcond _ ((List.mergeSort_perm _ _).mem_iff.mpr hcol)
    simp [Clip.filePathAttr] at hfp
  · rfl

/-- C10: a successful trim_clip split of a top-level leaf video clip that
carries a truthy file_path in a video track replaces it by two fresh parts
constructed with file_path None and the default track_type video, and a
successful join_clips of two adjacent leaf video clips replaces them by
one such clip; in both cases the following get_all_clips (which reaches
the replacement clips) raises the export AttributeError for the missing
file_path. -/
theorem c10_file_path_loss (tl : Timeline) (nm : String) (ts : ℚ) (ti : Int)
    (u1 u2 u : String) (track : Track)
    (hti : 0 ≤ ti) (hget : tl.get_track "video" ti = .ok track) :
    (∀ idx parent cid nm0 s0 e0 tt0 fx0 fp,
      find_clip_recursive track.clips (some nm) none =
        some ([], idx, parent, .video cid nm0 s0 e0 tt0 fx0 (some fp)) →
      fp ≠ "" →
      s0 < tl.seconds_to_frames ts → tl.seconds_to_frames ts < e0 →
      tl.trim_clip (some nm) (.vFloat ts) "video" ti none u1 u2 =
        .ok (tl.setTrackClips "video" ti (updateAtPath
          (fun l => l.take idx ++
            [VideoClip.init u1 (nm0 ++ "_part1") s0 (tl.seconds_to_frames ts) "video" none,
             VideoClip.init u2 (nm0 ++ "_part2") (tl.seconds_to_frames ts) e0 "video" none] ++
            l.drop (idx + 1)) track.clips []), true) ∧
      (VideoClip.init u1 (nm0 ++ "_part1") s0 (tl.seconds_to_frames ts) "video" none).filePathAttr
        = none ∧
      (VideoClip.init u2 (nm0 ++ "_part2") (tl.seconds_to_frames ts) e0 "video" none).filePathAttr
        = none ∧
      (tl.setTrackClips "video" ti (updateAtPath
          (fun l => l.take idx ++
            [VideoClip.init u1 (nm0 ++ "_part1") s0 (tl.seconds_to_frames ts) "video" none,
             VideoClip.init u2 (nm0 ++ "_part2") (tl.seconds_to_frames ts) e0 "video" none] ++
            l.drop (idx + 1)) track.clips [])).get_all_clips "video" =
        .error "AttributeError: clip is missing required file_path attribute for export") ∧
    (∀ idx parent cid n1 s1 e1 tt1 fx1 f1 cid2 n2 s2 e2 tt2 fx2 fp2,
      find_clip_recursive track.clips (some nm) none =
        some ([], idx, parent, .video cid n1 s1 e1 tt1 fx1 (some f1)) →
      f1 ≠ "" →
      parent[idx + 1]? = some (.video cid2 n2 s2 e2 tt2 fx2 fp2) →
      e1 = s2 →
      tl.join_clips (some nm) (some n2) "video" ti none none u =
        .ok (tl.setTrackClips "video" ti (updateAtPath
          (fun l => l.take idx ++
            [VideoClip.init u (n1 ++ "_joined_" ++ n2) s1 e2 "video" none] ++
            l.drop (idx + 2)) track.clips []), true) ∧
      (VideoClip.init u (n1 ++ "_joined_" ++ n2) s1 e2 "video" none).filePathAttr = none ∧
      (tl.setTrackClips "video" ti (updateAtPath
          (fun l => l.take idx ++
            [VideoClip.init u (n1 ++ "_joined_" ++ n2) s1 e2 "video" none] ++
            l.drop (idx + 2)) track.clips [])).get_all_clips "video" =
        .error "AttributeError: clip is missing required file_path attribute for export") := by
  constructor
  · intro idx parent cid nm0 s0 e0 tt0 fx0 fp hfind hfp h1 h2
    refine ⟨?_, rfl, rfl, ?_⟩
    · have e1 : s0 + (tl.seconds_to_frames ts - s0) = tl.seconds_to_frames ts := by ring
      have e2 : tl.seconds_to_frames ts + (e0 - tl.seconds_to_frames ts) = e0 := by ring
      simp only [Timeline.trim_clip, hget, exceptBind_ok, hfind]
      simp [Timeline.seconds_to_frames] at h1 h2 ⊢
      simp [h1, h2, e1, e2]
    · exact get_all_clips_err tl ti _ u1 (nm0 ++ "_part1") s0 (tl.seconds_to_frames ts)
        "video" [] hti (get_track_lt tl "video" ti track hti hget)
        (by simp [updateAtPath, VideoClip.init])
  · intro idx parent cid n1 s1 e1 tt1 fx1 f1 cid2 n2 s2 e2 tt2 fx2 fp2
      hfind hf1 hsecond hadj
    refine ⟨?_, rfl, ?_⟩
    · have htol : |(e1 : ℚ) - (s2 : ℚ)| < (1 : ℚ)/1000000 := (int_tol_iff e1 s2).mpr hadj
      simp only [Timeline.join_clips, hget, exceptBind_ok, hfind, hsecond]
      simp [truthyS]
      simpa using htol
    · exact get_all_clips_err tl ti _ u (n1 ++ "_joined_" ++ n2) s1 e2
        "video" [] hti (get_track_lt tl "video" ti track hti hget)
        (by simp [updateAtPath, VideoClip.init])

/-- The two-clip timeline after trimming clip A at one second: both part
clips carry file_path None. -/
def c10TrimTl : Timeline :=
  { tracks := [
      { name := "Video 1", track_type := "video",
        clips := [Clip.video "u1" "A_part1" 0 30 "video" [] none,
                  Clip.video "u2" "A_part2" 30 60 "video" [] none,
                  Clip.video "idB" "B" 60 100 "video" [] (some "/b.mp4")] }],
    duration := 0, transitions := [], frame_rate := 30 }

/-- Witness for C10: trimming clip A (file /a.mp4) of the two-clip
timeline at one second yields parts without file_path, and the following
get_all_clips raises. -/
theorem c10_file_path_loss_witness :
    Timeline.trim_clip c9Tl (some "A") (.vFloat 1) "video" 0 none "u1" "u2" =
      .ok (c10TrimTl, true) ∧
    Timeline.get_all_clips c10TrimTl "video" =
      .error "AttributeError: clip is missing required file_path attribute for export" := by
  have hfind : find_clip_recursive c9Track.clips (some "A") none =
      some ([], 0, c9Track.clips, Clip.video "idA" "A" 0 60 "video" [] (some "/a.mp4")) := by
    simp [find_clip_recursive, findNameAux, c9Track, Clip.nameAttr]
  obtain ⟨heq, h1, h2, herr⟩ :=
    (c10_file_path_loss c9Tl "A" 1 0 "u1" "u2" "u" c9Track (by decide) rfl).1
      0 c9Track.clips "idA" "A" 0 60 "video" [] "/a.mp4" hfind (by decide)
      (by rw [c9Tl_sec_frames]; decide) (by rw [c9Tl_sec_frames]; decide)
  rw [c9Tl_sec_frames] at heq herr
  have hset : c9Tl.setTrackClips "video" 0 (updateAtPath
      (fun l => l.take 0 ++
        [VideoClip.init "u1" ("A" ++ "_part1") 0 30 "video" none,
         VideoClip.init "u2" ("A" ++ "_part2") 30 60 "video" none] ++
        l.drop (0 + 1)) c9Track.clips []) = c10TrimTl := by rfl
  rw [hset] at heq herr
  exact ⟨heq, herr⟩

/-- Run a list of operations through execute, each with its own uuid
stream, requiring every call to return a successful result. -/
def runOpsOk : CommandExecutor → List (EditOperation × (Nat → String)) → Option CommandExecutor
  | ex, [] => some ex
  | ex, (op, uf) :: rest =>
    match ex.execute op none uf with
    | .ok (r, ex2) => if r.success then runOpsOk ex2 rest else none
    | .error _ => none

/-- n undo calls in sequence. -/
def undoN : CommandExecutor → Nat → CommandExecutor
  | ex, 0 => ex
  | ex, n + 1 => undoN (ex.undo).1 n

/-- undo reads only the timeline and the entry log, never the redo
buffer. -/
theorem undo_eqOn (a b : CommandExecutor)
    (h1 : a.timeline = b.timeline)
    (h2 : a.command_history.entries = b.command_history.entries) :
    (a.undo).1.timeline = (b.undo).1.timeline ∧
    (a.undo).1.command_history.entries = (b.undo).1.command_history.entries := by
  cases hl : a.command_history.entries.getLast? with
  | none =>
    have hlb : b.command_history.entries.getLast? = none := by rw [← h2]; exact hl
    simp [CommandExecutor.undo, CommandHistory.undo, hl, hlb, h1, h2]
  | some e =>
    have hlb : b.command_history.entries.getLast? = some e := by rw [← h2]; exact hl
    simp [CommandExecutor.undo, CommandHistory.undo, hl, hlb, h1, h2]

/-- undoN reads only the timeline and the entry log. -/
theorem undoN_eqOn : ∀ (n : Nat) (a b : CommandExecutor),
    a.timeline = b.timeline →
    a.command_history.entries = b.command_history.entries →
    (undoN a n).timeline = (undoN b n).timeline ∧
    (undoN a n).command_history.entries = (undoN b n).command_history.entries := by
  intro n
  induction n with
  | zero => intro a b h1 h2; exact ⟨h1, h2⟩
  | succ m ih =>
    intro a b h1 h2
    obtain ⟨g1, g2⟩ := undo_eqOn a b h1 h2
    exact ih (a.undo).1 (b.undo).1 g1 g2

/-- runOpsOk distributes over list append. -/
theorem runOpsOk_append (l1 l2 : List (EditOperation × (Nat → String))) :
    ∀ ex, runOpsOk ex (l1 ++ l2) =
      (runOpsOk ex l1).bind (fun e => runOpsOk e l2) := by
  induction l1 with
  | nil => intro ex; simp [runOpsOk]
  | cons hd tl ih =>
    intro ex
    obtain ⟨op, uf⟩ := hd
    simp only [List.cons_append, runOpsOk]
    cases hex : ex.execute op none uf with
    | error msg => simp
    | ok pr =>
      obtain ⟨r, ex2⟩ := pr
      by_cases hr : r.success = true
      · simp [hr, ih]
      · simp [hr]

/-- The operation/timeline continuation of the prelude carries the before
snapshot. -/
theorem prelude_inr_before (ex : CommandExecutor) (op : EditOperation) (ct : Option String)
    (op2 : EditOperation) (b : Timeline)
    (h : executePrelude ex op ct = .ok (.inr (op2, b))) : b = ex.timeline := by
  rw [executePrelude] at h
  repeat' split at h
  all_goals first
    | (cases h; rfl)
    | (cases h)

/-- The early-exit of the prelude is the unresolved-reference failure: a
failed result, an unchanged timeline, one appended entry with equal
snapshots, and a cleared redo buffer. -/
theorem prelude_inl_shape (ex : CommandExecutor) (op : EditOperation) (ct : Option String)
    (res : ExecutionResult) (ex1 : CommandExecutor)
    (h : executePrelude ex op ct = .ok (.inl (res, ex1))) :
    res.success = false ∧
    ex1.timeline = ex.timeline ∧
    ex1.command_history.undo_stack = [] ∧
    ∃ e, ex1.command_history.entries = ex.command_history.entries ++ [e] ∧
      e.before_snapshot = ex.timeline ∧ e.after_snapshot = ex.timeline := by
  rw [executePrelude] at h
  repeat' split at h
  all_goals first
    | (cases h
       exact ⟨rfl, rfl, rfl, _, rfl, rfl, rfl⟩)
    | (cases h)

/-- The CUT sub-operation the group handler dispatches for one clip. -/
def subCutOp (nm : String) (tsv : PValue) (tt : String) (ti : Int) : EditOperation :=
  { type := "CUT", target := some nm,
    parameters := [("timestamp", tsv), ("track_type", .vStr tt), ("track_index", .vInt ti)] }

/-- The sub-operation after the clip_id injection of the prelude. -/
def subCutOp2 (nm : String) (tsv : PValue) (tt : String) (ti : Int) : EditOperation :=
  { type := "CUT", target := some nm,
    parameters := [("timestamp", tsv), ("track_type", .vStr tt), ("track_index", .vInt ti),
                   ("clip_id", .vNone)] }

/-- A group-cut sub-operation always fails: it passes timestamp, but the
range cut handler validates start / end, which are absent. -/
theorem subCut_fails (ex : CommandExecutor) (nm : String) (tsv : PValue)
    (tt : String) (ti : Int) (uf : Nat → String) (r : ExecutionResult)
    (ex2 : CommandExecutor)
    (heq : ex.executeNonGroup (subCutOp nm tsv tt ti) none uf = .ok (r, ex2)) :
    r.success = false := by
  have hpre : executePrelude ex (subCutOp nm tsv tt ti) none =
      .ok (.inr (subCutOp2 nm tsv tt ti, ex.timeline)) := rfl
  have hdisp : dispatchNonGroup (subCutOp2 nm tsv tt ti) ex.timeline uf =
      .ok ({ success := false, message := "Missing clip name/id or start/end for CUT operation." },
        ex.timeline) := by
    simp [dispatchNonGroup, subCutOp2, CutOperationHandler.execute, PValue.asOptStr, PValue.asInt,
      Params.get, Params.getD, truthyS, exceptBind_ok]
  rw [CommandExecutor.executeNonGroup] at heq
  rw [hpre] at heq
  simp only [exceptBind_ok] at heq
  rw [hdisp] at heq
  simp only [exceptBind_ok, executeFinish] at heq
  cases heq
  rfl

/-- Every result row of the group-cut fan-out carries success false, and
there is one row per matched clip. -/
theorem runSubCuts_fail (us : Nat → String) (tsv : PValue) (tt : String) :
    ∀ (lst : List (String × Int)) (i : Nat) (ex ex3 : CommandExecutor)
      (results : List (String × Bool × String)),
      runSubCuts us tsv tt lst i ex = .ok (ex3, results) →
      results.length = lst.length ∧ ∀ q ∈ results, q.2.1 = false := by
  intro lst
  induction lst with
  | nil =>
    intro i ex ex3 results h
    simp only [runSubCuts] at h
    cases h
    exact ⟨rfl, by simp⟩
  | cons hd rest ih =>
    obtain ⟨nm, ti⟩ := hd
    intro i ex ex3 results h
    simp only [runSubCuts] at h
    cases hex : ex.executeNonGroup
        { type := "CUT", target := some nm,
          parameters := [("timestamp", tsv), ("track_type", .vStr tt), ("track_index", .vInt ti)] }
        none (fun k => us (2 * i + k + 2)) with
    | error msg => rw [hex] at h; simp at h
    | ok pr =>
      obtain ⟨r, ex4⟩ := pr
      rw [hex] at h
      simp only [exceptBind_ok] at h
      cases hrec : runSubCuts us tsv tt rest (i + 1) ex4 with
      | error msg => rw [hrec] at h; simp at h
      | ok pr2 =>
        obtain ⟨ex5, res5⟩ := pr2
        rw [hrec] at h
        simp only [exceptBind_ok] at h
        cases h
        obtain ⟨hlen, hall⟩ := ih (i + 1) ex4 _ _ hrec
        refine ⟨by simp [hlen], ?_⟩
        intro q hq
        rcases List.mem_cons.mp hq with rfl | hq2
        · exact subCut_fails ex nm tsv tt ti _ r ex4 hex
        · exact hall q hq2

/-- The tail of the group cut handler after the frame computation: per
track-type filter, fan out the sub-cuts and summarize. -/
theorem groupCut_tail_fails (ex : CommandExecutor) (us : Nat → String) (tsv : PValue)
    (ott : Option String) (r : ExecutionResult) (ex2 : CommandExecutor)
    (names : List (String × Int))
    (h : (match ott, names with
      | some tt, n0 :: nrest =>
        (runSubCuts us tsv tt (n0 :: nrest) 0 ex).bind (fun p =>
          Except.ok
            ({ success := (p.2.filter (fun q => q.2.1)).length == p.2.length,
               message := "Group CUT summary." }, p.1))
      | _, _ =>
        Except.ok
          ({ success := false,
             message := "No clips found for track type containing timestamp." }, ex)) =
      Except.ok (r, ex2)) : r.success = false := by
  split at h
  · rename_i tt n0 nrest
    cases hrun : runSubCuts us tsv tt (n0 :: nrest) 0 ex with
    | error msg => rw [hrun] at h; simp [Except.bind] at h
    | ok pr =>
      obtain ⟨ex3, results⟩ := pr
      rw [hrun] at h
      simp only [Except.bind] at h
      cases h
      obtain ⟨hlen, hall⟩ := runSubCuts_fail us tsv tt (n0 :: nrest) 0 ex _ _ hrun
      have hfilter : results.filter (fun q => q.2.1) = [] := by
        rw [List.filter_eq_nil_iff]
        intro q hq
        simp [hall q hq]
      have hlen2 : results.length = nrest.length + 1 := by simpa using hlen
      simp [hfilter, hlen2]
  · cases h; rfl

/-- The body of the group cut handler after the timestamp check: whatever
the frame computation yields, the result is never successful. -/
theorem groupCut_else_fails (ex : CommandExecutor) (us : Nat → String) (tsv : PValue)
    (tfe : Except String ℚ) (ott : Option String) (r : ExecutionResult) (ex2 : CommandExecutor)
    (h : (tfe.bind (fun tf =>
        (match ott with
         | some tt => groupCollectTracks tf tt ex.timeline.tracks 0
         | none => Except.ok []).bind (fun names =>
          match ott, names with
          | some tt, n0 :: nrest =>
            (runSubCuts us tsv tt (n0 :: nrest) 0 ex).bind (fun p =>
              Except.ok
                ({ success := (p.2.filter (fun q : String × Bool × String => q.2.1)).length == p.2.length,
                   message := "Group CUT summary." }, p.1))
          | _, _ =>
            Except.ok
              ({ success := false,
                 message := "No clips found for track type containing timestamp." }, ex)))) =
      Except.ok (r, ex2)) : r.success = false := by
  cases tfe with
  | error m => simp [Except.bind] at h
  | ok tf =>
    simp only [Except.bind] at h
    cases ott with
    | none =>
      have h2 : (Except.ok
          ({ success := false,
             message := "No clips found for track type containing timestamp." }, ex) :
          Except String (ExecutionResult × CommandExecutor)) = Except.ok (r, ex2) := h
      cases h2; rfl
    | some tt =>
      have h2 : (groupCollectTracks tf tt ex.timeline.tracks 0).bind (fun names =>
          match (some tt : Option String), names with
          | some tt2, n0 :: nrest =>
            (runSubCuts us tsv tt2 (n0 :: nrest) 0 ex).bind (fun p =>
              Except.ok
                ({ success := (p.2.filter (fun q : String × Bool × String => q.2.1)).length == p.2.length,
                   message := "Group CUT summary." }, p.1))
          | _, _ =>
            Except.ok
              ({ success := false,
                 message := "No clips found for track type containing timestamp." }, ex)) =
          Except.ok (r, ex2) := h
      cases hg : groupCollectTracks tf tt ex.timeline.tracks 0 with
      | error m => rw [hg] at h2; simp [Except.bind] at h2
      | ok names =>
        rw [hg] at h2
        simp only [Except.bind] at h2
        exact groupCut_tail_fails ex us tsv (some tt) r ex2 names h2

/-- The group cut handler never returns a successful result. -/
theorem groupCut_fails (op : EditOperation) (ex : CommandExecutor) (us : Nat → String)
    (r : ExecutionResult) (ex2 : CommandExecutor)
    (h : GroupCutOperationHandler.execute op ex us = .ok (r, ex2)) : r.success = false := by
  rw [GroupCutOperationHandler.execute] at h
  split at h
  · cases h; rfl
  · exact groupCut_else_fails ex us (op.parameters.get "timestamp") _
      ((op.parameters.getD "track_type" (PValue.vStr "video")).asOptStr) r ex2 h

/-- A successful execute appends exactly one history entry whose before
snapshot is the pre-call timeline and whose after snapshot is the new
timeline, and clears the redo buffer. -/
theorem execute_success_entry (ex : CommandExecutor) (op : EditOperation)
    (ct : Option String) (uf : Nat → String) (r : ExecutionResult) (ex2 : CommandExecutor)
    (heq : ex.execute op ct uf = .ok (r, ex2)) (hs : r.success = true) :
    ∃ e, ex2.command_history.entries = ex.command_history.entries ++ [e] ∧
      ex2.command_history.undo_stack = [] ∧
      e.before_snapshot = ex.timeline ∧ e.after_snapshot = ex2.timeline := by
  rw [CommandExecutor.execute] at heq
  cases hpre : executePrelude ex op ct with
  | error m => rw [hpre] at heq; simp at heq
  | ok v =>
    rw [hpre] at heq
    simp only [exceptBind_ok] at heq
    split at heq
    · rename_i early
      obtain ⟨res, ex1⟩ := early
      cases heq
      obtain ⟨hsf, h1, h2, h3⟩ := prelude_inl_shape ex op ct r ex2 hpre
      rw [hsf] at hs
      cases hs
    · rename_i op2 before
      have hb : before = ex.timeline := prelude_inr_before ex op ct op2 before hpre
      subst hb
      split at heq
      · cases hg : GroupCutOperationHandler.execute op2 ex uf with
        | error m => rw [hg] at heq; simp at heq
        | ok gpr =>
          obtain ⟨gres, gex⟩ := gpr
          rw [hg] at heq
          simp only [exceptBind_ok, executeFinish] at heq
          cases heq
          have hf := groupCut_fails _ _ _ _ _ hg
          rw [hf] at hs
          cases hs
      · cases hd : dispatchNonGroup op2 ex.timeline uf with
        | error m => rw [hd] at heq; simp at heq
        | ok dpr =>
          obtain ⟨res, tl2⟩ := dpr
          rw [hd] at heq
          simp only [exceptBind_ok, executeFinish] at heq
          cases heq
          exact ⟨_, rfl, rfl, rfl, rfl⟩

/-- Every execute that returns clears the redo buffer, so a following redo
restores nothing. -/
theorem execute_clears_redo (ex : CommandExecutor) (op : EditOperation)
    (ct : Option String) (uf : Nat → String) (r : ExecutionResult) (ex2 : CommandExecutor)
    (heq : ex.execute op ct uf = .ok (r, ex2)) :
    ex2.command_history.undo_stack = [] ∧ ex2.redo = (ex2, false) := by
  have hstack : ex2.command_history.undo_stack = [] := by
    rw [CommandExecutor.execute] at heq
    cases hpre : executePrelude ex op ct with
    | error m => rw [hpre] at heq; simp at heq
    | ok v =>
      rw [hpre] at heq
      simp only [exceptBind_ok] at heq
      split at heq
      · rename_i early
        obtain ⟨res, ex1⟩ := early
        cases heq
        obtain ⟨hsf, h1, h2, h3⟩ := prelude_inl_shape ex op ct r ex2 hpre
        exact h2
      · rename_i op2 before
        split at heq
        · cases hg : GroupCutOperationHandler.execute op2 ex uf with
          | error m => rw [hg] at heq; simp at heq
          | ok gpr =>
            obtain ⟨gres, gex⟩ := gpr
            rw [hg] at heq
            simp only [exceptBind_ok, executeFinish] at heq
            cases heq
            rfl
        · cases hd : dispatchNonGroup op2 ex.timeline uf with
          | error m => rw [hd] at heq; simp at heq
          | ok dpr =>
            obtain ⟨res, tl2⟩ := dpr
            rw [hd] at heq
            simp only [exceptBind_ok, executeFinish] at heq
            cases heq
            rfl
  refine ⟨hstack, ?_⟩
  simp [CommandExecutor.redo, CommandHistory.redo, hstack]

/-- N successful executes followed by N undos restore the timeline before
the first command (and the original entry log prefix). -/
theorem runOps_undo (ops : List (EditOperation × (Nat → String))) :
    ∀ ex ex2, runOpsOk ex ops = some ex2 →
      (undoN ex2 ops.length).timeline = ex.timeline ∧
      (undoN ex2 ops.length).command_history.entries = ex.command_history.entries := by
  induction ops using List.reverseRecOn with
  | nil =>
    intro ex ex2 h
    simp only [runOpsOk] at h
    cases h
    exact ⟨rfl, rfl⟩
  | append_singleton ops last ih =>
    intro ex ex2 h
    rw [runOpsOk_append] at h
    cases hrun : runOpsOk ex ops with
    | none => rw [hrun] at h; simp at h
    | some exMid =>
      rw [hrun] at h
      simp only [Option.some_bind] at h
      obtain ⟨op, uf⟩ := last
      simp only [runOpsOk] at h
      cases hex : exMid.execute op none uf with
      | error m => rw [hex] at h; simp at h
      | ok pr =>
        obtain ⟨r, exNew⟩ := pr
        rw [hex] at h
        have h2 : (if r.success = true then some exNew else none) = some ex2 := h
        by_cases hr : r.success = true
        · rw [if_pos hr] at h2
          cases h2
          obtain ⟨e, hch, hst, hbef, haft⟩ := execute_success_entry exMid op none uf r _ hex hr
          have hl : ex2.command_history.entries.getLast? = some e := by
            rw [hch]; exact List.getLast?_concat _
          have hu1 : (ex2.undo).1.timeline = exMid.timeline := by
            simp [CommandExecutor.undo, CommandHistory.undo, hl, hbef]
          have hu2 : (ex2.undo).1.command_history.entries = exMid.command_history.entries := by
            simp [CommandExecutor.undo, CommandHistory.undo, hl, hch, List.dropLast_concat]
          obtain ⟨ihl, ihe⟩ := ih ex exMid hrun
          obtain ⟨g1, g2⟩ := undoN_eqOn ops.length (ex2.undo).1 exMid hu1 hu2
          have hlen : (ops ++ [(op, uf)]).length = ops.length + 1 := by simp
          rw [hlen]
          simp only [undoN]
          exact ⟨g1.trans ihl, g2.trans ihe⟩
        · rw [if_neg hr] at h2
          simp at h2

/-- C3: (1) after a sequence of N successful execute calls, N undo calls
restore the timeline to the state before the first command; (2) an undo
pops the most recent entry, restoring its before snapshot, and a redo
right after it restores that same entry, giving back its after snapshot;
(3) every execute that returns clears the redo buffer, so a redo issued
after it restores nothing. -/
theorem c3_undo_redo :
    (∀ ops ex ex2, runOpsOk ex ops = some ex2 →
      (undoN ex2 ops.length).timeline = ex.timeline) ∧
    (∀ (ex : CommandExecutor) es e, ex.command_history.entries = es ++ [e] →
      (ex.undo).2 = true ∧ (ex.undo).1.timeline = e.before_snapshot ∧
      ((ex.undo).1.redo).2 = true ∧ ((ex.undo).1.redo).1.timeline = e.after_snapshot) ∧
    (∀ ex op ct uf r ex2, CommandExecutor.execute ex op ct uf = .ok (r, ex2) →
      ex2.command_history.undo_stack = [] ∧ ex2.redo = (ex2, false)) := by
  refine ⟨?_, ?_, ?_⟩
  · intro ops ex ex2 h
    exact (runOps_undo ops ex ex2 h).1
  · intro ex es e hch
    have hl : ex.command_history.entries.getLast? = some e := by
      rw [hch]; exact List.getLast?_concat _
    refine ⟨?_, ?_, ?_, ?_⟩
    · simp [CommandExecutor.undo, CommandHistory.undo, hl]
    · simp [CommandExecutor.undo, CommandHistory.undo, hl]
    · simp [CommandExecutor.undo, CommandHistory.undo, hl, CommandExecutor.redo,
        CommandHistory.redo, List.getLast?_concat]
    · simp [CommandExecutor.undo, CommandHistory.undo, hl, CommandExecutor.redo,
        CommandHistory.redo, List.getLast?_concat]
  · intro ex op ct uf r ex2 h
    exact execute_clears_redo ex op ct uf r ex2 h

/-- A minimal always-successful operation (the add-text handler is a stub
that succeeds). -/
def c3Op : EditOperation := { type := "ADD_TEXT", target := none, parameters := [] }

/-- A constant uuid stream. -/
def c3Us : Nat → String := fun _ => "u"

/-- A fresh executor over an empty timeline. -/
def c3Ex0 : CommandExecutor :=
  { timeline := Timeline.init 30, command_history := { entries := [], undo_stack := [] } }

/-- The operation after clip_id injection. -/
def c3Op2 : EditOperation :=
  { type := "ADD_TEXT", target := none, parameters := [("clip_id", PValue.vNone)] }

/-- The result of the add-text stub. -/
def c3Res : ExecutionResult := { success := true, message := "Add text with params." }

/-- The executor after the one successful ADD_TEXT execute. -/
def c3Ex1 : CommandExecutor :=
  { timeline := Timeline.init 30,
    command_history :=
      { entries := [{ command_text := none, operation := c3Op2, result := c3Res,
                      before_snapshot := Timeline.init 30,
                      after_snapshot := Timeline.init 30 }],
        undo_stack := [] } }

/-- Witness for C3 at one successful ADD_TEXT execute: one undo restores
the initial timeline, and the redo buffer is cleared by the execute. -/
theorem c3_undo_redo_witness :
    (undoN c3Ex1 1).timeline = c3Ex0.timeline ∧
    c3Ex1.command_history.undo_stack = [] ∧ c3Ex1.redo = (c3Ex1, false) := by
  have hrun : runOpsOk c3Ex0 [(c3Op, c3Us)] = some c3Ex1 := rfl
  have hex : c3Ex0.execute c3Op none c3Us = .ok (c3Res, c3Ex1) := rfl
  exact ⟨c3_undo_redo.1 [(c3Op, c3Us)] c3Ex0 c3Ex1 hrun,
         c3_undo_redo.2.2 c3Ex0 c3Op none c3Us c3Res c3Ex1 hex⟩

/-- C4 counterexample: an ADD_TEXT operation with no text, start or end
parameters is a validation failure of the taxonomy, yet execute returns a
successful result because the add-text handler is a stub that validates
nothing. -/
theorem c4_error_taxonomy_counterexample :
    CommandExecutor.execute c3Ex0 c3Op none c3Us = .ok (c3Res, c3Ex1) ∧
    c3Res.success = true := ⟨rfl, rfl⟩

/-- The single history entry a locally recovered failure appends: equal
snapshots of the unchanged timeline. -/
def c4Entry (ct : Option String) (op : EditOperation) (res : ExecutionResult)
    (tl : Timeline) : CommandHistoryEntry :=
  { command_text := ct, operation := op, result := res,
    before_snapshot := tl, after_snapshot := tl }

/-- The executor state after a locally recovered failure: unchanged
timeline, exactly one appended entry, cleared redo buffer. -/
def c4After (ex : CommandExecutor) (ct : Option String) (op : EditOperation)
    (res : ExecutionResult) : CommandExecutor :=
  { timeline := ex.timeline,
    command_history := ex.command_history.add_entry (c4Entry ct op res ex.timeline) }

/-- The unknown-operation fall-through result. -/
def unknownRes : ExecutionResult := { success := false, message := "Unknown operation." }

/-- The missing start / end validation failure of the cut handler. -/
def cutMissingRes : ExecutionResult :=
  { success := false, message := "Missing clip name/id or start/end for CUT operation." }

/-- The structural not-found failure of the remove handler. -/
def removeNotFoundRes : ExecutionResult :=
  { success := false, message := "Clip not found in track." }

/-- An operation of an unregistered type. -/
def c4UnknownOp (ty : String) : EditOperation :=
  { type := ty, target := none, parameters := [] }

/-- The same after clip_id injection. -/
def c4UnknownOp2 (ty : String) : EditOperation :=
  { type := ty, target := none, parameters := [("clip_id", PValue.vNone)] }

/-- A REMOVE operation for a named clip on a track type. -/
def c4RemOp (nm tt : String) : EditOperation :=
  { type := "REMOVE", target := some nm, parameters := [("track_type", .vStr tt)] }

/-- The same after clip_id injection. -/
def c4RemOp2 (nm tt : String) : EditOperation :=
  { type := "REMOVE", target := some nm,
    parameters := [("track_type", .vStr tt), ("clip_id", PValue.vNone)] }

/-- C4 (amended): execute recovers the taxonomy failures locally into a
failed result plus exactly one history entry with equal snapshots of the
unchanged timeline and a cleared redo buffer: (a) an unresolvable
reference; (b) an unknown operation type; (c) a CUT validation failure
(missing start / end); (d) a REMOVE structural failure (clip not found).
The ADD_TEXT validation described by the spec is excluded: that handler is
a stub succeeding on any input (see the counterexample). -/
theorem c4_error_taxonomy_amended (ex : CommandExecutor) (ct : Option String)
    (uf : Nat → String) :
    (∀ op res0, truthyV (op.parameters.get "reference_type") = true →
      truthyS op.target = true → preludeResolve ex op = .ok res0 → truthyS res0 = false →
      unresolvedResult.success = false ∧
      ex.execute op ct uf = .ok (unresolvedResult, c4After ex ct op unresolvedResult)) ∧
    (∀ ty, ty ∉ (["CUT_GROUP", "CUT", "TRIM", "JOIN", "ADD_TEXT",
        "OVERLAY", "FADE", "REMOVE"] : List String) →
      unknownRes.success = false ∧
      ex.execute (c4UnknownOp ty) ct uf =
        .ok (unknownRes, c4After ex ct (c4UnknownOp2 ty) unknownRes)) ∧
    (∀ nm tsv tt ti, cutMissingRes.success = false ∧
      ex.execute (subCutOp nm tsv tt ti) ct uf =
        .ok (cutMissingRes, c4After ex ct (subCutOp2 nm tsv tt ti) cutMissingRes)) ∧
    (∀ nm tt, ex.timeline.remove_clip (some nm) tt 0 none = .ok (ex.timeline, false) →
      removeNotFoundRes.success = false ∧
      ex.execute (c4RemOp nm tt) ct uf =
        .ok (removeNotFoundRes, c4After ex ct (c4RemOp2 nm tt) removeNotFoundRes)) := by
  refine ⟨?_, ?_, ?_, ?_⟩
  · intro op res0 h1 h2 h3 h4
    refine ⟨rfl, ?_⟩
    have hpre : executePrelude ex op ct =
        .ok (.inl (unresolvedResult, c4After ex ct op unresolvedResult)) := by
      simp [executePrelude, h1, h2, h3, h4, c4After, c4Entry]
    rw [CommandExecutor.execute, hpre]
    rfl
  · intro ty hmem
    have h8 : ty ≠ "CUT_GROUP" ∧ ty ≠ "CUT" ∧ ty ≠ "TRIM" ∧ ty ≠ "JOIN" ∧
        ty ≠ "ADD_TEXT" ∧ ty ≠ "OVERLAY" ∧ ty ≠ "FADE" ∧ ty ≠ "REMOVE" := by
      simpa [not_or] using hmem
    obtain ⟨n1, n2, n3, n4, n5, n6, n7, n8⟩ := h8
    refine ⟨rfl, ?_⟩
    have hpre : executePrelude ex (c4UnknownOp ty) ct =
        .ok (.inr (c4UnknownOp2 ty, ex.timeline)) := rfl
    have hdisp : dispatchNonGroup (c4UnknownOp2 ty) ex.timeline uf =
        .ok (unknownRes, ex.timeline) := by
      simp [dispatchNonGroup, c4UnknownOp2, n2, n3, n4, n5, n6, n7, n8, unknownRes]
    have hcg : ((c4UnknownOp2 ty).type = "CUT_GROUP") = False := by
      simp [c4UnknownOp2, n1]
    rw [CommandExecutor.execute, hpre]
    simp [exceptBind_ok, hcg, hdisp, executeFinish, c4After, c4Entry]
  · intro nm tsv tt ti
    refine ⟨rfl, ?_⟩
    have hpre : executePrelude ex (subCutOp nm tsv tt ti) ct =
        .ok (.inr (subCutOp2 nm tsv tt ti, ex.timeline)) := rfl
    have hdisp : dispatchNonGroup (subCutOp2 nm tsv tt ti) ex.timeline uf =
        .ok (cutMissingRes, ex.timeline) := by
      simp [dispatchNonGroup, subCutOp2, CutOperationHandler.execute, PValue.asOptStr,
        PValue.asInt, Params.get, Params.getD, truthyS, exceptBind_ok, cutMissingRes]
    have hcg : ((subCutOp2 nm tsv tt ti).type = "CUT_GROUP") = False := by
      simp [subCutOp2]
    rw [CommandExecutor.execute, hpre]
    simp [exceptBind_ok, hcg, hdisp, executeFinish, c4After, c4Entry]
  · intro nm tt hrem
    refine ⟨rfl, ?_⟩
    have hpre : executePrelude ex (c4RemOp nm tt) ct =
        .ok (.inr (c4RemOp2 nm tt, ex.timeline)) := rfl
    have hdisp : dispatchNonGroup (c4RemOp2 nm tt) ex.timeline uf =
        .ok (removeNotFoundRes, ex.timeline) := by
      simp [dispatchNonGroup, c4RemOp2, RemoveOperationHandler.execute, PValue.asOptStr,
        Params.get, Params.getD, exceptBind_ok, hrem, removeNotFoundRes]
    have hcg : ((c4RemOp2 nm tt).type = "CUT_GROUP") = False := by
      simp [c4RemOp2]
    rw [CommandExecutor.execute, hpre]
    simp [exceptBind_ok, hcg, hdisp, executeFinish, c4After, c4Entry]

/-- A fresh executor for the C4 witness. -/
def c4Ex0 : CommandExecutor :=
  { timeline := Timeline.init 30, command_history := { entries := [], undo_stack := [] } }

/-- A constant uuid stream for the C4 witness. -/
def c4Us : Nat → String := fun _ => "w"

/-- Witness for the amended C4 theorem: removing a clip that does not
exist is recovered into a failed result with one equal-snapshots entry. -/
theorem c4_error_taxonomy_amended_witness :
    CommandExecutor.execute c4Ex0 (c4RemOp "A" "video") none c4Us =
      .ok (removeNotFoundRes, c4After c4Ex0 none (c4RemOp2 "A" "video") removeNotFoundRes) := by
  have hget : (Timeline.init 30).get_track "video" 0 =
      .ok { name := "Video 1", track_type := "video", clips := [] } := rfl
  have hfind : find_clip_recursive
      ({ name := "Video 1", track_type := "video", clips := [] } : Track).clips
      (some "A") none = none := by
    simp [find_clip_recursive, findNameAux]
  have hrem : c4Ex0.timeline.remove_clip (some "A") "video" 0 none =
      .ok (c4Ex0.timeline, false) := by
    rw [show c4Ex0.timeline = Timeline.init 30 from rfl]
    rw [Timeline.remove_clip, hget]
    simp only [exceptBind_ok, hfind]
  exact ((c4_error_taxonomy_amended c4Ex0 none c4Us).2.2.2 "A" "video" hrem).2

/-- The interior-split branch of the range cut in general form: it fires
whenever the clamped start is strictly after the clip start and the
clamped end strictly before the clip end, with no check that the clamped
start precedes the clamped end. -/
theorem cutCaseC (tl : Timeline) (nm : String) (S E : ℚ) (ti : Int)
    (u1 u2 : String) (track : Track) (p : List Nat) (idx : Nat) (parent : List Clip)
    (cid nm0 : String) (s0 e0 : Int) (tt0 : String) (fx0 : List Effect) (fp0 : Option String)
    (hnm : nm ≠ "")
    (hget : tl.get_track "video" ti = .ok track)
    (hfind : find_clip_recursive track.clips (some nm) none =
      some (p, idx, parent, .video cid nm0 s0 e0 tt0 fx0 fp0))
    (hna : ¬ (|max S ((s0 : ℚ) / tl.frame_rate) - (s0 : ℚ) / tl.frame_rate| < (1 : ℚ)/1000 ∧
        min E ((e0 : ℚ) / tl.frame_rate) < (e0 : ℚ) / tl.frame_rate))
    (hnb : ¬ (max S ((s0 : ℚ) / tl.frame_rate) > (s0 : ℚ) / tl.frame_rate ∧
        |min E ((e0 : ℚ) / tl.frame_rate) - (e0 : ℚ) / tl.frame_rate| < (1 : ℚ)/1000))
    (hc : max S ((s0 : ℚ) / tl.frame_rate) > (s0 : ℚ) / tl.frame_rate ∧
        min E ((e0 : ℚ) / tl.frame_rate) < (e0 : ℚ) / tl.frame_rate) :
    CutOperationHandler.execute (mkCutOp nm S E ti) tl u1 u2 =
      .ok ({ success := true, message := "Cut out segment from clip, leaving a gap." },
        tl.setTrackClips "video" ti (updateAtPath
          (fun l => l.take idx ++
            [VideoClip.init u1 (nm0 ++ "_part1") s0
               (pyRound (max S ((s0 : ℚ) / tl.frame_rate) * tl.frame_rate)) tt0 fp0,
             VideoClip.init u2 (nm0 ++ "_part2")
               (pyRound (min E ((e0 : ℚ) / tl.frame_rate) * tl.frame_rate)) e0 tt0 fp0] ++
            l.drop (idx + 1)) track.clips p)) := by
  have hp1 : (mkCutOp nm S E ti).parameters.get "clip_id" = PValue.vNone := rfl
  have hp2 : (mkCutOp nm S E ti).parameters.get "start" = PValue.vFloat S := rfl
  have hp3 : (mkCutOp nm S E ti).parameters.get "end" = PValue.vFloat E := rfl
  have hp4 : (mkCutOp nm S E ti).parameters.getD "track_type" (.vStr "video") = PValue.vStr "video" := rfl
  have hp5 : (mkCutOp nm S E ti).parameters.get "track_index" = PValue.vInt ti := rfl
  have htgt : (mkCutOp nm S E ti).target = some nm := rfl
  simp only [CutOperationHandler.execute, hp1, hp2, hp3, hp4, hp5, htgt,
    PValue.asOptStr, PValue.asInt, PValue.asFloat, exceptBind_ok, hget, hfind,
    startAttr_video, stopAttr_video]
  rw [if_neg hna, if_neg hnb, if_pos hc]
  simp [truthyS, hnm, VideoClip.init]

/-- The two-clip timeline after the degenerate cut [1,1]s on clip A: the
split branch still fires and produces the survivors [0,30) and [30,60). -/
def c7DegenTl : Timeline :=
  { tracks := [
      { name := "Video 1", track_type := "video",
        clips := [Clip.video "u1" "A_part1" 0 30 "video" [] (some "/a.mp4"),
                  Clip.video "u2" "A_part2" 30 60 "video" [] (some "/a.mp4"),
                  Clip.video "idB" "B" 60 100 "video" [] (some "/b.mp4")] }],
    duration := 0, transitions := [], frame_rate := 30 }

/-- C7 counterexample: the degenerate range S = E = 1s inside clip A
[0,2]s matches none of the claimed cases (S is not within 1e-3 of the
start, E is not within 1e-3 of the end, and S < E fails), so the claim
demands an invalid-range failure; the code instead succeeds and splits
the clip, because the split branch never compares the clamped start with
the clamped end. -/
theorem c7_cut_range_counterexample :
    ¬ (|max (1:ℚ) (((0:Int):ℚ) / c9Tl.frame_rate) - ((0:Int):ℚ) / c9Tl.frame_rate| <
        (1:ℚ)/1000) ∧
    ¬ (|min (1:ℚ) (((60:Int):ℚ) / c9Tl.frame_rate) - ((60:Int):ℚ) / c9Tl.frame_rate| <
        (1:ℚ)/1000) ∧
    ¬ (max (1:ℚ) (((0:Int):ℚ) / c9Tl.frame_rate) <
        min (1:ℚ) (((60:Int):ℚ) / c9Tl.frame_rate)) ∧
    CutOperationHandler.execute (mkCutOp "A" 1 1 0) c9Tl "u1" "u2" =
      .ok ({ success := true, message := "Cut out segment from clip, leaving a gap." },
        c7DegenTl) := by
  refine ⟨by norm_num [c9Tl, max_def, abs_of_nonneg],
    by norm_num [c9Tl, min_def, abs_sub_comm, abs_of_nonneg],
    by norm_num [c9Tl, max_def, min_def], ?_⟩
  have hfind : find_clip_recursive c9Track.clips (some "A") none =
      some ([], 0, c9Track.clips, Clip.video "idA" "A" 0 60 "video" [] (some "/a.mp4")) := by
    simp [find_clip_recursive, findNameAux, c9Track, Clip.nameAttr]
  have h := cutCaseC c9Tl "A" 1 1 0 "u1" "u2" c9Track [] 0 c9Track.clips
    "idA" "A" 0 60 "video" [] (some "/a.mp4") (by decide) rfl hfind
    (by norm_num [c9Tl, max_def, min_def, abs_of_nonneg])
    (by norm_num [c9Tl, max_def, min_def, abs_sub_comm, abs_of_nonneg])
    (by norm_num [c9Tl, max_def, min_def])
  rw [h]
  norm_num [Timeline.setTrackClips, setTrackClipsAux, updateAtPath, VideoClip.init,
    c9Tl, c9Track, c7DegenTl, pyRound, max_def, min_def, Int.floor_intCast]
  exact ⟨rfl, rfl⟩
